import Mathlib

/-! # Rainmeter `CTintedImage` (Library/TintedImage.cpp)

A shallow embedding of the image slot implemented by `CTintedImage`: the
configuration binding (`ReadConfig`), the loader (`LoadImage`, `DisposeImage`,
`LoadImageFromFileHandle`) and the three pipeline stages (`ApplyCrop`,
`ApplyTint`, `ApplyTransform`), followed by theorems about them.

Modelling conventions.

* `Gdiplus::REAL` values are rationals: the finite values of a `float`, compared by
  value.  A `float` literal that is not a `float` value and every arithmetic
  operation on floats is rounded to single precision by `toREAL` (IEEE 754, to the
  nearest value, ties to even); the model describes the executions without
  overflow to infinity and without NaN.  The float a config source answers is the
  value the class stores, the cast `(REAL)` of a `double` included.
* `int` values are integers; signed overflow is undefined behaviour in C++ and the
  model describes the executions without it.
* `std::wstring` values are `String`s (no embedded terminator), and the C string
  routines work on their character lists.
* A `Gdiplus::Bitmap` is the record of the GDI+ calls that produced it.
* A method that mutates the object is a function from the object before the call
  to the object after it; `ReadConfig`, which can throw, returns in `Except`, the
  error carrying the object as the throw leaves it.  `LoadImage` also returns the
  list of routine calls it made, in order.
-/

/-! ## GDI+ and Win32 values -/

/-- The type `Gdiplus::REAL`. -/
abbrev REAL := ℚ

/-- The integer nearest to `r`; of the two nearest to a value half way between two
integers, the even one. -/
def roundHalfEven (r : ℚ) : Int :=
  if r - ⌊r⌋ < 1 / 2 then ⌊r⌋
  else if 1 / 2 < r - ⌊r⌋ then ⌊r⌋ + 1
  else if ⌊r⌋ % 2 = 0 then ⌊r⌋
  else ⌊r⌋ + 1

/-- The spacing of the `float` values around `q`: 2 to the power `e - 23`, where 2 to
the power `e` is the largest power of 2 not above `|q|`, and `e` is -126 for the
values below the normal range. -/
def floatSpacing (q : ℚ) : ℚ := 2 ^ (max (Int.log 2 |q|) (-126) - 23)

/-- The rounding of a result to `float`: the nearest multiple of the spacing, the even
one of two that are equally near. -/
def toREAL (q : ℚ) : REAL := roundHalfEven (q / floatSpacing q) * floatSpacing q

/-- The type `Gdiplus::Color`: a 32-bit ARGB value. -/
structure Color where
  Argb : Nat
deriving DecidableEq, Repr

namespace Color

/-- The method `Color::GetAlpha`: bits 24..31. -/
def GetAlpha (c : Color) : Nat := (c.Argb / 2 ^ 24) % 256

/-- The method `Color::GetRed`: bits 16..23. -/
def GetRed (c : Color) : Nat := (c.Argb / 2 ^ 16) % 256

/-- The method `Color::GetGreen`: bits 8..15. -/
def GetGreen (c : Color) : Nat := (c.Argb / 2 ^ 8) % 256

/-- The method `Color::GetBlue`: bits 0..7. -/
def GetBlue (c : Color) : Nat := c.Argb % 256

/-- The constant `Color::White`, 0xFFFFFFFF. -/
def White : Color := ⟨0xFFFFFFFF⟩

end Color

/-- The type `Gdiplus::ColorMatrix`: `REAL m[5][5]`. -/
structure ColorMatrix where
  m : Fin 5 → Fin 5 → REAL

namespace ColorMatrix

/-- The assignment `M->m[i][j] = v`. -/
def set (M : ColorMatrix) (i j : Fin 5) (v : REAL) : ColorMatrix :=
  ⟨fun i' j' => if i' = i ∧ j' = j then v else M.m i' j'⟩

/-- The loop `for (int i = 0; i < 4; ++i) M->m[row][i] = v[i];`, run on a vector
that has an element at each of the four indices. -/
def setRow (M : ColorMatrix) (row : Fin 5) (v : List REAL) : ColorMatrix :=
  (((M.set row 0 (v.getD 0 0)).set row 1 (v.getD 1 0)).set row 2 (v.getD 2 0)).set row 3
    (v.getD 3 0)

end ColorMatrix

/-- The type `Gdiplus::Rect`. -/
structure Rect where
  X : Int
  Y : Int
  Width : Int
  Height : Int
deriving DecidableEq, Repr

/-- The type `Gdiplus::RotateFlipType`, the four values the class uses. -/
inductive RotateFlipType where
  | RotateNoneFlipNone
  | RotateNoneFlipX
  | RotateNoneFlipY
  | RotateNoneFlipXY
deriving DecidableEq, Repr

open RotateFlipType

/-- The type `FILETIME`. -/
structure FILETIME where
  dwLowDateTime : Nat
  dwHighDateTime : Nat
deriving DecidableEq, Repr

/-- The routine `CompareFileTime`: -1, 0 or 1 as the first time is earlier than, equal to or
later than the second. -/
def CompareFileTime (a b : FILETIME) : Int :=
  if a.dwHighDateTime < b.dwHighDateTime then -1
  else if b.dwHighDateTime < a.dwHighDateTime then 1
  else if a.dwLowDateTime < b.dwLowDateTime then -1
  else if b.dwLowDateTime < a.dwLowDateTime then 1
  else 0

/-- A `Gdiplus::Bitmap`, as the record of how it was produced.

* `FromStream px w h`: decoded by `Bitmap::FromStream`, with pixel data `px` and
  size `w` by `h`.
* `New w h`: `new Bitmap(w, h, PixelFormat32bppPARGB)`, nothing drawn on it.
* `DrawImage w h rot src dst srcRect attr`: `new Bitmap(w, h, ...)` on which one
  `Graphics::DrawImage` call drew the part `srcRect = (x, y, width, height)` of `src`
  into `dst = (x, y, width, height)`, through the color matrix `attr` when there is
  one, under the world transform `RotateAt(angle, (cx, cy))` when
  `rot = some (angle, cx, cy)`.
* `RotateFlip b t`: `b` after the in-place call `b->RotateFlip(t)`. -/
inductive Bitmap where
  | FromStream (pixels : Nat) (width height : Nat)
  | New (width height : Int)
  | DrawImage (width height : Int) (rot : Option (REAL × REAL × REAL)) (src : Bitmap)
      (dst : REAL × REAL × REAL × REAL) (srcRect : REAL × REAL × REAL × REAL)
      (attr : Option ColorMatrix)
  | RotateFlip (b : Bitmap) (t : RotateFlipType)

namespace Bitmap

/-- The width of a bitmap allocated by `new Bitmap(w, h, ...)`: GDI+ refuses a
size that is not positive, and the object then reports 0. -/
def allocWidth (w h : Int) : Nat := if 0 < w ∧ 0 < h then w.toNat else 0

/-- The height of a bitmap allocated by `new Bitmap(w, h, ...)`. -/
def allocHeight (w h : Int) : Nat := if 0 < w ∧ 0 < h then h.toNat else 0

/-- The method `Bitmap::GetWidth`. -/
def GetWidth : Bitmap → Nat
  | FromStream _ w _ => w
  | New w h => allocWidth w h
  | DrawImage w h _ _ _ _ _ => allocWidth w h
  | RotateFlip b _ => GetWidth b

/-- The method `Bitmap::GetHeight`. -/
def GetHeight : Bitmap → Nat
  | FromStream _ _ h => h
  | New w h => allocHeight w h
  | DrawImage w h _ _ _ _ _ => allocHeight w h
  | RotateFlip b _ => GetHeight b

end Bitmap

/-! ## C runtime string routines -/

/-- The routine `iswspace` on the characters of the C locale. -/
def iswspace (c : Char) : Bool := c = ' ' || (9 ≤ c.toNat && c.toNat ≤ 13)

/-- The constant `INT_MAX`. -/
def INT_MAX : Int := 2147483647

/-- The constant `INT_MIN`. -/
def INT_MIN : Int := -2147483648

/-- The value of a run of decimal digits. -/
def digitsValue (ds : List Char) : Int :=
  ds.foldl (fun acc c => acc * 10 + ((c.toNat : Int) - 48)) 0

/-- The routine `_wtoi`: skips white space, reads an optional sign and the decimal digits 0..9 that
follow, and stops at the first other character; no digits give 0, and a value out
of the `int` range gives `INT_MAX` or `INT_MIN`. -/
def _wtoi (s : List Char) : Int :=
  let s := s.dropWhile iswspace
  let body := match s with
    | '-' :: t => t
    | '+' :: t => t
    | _ => s
  let n := digitsValue (body.takeWhile Char.isDigit)
  let v := match s with
    | '-' :: _ => -n
    | _ => n
  max INT_MIN (min INT_MAX v)

/-- The test `wcschr(s, c) != NULL`. -/
def wcschr (s : List Char) (c : Char) : Bool := s.contains c

/-- One call of `wcstok` on the text `str` that remains: the token found, if any,
and the text that remains for the next call.  Leading delimiters are skipped; the
token runs to the next delimiter, which is consumed. -/
def wcstok (str : List Char) (delim : Char) : Option (List Char) × List Char :=
  let s := str.dropWhile (fun c => c == delim)
  if s = [] then (none, [])
  else (some (s.takeWhile (fun c => c != delim)), (s.dropWhile (fun c => c != delim)).drop 1)

/-- The routine `_wcsicmp`: compares the two strings character by character after `towlower`;
0 when they agree, and else negative or positive as the first string is the lesser
or the greater at the first disagreement (the end of a string being less than any
character). -/
def _wcsicmp : List Char → List Char → Int
  | [], [] => 0
  | [], _ :: _ => -1
  | _ :: _, [] => 1
  | a :: as, b :: bs =>
    if a.toLower = b.toLower then _wcsicmp as bs
    else if a.toLower < b.toLower then -1
    else 1

/-- The routine `std::wstring::find_last_of(chars)`: the greatest index holding one of `chars`;
`none` is `npos`. -/
def find_last_of : List Char → List Char → Option Nat
  | [], _ => none
  | c :: cs, chars =>
    match find_last_of cs chars with
    | some i => some (i + 1)
    | none => if chars.contains c then some 0 else none

/-- The routine `std::wstring::find(c, pos)`: the least index at or after `pos` holding `c`;
`none` is `npos`. -/
def find : List Char → Char → Nat → Option Nat
  | [], _, _ => none
  | x :: xs, c, 0 => if x = c then some 0 else (find xs c 0).map (· + 1)
  | _ :: xs, c, pos + 1 => (find xs c pos).map (· + 1)

/-! ## The class and its collaborators -/

/-- Modelled from the spec: the `CROPMODE` enumeration is declared in TintedImage.h,
which is not among the sources; the spec numbers the anchors 0..4 in the order
TopLeft, TopRight, BottomRight, BottomLeft, Center.  The member `m_CropMode` holds
whatever integer the configuration supplied, so the type is the integers. -/
abbrev CROPMODE := Int

/-- Modelled from the spec: the anchor TopLeft of the `CROPMODE` enumeration of
TintedImage.h, index 0. -/
def CROPMODE_TL : CROPMODE := 0

/-- Modelled from the spec: the anchor TopRight of the `CROPMODE` enumeration of
TintedImage.h, index 1. -/
def CROPMODE_TR : CROPMODE := 1

/-- Modelled from the spec: the anchor BottomRight of the `CROPMODE` enumeration of
TintedImage.h, index 2. -/
def CROPMODE_BR : CROPMODE := 2

/-- Modelled from the spec: the anchor BottomLeft of the `CROPMODE` enumeration of
TintedImage.h, index 3. -/
def CROPMODE_BL : CROPMODE := 3

/-- Modelled from the spec: the anchor Center of the `CROPMODE` enumeration of
TintedImage.h, index 4. -/
def CROPMODE_C : CROPMODE := 4

/-- The indices into `m_ConfigArray` that `ReadConfig` uses. -/
inductive ConfigIndex where
  | ConfigIndexImageCrop
  | ConfigIndexGreyscale
  | ConfigIndexImageTint
  | ConfigIndexImageAlpha
  | ConfigIndexColorMatrix1
  | ConfigIndexColorMatrix2
  | ConfigIndexColorMatrix3
  | ConfigIndexColorMatrix4
  | ConfigIndexColorMatrix5
  | ConfigIndexImageFlip
  | ConfigIndexImageRotate
deriving DecidableEq, Repr

open ConfigIndex

/-- Modelled from the spec: the default key names, which the macro
`CTintedImageHelper_DefineConfigArray` of TintedImage.h (not among the sources)
builds from an empty name; the spec lists the recognised keys. -/
def c_DefaultConfigArray : ConfigIndex → String
  | ConfigIndexImageCrop => "ImageCrop"
  | ConfigIndexGreyscale => "Greyscale"
  | ConfigIndexImageTint => "ImageTint"
  | ConfigIndexImageAlpha => "ImageAlpha"
  | ConfigIndexColorMatrix1 => "ColorMatrix1"
  | ConfigIndexColorMatrix2 => "ColorMatrix2"
  | ConfigIndexColorMatrix3 => "ColorMatrix3"
  | ConfigIndexColorMatrix4 => "ColorMatrix4"
  | ConfigIndexColorMatrix5 => "ColorMatrix5"
  | ConfigIndexImageFlip => "ImageFlip"
  | ConfigIndexImageRotate => "ImageRotate"

/-- Modelled from the spec: the config source `CConfigParser` (ConfigParser.h and
ConfigParser.cpp are not among the sources).  For a section and a key it holds the
value the file supplies, already coerced to the type asked for, or nothing when the
key is absent; `ReadFloats` yields the sequence of floats found, empty when the key
is absent. -/
structure CConfigParser where
  strings : String → String → Option String
  ints : String → String → Option Int
  floats : String → String → Option REAL
  floatLists : String → String → List REAL
  colors : String → String → Option Color

namespace CConfigParser

/-- Modelled from the spec: `ReadString(section, key, default)` of the config
source. -/
def ReadString (p : CConfigParser) (sect key defValue : String) : String :=
  (p.strings sect key).getD defValue

/-- Modelled from the spec: `ReadInt(section, key, default)` of the config source. -/
def ReadInt (p : CConfigParser) (sect key : String) (defValue : Int) : Int :=
  (p.ints sect key).getD defValue

/-- Modelled from the spec: `ReadFloat(section, key, default)` of the config
source. -/
def ReadFloat (p : CConfigParser) (sect key : String) (defValue : REAL) : REAL :=
  (p.floats sect key).getD defValue

/-- Modelled from the spec: `ReadFloats(section, key)` of the config source. -/
def ReadFloats (p : CConfigParser) (sect key : String) : List REAL :=
  p.floatLists sect key

/-- Modelled from the spec: `ReadColor(section, key, default)` of the config
source. -/
def ReadColor (p : CConfigParser) (sect key : String) (defValue : Color) : Color :=
  (p.colors sect key).getD defValue

end CConfigParser

/-- The type `CError`: the message and the source line of the `throw`. -/
structure CError where
  message : String
  line : Nat
deriving DecidableEq, Repr

/-- The type `HGLOBAL`: a non-null memory handle. -/
abbrev HGLOBAL := Nat

/-- The data members of `CTintedImage`.  A pointer member is an `Option`, `none`
being `NULL`; `m_ColorMatrix` always points to its own matrix and is that matrix. -/
structure CTintedImage where
  m_DisableTransform : Bool
  m_ConfigName : String
  m_ConfigArray : ConfigIndex → String
  m_Bitmap : Option Bitmap
  m_BitmapTint : Option Bitmap
  m_hBuffer : Option HGLOBAL
  m_Modified : FILETIME
  m_NeedsCrop : Bool
  m_NeedsTinting : Bool
  m_NeedsTransform : Bool
  m_Crop : Rect
  m_CropMode : CROPMODE
  m_GreyScale : Bool
  m_ColorMatrix : ColorMatrix
  m_Flip : RotateFlipType
  m_Rotate : REAL

/-- What a `throw` out of a method leaves: the error and the object as it then is. -/
structure Thrown where
  error : CError
  self : CTintedImage

namespace CTintedImage

/-- The constant `c_GreyScaleMatrix`. -/
def c_GreyScaleMatrix : ColorMatrix :=
  ⟨![![toREAL 0.299, toREAL 0.299, toREAL 0.299, 0, 0],
     ![toREAL 0.587, toREAL 0.587, toREAL 0.587, 0, 0],
     ![toREAL 0.114, toREAL 0.114, toREAL 0.114, 0, 0],
     ![0, 0, 0, 1, 0],
     ![0, 0, 0, 0, 1]]⟩

/-- The constant `c_IdentifyMatrix`. -/
def c_IdentifyMatrix : ColorMatrix :=
  ⟨![![1, 0, 0, 0, 0],
     ![0, 1, 0, 0, 0],
     ![0, 0, 1, 0, 0],
     ![0, 0, 0, 1, 0],
     ![0, 0, 0, 0, 1]]⟩

/-- The constructor `CTintedImage::CTintedImage(name, configArray, disableTransform)`;
a null `name` or `configArray` is `none`. -/
def new (name : Option String) (configArray : Option (ConfigIndex → String))
    (disableTransform : Bool) : CTintedImage where
  m_DisableTransform := disableTransform
  m_ConfigName := name.getD "Image"
  m_ConfigArray := configArray.getD c_DefaultConfigArray
  m_Bitmap := none
  m_BitmapTint := none
  m_hBuffer := none
  m_Modified := ⟨0, 0⟩
  m_NeedsCrop := false
  m_NeedsTinting := false
  m_NeedsTransform := false
  m_Crop := ⟨-1, -1, -1, -1⟩
  m_CropMode := CROPMODE_TL
  m_GreyScale := false
  m_ColorMatrix := c_IdentifyMatrix
  m_Flip := RotateNoneFlipNone
  m_Rotate := 0

/-- The method `CompareColorMatrix`: the two loops, rows 0..4 and columns 0..3, answering false
at the first entry that differs. -/
def CompareColorMatrix (a b : ColorMatrix) : Bool :=
  (List.finRange 5).all fun i =>
    (List.finRange 4).all fun j => a.m i j.castSucc == b.m i j.castSucc

/-- Part of `ReadConfig`, lines 484-512: the five `wcstok` calls over the copy of the crop
string, each storing `_wtoi` of its token, when there is one, in the next of
`m_Crop.X`, `m_Crop.Y`, `m_Crop.Width`, `m_Crop.Height` and `m_CropMode`; the
argument and the result are the values of `m_Crop` and `m_CropMode`. -/
def ReadConfig_tokens (crop : Rect) (cropMode : CROPMODE) (parseSz : List Char) :
    Rect × CROPMODE :=
  let t1 := wcstok parseSz ','
  let crop := match t1.1 with
    | some token => { crop with X := _wtoi token }
    | none => crop
  let t2 := wcstok t1.2 ','
  let crop := match t2.1 with
    | some token => { crop with Y := _wtoi token }
    | none => crop
  let t3 := wcstok t2.2 ','
  let crop := match t3.1 with
    | some token => { crop with Width := _wtoi token }
    | none => crop
  let t4 := wcstok t3.2 ','
  let crop := match t4.1 with
    | some token => { crop with Height := _wtoi token }
    | none => crop
  let t5 := wcstok t4.2 ','
  let cropMode := match t5.1 with
    | some token => _wtoi token
    | none => cropMode
  (crop, cropMode)

/-- Part of `ReadConfig`, lines 474-526: the crop rectangle and anchor are reset and read
from the `ImageCrop` string, unless the transform is disabled; an anchor outside
`CROPMODE_TL..CROPMODE_C` throws. -/
def ReadConfig_crop (self : CTintedImage) (parser : CConfigParser) (sect : String) :
    Except Thrown CTintedImage :=
  if !self.m_DisableTransform then
    let s0 := { self with m_Crop := ⟨-1, -1, -1, -1⟩, m_CropMode := CROPMODE_TL }
    let crop := parser.ReadString sect (self.m_ConfigArray ConfigIndexImageCrop) ""
    if crop ≠ "" then
      let r := if wcschr crop.data ',' then ReadConfig_tokens s0.m_Crop s0.m_CropMode crop.data
        else (s0.m_Crop, s0.m_CropMode)
      let s1 := { s0 with m_Crop := r.1, m_CropMode := r.2 }
      if s1.m_CropMode < CROPMODE_TL ∨ s1.m_CropMode > CROPMODE_C then
        .error ⟨⟨self.m_ConfigArray ConfigIndexImageCrop ++ "=" ++ crop ++
          " (origin) is not valid in meter [" ++ sect ++ "].", 523⟩, s1⟩
      else .ok s1
    else .ok s0
  else .ok self

/-- Part of `ReadConfig`, lines 532-602: the color matrix, which starts as the identity;
each of the rows 0..3 takes its first four entries from its `ColorMatrixN` key when
that supplies five floats and else its diagonal entry from the tint color or the
alpha, and row 4 takes its first four entries from `ColorMatrix5` when that supplies
five floats.  The result is the value of `*m_ColorMatrix`. -/
def ReadConfig_matrix (configArray : ConfigIndex → String) (parser : CConfigParser)
    (sect : String) : ColorMatrix :=
  let tint := parser.ReadColor sect (configArray ConfigIndexImageTint) Color.White
  let alpha := parser.ReadInt sect (configArray ConfigIndexImageAlpha) tint.GetAlpha
  let alpha := min 255 alpha
  let alpha := max 0 alpha
  let M := c_IdentifyMatrix
  let matrix1 := parser.ReadFloats sect (configArray ConfigIndexColorMatrix1)
  let M := if matrix1.length = 5 then M.setRow 0 matrix1
    else M.set 0 0 (toREAL ((tint.GetRed : REAL) / 255))
  let matrix2 := parser.ReadFloats sect (configArray ConfigIndexColorMatrix2)
  let M := if matrix2.length = 5 then M.setRow 1 matrix2
    else M.set 1 1 (toREAL ((tint.GetGreen : REAL) / 255))
  let matrix3 := parser.ReadFloats sect (configArray ConfigIndexColorMatrix3)
  let M := if matrix3.length = 5 then M.setRow 2 matrix3
    else M.set 2 2 (toREAL ((tint.GetBlue : REAL) / 255))
  let matrix4 := parser.ReadFloats sect (configArray ConfigIndexColorMatrix4)
  let M := if matrix4.length = 5 then M.setRow 3 matrix4
    else M.set 3 3 (toREAL ((alpha : REAL) / 255))
  let matrix5 := parser.ReadFloats sect (configArray ConfigIndexColorMatrix5)
  if matrix5.length = 5 then M.setRow 4 matrix5 else M

/-- Part of `ReadConfig`, lines 606-632: the flip keyword, compared without regard to case;
`none` is the `throw` of the last branch. -/
def ReadConfig_flip (flip : String) : Option RotateFlipType :=
  if _wcsicmp flip.data "NONE".data = 0 then some RotateNoneFlipNone
  else if _wcsicmp flip.data "HORIZONTAL".data = 0 then some RotateNoneFlipX
  else if _wcsicmp flip.data "VERTICAL".data = 0 then some RotateNoneFlipY
  else if _wcsicmp flip.data "BOTH".data = 0 then some RotateNoneFlipXY
  else none

/-- The method `ReadConfig`: reads the configuration of section `sect` into the object and
sets the three flags by comparing the new parameters with the ones stored before. -/
def ReadConfig (self : CTintedImage) (parser : CConfigParser) (sect : String) :
    Except Thrown CTintedImage :=
  let oldCrop := self.m_Crop
  let oldCropMode := self.m_CropMode
  let oldGreyScale := self.m_GreyScale
  let oldColorMatrix := self.m_ColorMatrix
  let oldFlip := self.m_Flip
  let oldRotate := self.m_Rotate
  match ReadConfig_crop self parser sect with
  | .error e => .error e
  | .ok s =>
    let s := { s with m_NeedsCrop := decide (oldCrop.X ≠ s.m_Crop.X ∨ oldCrop.Y ≠ s.m_Crop.Y ∨
      oldCrop.Width ≠ s.m_Crop.Width ∨ oldCrop.Height ≠ s.m_Crop.Height ∨
      oldCropMode ≠ s.m_CropMode) }
    let greyScale := decide (0 ≠ parser.ReadInt sect (s.m_ConfigArray ConfigIndexGreyscale) 0)
    let s := { s with m_GreyScale := greyScale }
    let s := { s with m_ColorMatrix := ReadConfig_matrix s.m_ConfigArray parser sect }
    let s := { s with m_NeedsTinting := decide (oldGreyScale ≠ s.m_GreyScale) ||
      !CompareColorMatrix oldColorMatrix s.m_ColorMatrix }
    let flip := parser.ReadString sect (s.m_ConfigArray ConfigIndexImageFlip) "NONE"
    match ReadConfig_flip flip with
    | none =>
      .error ⟨⟨s.m_ConfigArray ConfigIndexImageFlip ++ "=" ++ flip ++
        " is not valid in meter [" ++ sect ++ "].", 631⟩, s⟩
    | some f =>
      let s := { s with m_Flip := f }
      let s := if !s.m_DisableTransform then
          { s with m_Rotate := parser.ReadFloat sect (s.m_ConfigArray ConfigIndexImageRotate) 0 }
        else s
      .ok { s with m_NeedsTransform := decide (oldFlip ≠ s.m_Flip ∨ oldRotate ≠ s.m_Rotate) }

end CTintedImage

/-! ## The loader and the pipeline -/

/-- An opened file, as what the Win32 and GDI+ calls on its handle yield:
`GetFileTime` (last write time), `GetFileSize` (`none` is `INVALID_FILE_SIZE`),
`GlobalAlloc` (`none` is a null handle), `GlobalLock` (whether the pointer is
non-null), `CreateStreamOnHGlobal` (whether it answers `S_OK`) and
`Bitmap::FromStream` (`none` is a null bitmap; else the bitmap and whether its
`GetLastStatus` is `Ok`). -/
structure FileHandle where
  lastWriteTime : FILETIME
  imageSize : Option Nat
  hBuffer : Option HGLOBAL
  pBuffer : Bool
  streamOk : Bool
  bitmap : Option (Bitmap × Bool)

/-- The platform the class runs on: `CreateFile` for reading (`none` is
`INVALID_HANDLE_VALUE`) and the `cos` and `sin` of the C runtime on floats. -/
structure Host where
  CreateFile : String → Option FileHandle
  cos : REAL → REAL
  sin : REAL → REAL

/-- The routine calls `LoadImage` makes, recorded in order. -/
inductive Event where
  | CreateFile (filename : String)
  | DisposeImage
  | LoadImageFromFileHandle
  | ApplyCrop
  | ApplyTint
  | ApplyTransform
  | LogWithArgs (format : String) (args : List String)
deriving DecidableEq, Repr

/-- The macro `PI`, the literal `3.14159265f`. -/
def PI : REAL := toREAL 3.14159265

/-- The macro `CONVERT_TO_RADIANS`. -/
def CONVERT_TO_RADIANS (X : REAL) : REAL := toREAL (X * toREAL (PI / 180))

/-- The cast `(int)` of a float: truncation toward zero. -/
def truncToInt (q : REAL) : Int := if 0 ≤ q then Int.floor q else Int.ceil q

namespace CTintedImage

/-- The method `DisposeImage`: frees the two bitmaps and the buffer and zeroes the stored
time. -/
def DisposeImage (self : CTintedImage) : CTintedImage :=
  { self with m_Bitmap := none, m_BitmapTint := none, m_hBuffer := none, m_Modified := ⟨0, 0⟩ }

/-- The method `LoadImageFromFileHandle`: the bitmap and the buffer it was decoded from, or
`none` for the answer `false`, which leaves the two output arguments untouched. -/
def LoadImageFromFileHandle (fileHandle : FileHandle) : Option (Bitmap × HGLOBAL) :=
  match fileHandle.imageSize with
  | none => none
  | some _ =>
    match fileHandle.hBuffer with
    | none => none
    | some hBuffer =>
      if fileHandle.pBuffer then
        if fileHandle.streamOk then
          match fileHandle.bitmap with
          | some (bitmap, true) => some (bitmap, hBuffer)
          | _ => none
        else none
      else none

/-- Modelled from the spec: `GetImage`, declared in TintedImage.h (not among the
sources): the effective current image, the derived image when there is one and
else the source image. -/
def GetImage (self : CTintedImage) : Option Bitmap :=
  match self.m_BitmapTint with
  | some b => some b
  | none => self.m_Bitmap

/-- Modelled from the spec: `IsLoaded`, declared in TintedImage.h (not among the
sources): whether a source image is loaded. -/
def IsLoaded (self : CTintedImage) : Bool := self.m_Bitmap.isSome

/-- The method `ApplyCrop`; it is called with a source bitmap.  The `switch` on `m_CropMode`
sends `CROPMODE_TL` and, by its `default` label, every value that is no other anchor
to the offset as it is. -/
def ApplyCrop (self : CTintedImage) : CTintedImage :=
  if self.m_Crop.Width ≥ 0 ∧ self.m_Crop.Height ≥ 0 then
    if self.m_Crop.Width = 0 ∨ self.m_Crop.Height = 0 then
      { self with m_BitmapTint := some (Bitmap.New 0 0) }
    else
      match self.m_Bitmap with
      | none => self
      | some bitmap =>
        let imageW : Int := bitmap.GetWidth
        let imageH : Int := bitmap.GetHeight
        let xy : Int × Int :=
          if self.m_CropMode = CROPMODE_TR then (self.m_Crop.X + imageW, self.m_Crop.Y)
          else if self.m_CropMode = CROPMODE_BR then
            (self.m_Crop.X + imageW, self.m_Crop.Y + imageH)
          else if self.m_CropMode = CROPMODE_BL then (self.m_Crop.X, self.m_Crop.Y + imageH)
          else if self.m_CropMode = CROPMODE_C then
            (self.m_Crop.X + imageW / 2, self.m_Crop.Y + imageH / 2)
          else (self.m_Crop.X, self.m_Crop.Y)
        let r : Rect := ⟨0, 0, self.m_Crop.Width, self.m_Crop.Height⟩
        { self with m_BitmapTint := some (Bitmap.DrawImage r.Width r.Height none bitmap
            (r.X, r.Y, r.Width, r.Height) (xy.1, xy.2, r.Width, r.Height) none) }
  else self

/-- The method `TurnGreyscale`: a new bitmap of the size of `source`, on which `source` is
drawn through `c_GreyScaleMatrix`. -/
def TurnGreyscale (source : Bitmap) : Bitmap :=
  let r : Rect := ⟨0, 0, source.GetWidth, source.GetHeight⟩
  Bitmap.DrawImage r.Width r.Height none source (r.X, r.Y, r.Width, r.Height)
    (0, 0, r.Width, r.Height) (some c_GreyScaleMatrix)

/-- The method `ApplyTint`; it is called with an effective current image. -/
def ApplyTint (self : CTintedImage) : CTintedImage :=
  if self.m_GreyScale ∨ !CompareColorMatrix self.m_ColorMatrix c_IdentifyMatrix then
    match self.GetImage with
    | none => self
    | some original =>
      let r : Rect := ⟨0, 0, original.GetWidth, original.GetHeight⟩
      let tint :=
        if self.m_GreyScale then
          Bitmap.DrawImage r.Width r.Height none (TurnGreyscale original)
            (r.X, r.Y, r.Width, r.Height) (0, 0, r.Width, r.Height) (some self.m_ColorMatrix)
        else
          Bitmap.DrawImage r.Width r.Height none original
            (r.X, r.Y, r.Width, r.Height) (0, 0, r.Width, r.Height) (some self.m_ColorMatrix)
      { self with m_BitmapTint := some tint }
  else self

/-- The object after the in-place calls of `RotateFlip` on `original`, the bitmap
`GetImage` answered, have turned it into `b`, and the derived image has then been
deleted and replaced by `transform`: when there was a derived image it was
`original` and is gone, else `original` was the source bitmap, which stays as
`b`. -/
def replaceAfterDraw (self : CTintedImage) (b transform : Bitmap) : CTintedImage :=
  match self.m_BitmapTint with
  | some _ => { self with m_BitmapTint := some transform }
  | none => { self with m_Bitmap := some b, m_BitmapTint := some transform }

/-- The method `ApplyTransform`; it is called with an effective current image. -/
def ApplyTransform (self : CTintedImage) (host : Host) : CTintedImage :=
  if self.m_Rotate ≠ 0 then
    match self.GetImage with
    | none => self
    | some original =>
      let originalW : REAL := toREAL original.GetWidth
      let originalH : REAL := toREAL original.GetHeight
      let cos_f := toREAL (host.cos (CONVERT_TO_RADIANS self.m_Rotate))
      let sin_f := toREAL (host.sin (CONVERT_TO_RADIANS self.m_Rotate))
      let transformW := toREAL (|toREAL (originalW * cos_f)| + |toREAL (originalH * sin_f)|)
      let transformH := toREAL (|toREAL (originalW * sin_f)| + |toREAL (originalH * cos_f)|)
      let cx := toREAL (transformW / 2)
      let cy := toREAL (transformH / 2)
      let flipped :=
        if self.m_Flip ≠ RotateNoneFlipNone then Bitmap.RotateFlip original self.m_Flip
        else original
      let transform := Bitmap.DrawImage (truncToInt (toREAL (transformW + 0.5)))
        (truncToInt (toREAL (transformH + 0.5))) (some (self.m_Rotate, cx, cy)) flipped
        (toREAL (cx - toREAL (originalW / 2)), toREAL (cy - toREAL (originalH / 2)),
          originalW, originalH)
        (-0.5, -0.5, toREAL (originalW + 1), toREAL (originalH + 1)) none
      let restored :=
        if self.m_Flip ≠ RotateNoneFlipNone then Bitmap.RotateFlip flipped RotateNoneFlipNone
        else flipped
      self.replaceAfterDraw restored transform
  else if self.m_Flip ≠ RotateNoneFlipNone then
    match self.GetImage with
    | none => self
    | some original =>
      let r : Rect := ⟨0, 0, original.GetWidth, original.GetHeight⟩
      let flipped := Bitmap.RotateFlip original self.m_Flip
      let transform := Bitmap.DrawImage r.Width r.Height none flipped
        (r.X, r.Y, r.Width, r.Height) (0, 0, r.Width, r.Height) none
      self.replaceAfterDraw (Bitmap.RotateFlip flipped RotateNoneFlipNone) transform
  else self

/-- Part of `LoadImage`, lines 178-184: the file name, with ".png" added when `find` sees
no '.' from the last backslash on. -/
def LoadImage_filename (imageName : String) : String :=
  let filename := imageName
  let pos := (find_last_of filename.data [Char.ofNat 92]).getD 0
  if find filename.data '.' pos = none then filename ++ ".png" else filename

/-- Part of `LoadImage`, lines 195-227: the reload.  The slot is disposed and the file
decoded; on success the bitmap, buffer and time are stored and each flag that is
not set is set when its stage has something to do; on failure the error is logged. -/
def LoadImage_reload (self : CTintedImage) (fileHandle : FileHandle) (filename : String)
    (tmpTime : FILETIME) : CTintedImage × List Event :=
  let s := self.DisposeImage
  match LoadImageFromFileHandle fileHandle with
  | some (bitmap, hBuffer) =>
    let s := { s with m_Bitmap := some bitmap, m_hBuffer := some hBuffer, m_Modified := tmpTime }
    let s :=
      if !s.m_NeedsCrop then
        if s.m_Crop.Width ≥ 0 ∨ s.m_Crop.Height ≥ 0 then { s with m_NeedsCrop := true } else s
      else s
    let s :=
      if !s.m_NeedsTinting then
        if s.m_GreyScale ∨ !CompareColorMatrix s.m_ColorMatrix c_IdentifyMatrix then
          { s with m_NeedsTinting := true }
        else s
      else s
    let s :=
      if !s.m_NeedsTransform then
        if s.m_Flip ≠ RotateNoneFlipNone ∨ s.m_Rotate ≠ 0 then { s with m_NeedsTransform := true }
        else s
      else s
    (s, [Event.DisposeImage, Event.LoadImageFromFileHandle])
  | none =>
    (s, [Event.DisposeImage, Event.LoadImageFromFileHandle,
      Event.LogWithArgs "Unable to load %s: %s" [self.m_ConfigName, filename]])

/-- Part of `LoadImage`, lines 242-251: the stages, run on a source bitmap that has a
positive width and height. -/
def LoadImage_stages (self : CTintedImage) (host : Host) (bitmap : Bitmap) :
    CTintedImage × List Event :=
  if bitmap.GetWidth > 0 ∧ bitmap.GetHeight > 0 then
    let s := self.ApplyCrop
    let go := match s.m_BitmapTint with
      | none => true
      | some t => decide (t.GetWidth > 0 ∧ t.GetHeight > 0)
    if go then
      ((s.ApplyTint).ApplyTransform host, [Event.ApplyCrop, Event.ApplyTint, Event.ApplyTransform])
    else (s, [Event.ApplyCrop])
  else (self, [])

/-- Part of `LoadImage`, lines 231-257: when there is a source bitmap and a flag is set,
the derived image is deleted, the stages run and the three flags are cleared. -/
def LoadImage_pipeline (self : CTintedImage) (host : Host) : CTintedImage × List Event :=
  match self.m_Bitmap with
  | none => (self, [])
  | some bitmap =>
    if self.m_NeedsCrop ∨ self.m_NeedsTinting ∨ self.m_NeedsTransform then
      let r := LoadImage_stages { self with m_BitmapTint := none } host bitmap
      ({ r.1 with m_NeedsCrop := false, m_NeedsTinting := false, m_NeedsTransform := false }, r.2)
    else (self, [])

/-- The method `LoadImage`: loads the image `imageName` unless the stored time says the file
is the one already loaded, then runs the pipeline when a flag is set. -/
def LoadImage (self : CTintedImage) (host : Host) (imageName : String) (bLoadAlways : Bool) :
    CTintedImage × List Event :=
  if imageName ≠ "" then
    let filename := LoadImage_filename imageName
    match host.CreateFile filename with
    | some fileHandle =>
      let tmpTime := fileHandle.lastWriteTime
      let r1 :=
        if bLoadAlways ∨ CompareFileTime tmpTime self.m_Modified ≠ 0 then
          LoadImage_reload self fileHandle filename tmpTime
        else (self, [])
      let r2 := LoadImage_pipeline r1.1 host
      (r2.1, Event.CreateFile filename :: (r1.2 ++ r2.2))
    | none =>
      (self.DisposeImage, [Event.CreateFile filename,
        Event.LogWithArgs "Unable to open %s: %s" [self.m_ConfigName, filename],
        Event.DisposeImage])
  else if self.IsLoaded then (self.DisposeImage, [Event.DisposeImage])
  else (self, [])

end CTintedImage

/-! ## Notions the claims are stated with -/

/-- The fields of an `ImageCrop` value: its non-empty pieces between commas. -/
def cropFields (crop : String) : List (List Char) :=
  (crop.data.splitOn ',').filter fun f => !f.isEmpty

/-- The anchor index an `ImageCrop` value carries: the integer its fifth field
reads as, when it has a fifth field. -/
def anchorIndex (crop : String) : Option Int :=
  (cropFields crop)[4]?.map _wtoi

/-- Two strings are equal when compared case-insensitively. -/
def equalsIgnoreCase (a b : String) : Prop :=
  a.data.map Char.toLower = b.data.map Char.toLower

instance (a b : String) : Decidable (equalsIgnoreCase a b) := by
  unfold equalsIgnoreCase; infer_instance

/-- The `ImageFlip` value is, compared case-insensitively, one of NONE, HORIZONTAL,
VERTICAL, BOTH. -/
def isFlipKeyword (flip : String) : Prop :=
  equalsIgnoreCase flip "NONE" ∨ equalsIgnoreCase flip "HORIZONTAL" ∨
    equalsIgnoreCase flip "VERTICAL" ∨ equalsIgnoreCase flip "BOTH"

instance (flip : String) : Decidable (isFlipKeyword flip) := by
  unfold isFlipKeyword; infer_instance

/-- The bitmap of size `w` by `h` onto the whole of which the part of `src` that has
origin `(ox, oy)` and size `w` by `h` is drawn, with no color matrix and no
rotation. -/
def Bitmap.sampledFrom (src : Bitmap) (ox oy w h : Int) : Bitmap :=
  Bitmap.DrawImage w h none src (0, 0, w, h) (ox, oy, w, h) none

/-- The slot is empty: no source bitmap, no derived bitmap, no raw buffer, and the
stored time zero. -/
def CTintedImage.slotEmpty (s : CTintedImage) : Prop :=
  s.m_Bitmap = none ∧ s.m_BitmapTint = none ∧ s.m_hBuffer = none ∧ s.m_Modified = ⟨0, 0⟩

/-- The states an object can be in: the state the constructor leaves, and every state
a call of `ReadConfig` (by return or by throw), `LoadImage` or `DisposeImage` leaves
when made in such a state. -/
inductive CTintedImage.Reachable : CTintedImage → Prop where
  | new (name : Option String) (configArray : Option (ConfigIndex → String))
      (disableTransform : Bool) : Reachable (CTintedImage.new name configArray disableTransform)
  | ReadConfig_return (s s' : CTintedImage) (parser : CConfigParser) (sect : String) :
      Reachable s → s.ReadConfig parser sect = .ok s' → Reachable s'
  | ReadConfig_throw (s : CTintedImage) (e : Thrown) (parser : CConfigParser) (sect : String) :
      Reachable s → s.ReadConfig parser sect = .error e → Reachable e.self
  | LoadImage (s : CTintedImage) (host : Host) (imageName : String) (bLoadAlways : Bool) :
      Reachable s → Reachable (s.LoadImage host imageName bLoadAlways).1
  | DisposeImage (s : CTintedImage) : Reachable s → Reachable s.DisposeImage

/-- The index `k` is the position of the last backslash of `path`, or 0 when `path`
has no backslash. -/
def lastBackslashPos (path : String) (k : Nat) : Prop :=
  (path.data[k]? = some (Char.ofNat 92) ∧ ∀ j : Nat, k < j → path.data[j]? ≠ some (Char.ofNat 92)) ∨
    ((∀ j : Nat, path.data[j]? ≠ some (Char.ofNat 92)) ∧ k = 0)

/-- The path lacks an extension, as the code decides it: no '.' occurs at or after the
position of the last backslash (position 0 when the path has no backslash). -/
def lacksExtension (path : String) : Prop :=
  ∀ k : Nat, lastBackslashPos path k → ∀ i : Nat, k ≤ i → path.data[i]? ≠ some '.'

/-- A sequence of `ReadConfig` calls on one object with no other call between them,
each with its config source and section; it ends at the first call that throws. -/
def CTintedImage.ReadConfigSeq (s : CTintedImage) :
    List (CConfigParser × String) → Except Thrown CTintedImage
  | [] => .ok s
  | c :: cs =>
    match s.ReadConfig c.1 c.2 with
    | .ok s' => ReadConfigSeq s' cs
    | .error e => .error e

/-! ## Auxiliary definitions for the proofs -/

namespace CTintedImage

/-- The values `ReadConfig` leaves in `m_Crop` and `m_CropMode` once the crop block
(lines 474-526) is over, by return or by throw. -/
def cropValues (self : CTintedImage) (parser : CConfigParser) (sect : String) :
    Rect × CROPMODE :=
  if self.m_DisableTransform then (self.m_Crop, self.m_CropMode)
  else if parser.ReadString sect (self.m_ConfigArray ConfigIndexImageCrop) "" ≠ "" ∧
      wcschr (parser.ReadString sect (self.m_ConfigArray ConfigIndexImageCrop) "").data ',' then
    ReadConfig_tokens ⟨-1, -1, -1, -1⟩ CROPMODE_TL
      (parser.ReadString sect (self.m_ConfigArray ConfigIndexImageCrop) "").data
  else (⟨-1, -1, -1, -1⟩, CROPMODE_TL)

/-- Whether the crop block of `ReadConfig` throws. -/
def cropThrows (self : CTintedImage) (parser : CConfigParser) (sect : String) : Prop :=
  self.m_DisableTransform = false ∧
    parser.ReadString sect (self.m_ConfigArray ConfigIndexImageCrop) "" ≠ "" ∧
    ((cropValues self parser sect).2 < CROPMODE_TL ∨ (cropValues self parser sect).2 > CROPMODE_C)

instance (self : CTintedImage) (parser : CConfigParser) (sect : String) :
    Decidable (cropThrows self parser sect) := by
  unfold cropThrows; infer_instance

/-- The object with `m_Crop` and `m_CropMode` replaced. -/
def withCrop (self : CTintedImage) (v : Rect × CROPMODE) : CTintedImage :=
  { self with m_Crop := v.1, m_CropMode := v.2 }

/-- The object with its three flags replaced. -/
def withFlags (self : CTintedImage) (c t r : Bool) : CTintedImage :=
  { self with m_NeedsCrop := c, m_NeedsTinting := t, m_NeedsTransform := r }

/-- The object `ReadConfig` has built when it reaches the flip block (line 606): the
crop values stored, `m_NeedsCrop` set, the greyscale flag and the color matrix read
and `m_NeedsTinting` set. -/
def beforeFlip (self : CTintedImage) (parser : CConfigParser) (sect : String) : CTintedImage :=
  { self with
    m_Crop := (cropValues self parser sect).1
    m_CropMode := (cropValues self parser sect).2
    m_NeedsCrop := decide (self.m_Crop.X ≠ (cropValues self parser sect).1.X ∨
      self.m_Crop.Y ≠ (cropValues self parser sect).1.Y ∨
      self.m_Crop.Width ≠ (cropValues self parser sect).1.Width ∨
      self.m_Crop.Height ≠ (cropValues self parser sect).1.Height ∨
      self.m_CropMode ≠ (cropValues self parser sect).2)
    m_GreyScale := decide (0 ≠ parser.ReadInt sect (self.m_ConfigArray ConfigIndexGreyscale) 0)
    m_ColorMatrix := ReadConfig_matrix self.m_ConfigArray parser sect
    m_NeedsTinting :=
      decide (self.m_GreyScale ≠
        decide (0 ≠ parser.ReadInt sect (self.m_ConfigArray ConfigIndexGreyscale) 0)) ||
      !CompareColorMatrix self.m_ColorMatrix (ReadConfig_matrix self.m_ConfigArray parser sect) }

/-- The value `ReadConfig` leaves in `m_Rotate` when it returns. -/
def rotateValue (self : CTintedImage) (parser : CConfigParser) (sect : String) : REAL :=
  if self.m_DisableTransform then self.m_Rotate
  else parser.ReadFloat sect (self.m_ConfigArray ConfigIndexImageRotate) 0

/-- The object `ReadConfig` returns when the flip keyword reads as `f`. -/
def afterFlip (self : CTintedImage) (parser : CConfigParser) (sect : String)
    (f : RotateFlipType) : CTintedImage :=
  { beforeFlip self parser sect with
    m_Flip := f
    m_Rotate := rotateValue self parser sect
    m_NeedsTransform := decide (self.m_Flip ≠ f ∨ self.m_Rotate ≠ rotateValue self parser sect) }

end CTintedImage

namespace CTintedImage

/-- The members that hold the configuration: the constructor arguments and the
parameters `ReadConfig` reads. -/
def params (self : CTintedImage) :
    Bool × String × (ConfigIndex → String) × Rect × CROPMODE × Bool × ColorMatrix ×
      RotateFlipType × REAL :=
  (self.m_DisableTransform, self.m_ConfigName, self.m_ConfigArray, self.m_Crop, self.m_CropMode,
    self.m_GreyScale, self.m_ColorMatrix, self.m_Flip, self.m_Rotate)

/-- The three flags `m_NeedsCrop`, `m_NeedsTinting` and `m_NeedsTransform`. -/
def flags (self : CTintedImage) : Bool × Bool × Bool :=
  (self.m_NeedsCrop, self.m_NeedsTinting, self.m_NeedsTransform)

end CTintedImage

namespace CTintedImage

/-- The members the loader owns besides the two bitmaps: the buffer and the stored
time. -/
def stored (self : CTintedImage) : Option HGLOBAL × FILETIME := (self.m_hBuffer, self.m_Modified)

end CTintedImage

/-! ## Example inputs -/

/-- A config source that supplies, in every section and under the default key
names, the given `ImageCrop` and `ImageFlip` strings, `Greyscale` integer and
`ImageTint` color, and no other key. -/
def exampleParser (crop flip : Option String) (greyscale : Option Int) (tint : Option Color) :
    CConfigParser where
  strings := fun _ key =>
    if key = "ImageCrop" then crop else if key = "ImageFlip" then flip else none
  ints := fun _ key => if key = "Greyscale" then greyscale else none
  floats := fun _ _ => none
  floatLists := fun _ _ => []
  colors := fun _ key => if key = "ImageTint" then tint else none

/-- An opened file with the given last write time on which every call succeeds up
to the decoding, which yields the given bitmap with status `Ok`, or a null bitmap. -/
def exampleFile (time : FILETIME) (bitmap : Option Bitmap) : FileHandle where
  lastWriteTime := time
  imageSize := some 1024
  hBuffer := some 1
  pBuffer := true
  streamOk := true
  bitmap := bitmap.map fun b => (b, true)

/-- A platform on which only the file name "a.png" may open, as the given file. -/
def exampleHost (file : Option FileHandle) : Host where
  CreateFile := fun name => if name = "a.png" then file else none
  cos := fun _ => 1
  sin := fun _ => 0

namespace CTintedImage

/-- The members the loader and the pipeline own: the two bitmaps, the buffer and the
stored time. -/
def slot (self : CTintedImage) : Option Bitmap × Option Bitmap × Option HGLOBAL × FILETIME :=
  (self.m_Bitmap, self.m_BitmapTint, self.m_hBuffer, self.m_Modified)

/-- Without a source bitmap the slot is empty. -/
def Coherent (self : CTintedImage) : Prop := self.m_Bitmap = none → self.slotEmpty

end CTintedImage

/-- A config source that supplies, in every section, the row (2, 3, 4, 5, 6) under
the key "ColorMatrix1" and no other key. -/
def exampleMatrixParser : CConfigParser where
  strings := fun _ _ => none
  ints := fun _ _ => none
  floats := fun _ _ => none
  floatLists := fun _ key => if key = "ColorMatrix1" then [2, 3, 4, 5, 6] else []
  colors := fun _ _ => none

/-- A platform on which no file opens and whose `cos` and `sin` answer 0 and 1, the
values at a quarter turn. -/
def exampleQuarterHost : Host where
  CreateFile := fun _ => none
  cos := fun _ => 0
  sin := fun _ => 1

/-- An object that holds a loaded image: a 64 by 64 source bitmap, a derived
bitmap, the buffer and the time 5 of the file. -/
def exampleLoaded : CTintedImage :=
  { CTintedImage.new none none false with
    m_Bitmap := some (Bitmap.FromStream 0 64 64)
    m_BitmapTint := some (Bitmap.New 1 1)
    m_hBuffer := some 1
    m_Modified := ⟨5, 0⟩ }

/-- A platform on which no file opens and whose `cos` and `sin` answer the floats
14948609/16777216 and 15233393/33554432, the single-precision cosine and sine of
`CONVERT_TO_RADIANS 27`. -/
def exampleTurnHost : Host where
  CreateFile := fun _ => none
  cos := fun _ => 14948609 / 16777216
  sin := fun _ => 15233393 / 33554432

/-! ## Lemmas -/

/-! ### Rounding to `float` -/

theorem roundHalfEven_eq (r : ℚ) (m : Int) (h : |r - m| < 1 / 2) : roundHalfEven r = m := by
  rw [abs_lt] at h
  have h1 : (⌊r⌋ : ℚ) ≤ r := Int.floor_le r
  have h2 : r < ⌊r⌋ + 1 := Int.lt_floor_add_one r
  have hf : ⌊r⌋ = m ∨ ⌊r⌋ = m - 1 := by
    have a : (⌊r⌋ : ℚ) < m + 1 := by linarith
    have b : (m : ℚ) - 2 < ⌊r⌋ := by linarith
    have a' : ⌊r⌋ < m + 1 := by exact_mod_cast a
    have b' : m - 2 < ⌊r⌋ := by exact_mod_cast b
    omega
  unfold roundHalfEven
  rcases hf with hf | hf
  · rw [hf]
    rw [if_pos (by linarith)]
  · rw [hf]
    have : ¬ (r - ((m - 1 : Int) : ℚ) < 1 / 2) := by push_cast; linarith
    rw [if_neg this, if_pos (by push_cast; linarith)]
    ring

theorem roundHalfEven_close (r : ℚ) : |(roundHalfEven r : ℚ) - r| ≤ 1 / 2 := by
  have h1 : (⌊r⌋ : ℚ) ≤ r := Int.floor_le r
  have h2 : r < ⌊r⌋ + 1 := Int.lt_floor_add_one r
  unfold roundHalfEven
  rw [abs_le]
  split_ifs <;> push_cast <;> constructor <;> linarith

theorem floatSpacing_pos (q : ℚ) : 0 < floatSpacing q := by
  unfold floatSpacing
  positivity

theorem toREAL_close_spacing (q : ℚ) : |toREAL q - q| ≤ floatSpacing q / 2 := by
  have hu := floatSpacing_pos q
  have h := roundHalfEven_close (q / floatSpacing q)
  unfold toREAL
  have e : (roundHalfEven (q / floatSpacing q) : ℚ) * floatSpacing q - q =
      ((roundHalfEven (q / floatSpacing q) : ℚ) - q / floatSpacing q) * floatSpacing q := by
    field_simp
  rw [e, abs_mul, abs_of_pos hu]
  nlinarith

theorem toREAL_zero : toREAL 0 = 0 := by
  unfold toREAL
  simp [roundHalfEven]

/-- The conversion to `float` changes a value by at most 2 to the power -24 of its
size, or by 2 to the power -150 below the normal range. -/
theorem toREAL_close (q : ℚ) : |toREAL q - q| ≤ |q| / 2 ^ 24 + 1 / 2 ^ 150 := by
  rcases eq_or_ne q 0 with rfl | hq0
  · rw [toREAL_zero]
    norm_num
  refine (toREAL_close_spacing q).trans ?_
  unfold floatSpacing
  rcases le_total (Int.log 2 |q|) (-126) with h | h
  · rw [max_eq_right h]
    have : (2 : ℚ) ^ ((-126 : ℤ) - 23) / 2 = 1 / 2 ^ 150 := by norm_num [zpow_neg]
    rw [this]
    have := abs_nonneg q
    have : 0 ≤ |q| / 2 ^ 24 := by positivity
    linarith
  · rw [max_eq_left h]
    have hq : 0 < |q| := abs_pos.2 hq0
    have hl := Int.zpow_log_le_self (b := 2) (by norm_num) hq
    have e : (2 : ℚ) ^ (Int.log 2 |q| - 23) = 2 ^ Int.log 2 |q| / 2 ^ 23 := by
      rw [zpow_sub₀ (by norm_num)]
      norm_num
    rw [e]
    push_cast at hl
    have : (0 : ℚ) ≤ 1 / 2 ^ 150 := by positivity
    have h3 : (2 : ℚ) ^ Int.log 2 |q| / 2 ^ 23 / 2 = 2 ^ Int.log 2 |q| / 2 ^ 24 := by
      ring
    rw [h3]
    have : (2 : ℚ) ^ Int.log 2 |q| / 2 ^ 24 ≤ |q| / 2 ^ 24 := by
      apply div_le_div_of_nonneg_right hl (by positivity)
    linarith

theorem floatSpacing_eq (q : ℚ) (e : Int) (he : -126 ≤ e) (h1 : (2 : ℚ) ^ e ≤ |q|)
    (h2 : |q| < (2 : ℚ) ^ (e + 1)) : floatSpacing q = 2 ^ (e - 23) := by
  have hq : 0 < |q| := lt_of_lt_of_le (by positivity) h1
  have hl : Int.log 2 |q| = e := by
    apply le_antisymm
    · have := (Int.lt_zpow_iff_log_lt (b := 2) (by norm_num) hq).1 (by exact_mod_cast h2)
      omega
    · exact (Int.zpow_le_iff_le_log (b := 2) (by norm_num) hq).1 (by exact_mod_cast h1)
  unfold floatSpacing
  rw [hl, max_eq_left he]

/-- The conversion to `float` of a value of the normal range: the multiple `m` of the
spacing that is less than half the spacing away. -/
theorem toREAL_eq (q : ℚ) (e m : Int) (he : -126 ≤ e) (h1 : (2 : ℚ) ^ e ≤ q)
    (h2 : q < (2 : ℚ) ^ (e + 1)) (hm : |q / 2 ^ (e - 23) - m| < 1 / 2) :
    toREAL q = m * 2 ^ (e - 23) := by
  have hq : 0 < q := lt_of_lt_of_le (by positivity) h1
  rw [← abs_of_pos hq] at h1 h2
  unfold toREAL
  rw [floatSpacing_eq q e he h1 h2, roundHalfEven_eq _ m hm]

namespace CTintedImage

/-! ### The comparison of color matrices -/

/-- The comparison answers true exactly when the two matrices agree on the first four
columns. -/
theorem CompareColorMatrix_iff (a b : ColorMatrix) :
    CompareColorMatrix a b = true ↔
      ∀ i j : Fin 5, j.val < 4 → a.m i j = b.m i j := by
  unfold CompareColorMatrix
  simp only [List.all_eq_true, List.mem_finRange, true_implies, beq_iff_eq]
  constructor
  · intro h i j hj
    have := h i ⟨j.val, hj⟩
    simpa using this
  · intro h i j
    exact h i j.castSucc (by simp)

/-- The comparison answers false exactly when some entry of the first four columns
differs. -/
theorem CompareColorMatrix_eq_false_iff (a b : ColorMatrix) :
    CompareColorMatrix a b = false ↔
      ∃ i j : Fin 5, j.val < 4 ∧ a.m i j ≠ b.m i j := by
  rw [← Bool.not_eq_true, CompareColorMatrix_iff]
  push_neg
  rfl


/-! ### `ReadConfig` in closed form -/

/-- The crop block of `ReadConfig` in closed form. -/
theorem ReadConfig_crop_eq (self : CTintedImage) (parser : CConfigParser) (sect : String) :
    ReadConfig_crop self parser sect =
      if cropThrows self parser sect then
        .error ⟨⟨self.m_ConfigArray ConfigIndexImageCrop ++ "=" ++
          parser.ReadString sect (self.m_ConfigArray ConfigIndexImageCrop) "" ++
          " (origin) is not valid in meter [" ++ sect ++ "].", 523⟩,
          self.withCrop (cropValues self parser sect)⟩
      else .ok (self.withCrop (cropValues self parser sect)) := by
  unfold ReadConfig_crop cropThrows cropValues withCrop
  by_cases hd : self.m_DisableTransform = true
  swap
  · by_cases hc : parser.ReadString sect (self.m_ConfigArray ConfigIndexImageCrop) "" = ""
    · simp [hd, hc, CROPMODE_TL, CROPMODE_C]
    · by_cases hw : wcschr (parser.ReadString sect (self.m_ConfigArray ConfigIndexImageCrop) "").data ',' = true
      · simp [hd, hc, hw]
      · simp [hd, hc, hw, CROPMODE_TL, CROPMODE_C]
  · cases self
    simp_all


/-- The whole of `ReadConfig` in closed form: the throw of the crop block, the throw of
the flip block, or the object returned. -/
theorem ReadConfig_eq (self : CTintedImage) (parser : CConfigParser) (sect : String) :
    self.ReadConfig parser sect =
      if cropThrows self parser sect then
        .error ⟨⟨self.m_ConfigArray ConfigIndexImageCrop ++ "=" ++
          parser.ReadString sect (self.m_ConfigArray ConfigIndexImageCrop) "" ++
          " (origin) is not valid in meter [" ++ sect ++ "].", 523⟩,
          self.withCrop (cropValues self parser sect)⟩
      else
        match ReadConfig_flip
          (parser.ReadString sect (self.m_ConfigArray ConfigIndexImageFlip) "NONE") with
        | none => .error ⟨⟨self.m_ConfigArray ConfigIndexImageFlip ++ "=" ++
            parser.ReadString sect (self.m_ConfigArray ConfigIndexImageFlip) "NONE" ++
            " is not valid in meter [" ++ sect ++ "].", 631⟩, beforeFlip self parser sect⟩
        | some f => .ok (afterFlip self parser sect f) := by
  unfold ReadConfig
  rw [ReadConfig_crop_eq]
  by_cases ht : cropThrows self parser sect
  · simp [ht]
  · simp only [ht, if_false]
    simp only [withCrop]
    cases hf : ReadConfig_flip
      (parser.ReadString sect (self.m_ConfigArray ConfigIndexImageFlip) "NONE") with
    | none => simp [beforeFlip]
    | some f =>
      by_cases hd : self.m_DisableTransform = true
      · simp [afterFlip, beforeFlip, rotateValue, hd]
      · simp [afterFlip, beforeFlip, rotateValue, hd]


/-- A normal return of `ReadConfig` does not depend on the flags before the call. -/
theorem ReadConfig_withFlags (self : CTintedImage) (parser : CConfigParser) (sect : String)
    (c t r : Bool) (s' : CTintedImage) (h : self.ReadConfig parser sect = .ok s') :
    (self.withFlags c t r).ReadConfig parser sect = .ok s' := by
  rw [ReadConfig_eq] at h ⊢
  by_cases ht : cropThrows self parser sect
  · simp [ht] at h
  · have ht' : ¬ cropThrows (self.withFlags c t r) parser sect := ht
    rw [if_neg ht] at h
    rw [if_neg ht']
    have hk : (self.withFlags c t r).m_ConfigArray = self.m_ConfigArray := rfl
    rw [hk]
    cases hf : ReadConfig_flip
      (parser.ReadString sect (self.m_ConfigArray ConfigIndexImageFlip) "NONE") with
    | none => simp [hf] at h
    | some f =>
      simp only [hf, Except.ok.injEq] at h ⊢
      rw [← h]
      rfl

/-! ### What `LoadImage` leaves unchanged -/

/-- Two file times compare equal exactly when they are the same. -/
theorem CompareFileTime_eq_zero_iff (a b : FILETIME) : CompareFileTime a b = 0 ↔ a = b := by
  unfold CompareFileTime
  constructor
  · intro h
    split_ifs at h with h1 h2 h3 h4
    all_goals first
      | exact absurd h (by decide)
      | (cases a; cases b; simp only [FILETIME.mk.injEq] at *; omega)
  · rintro rfl
    simp

theorem params_DisposeImage (s : CTintedImage) : s.DisposeImage.params = s.params := rfl

theorem flags_DisposeImage (s : CTintedImage) : s.DisposeImage.flags = s.flags := rfl

theorem params_ApplyCrop (s : CTintedImage) : s.ApplyCrop.params = s.params := by
  unfold ApplyCrop
  repeat' split
  all_goals rfl

theorem params_ApplyTint (s : CTintedImage) : s.ApplyTint.params = s.params := by
  unfold ApplyTint
  repeat' split
  all_goals rfl

theorem params_ApplyTransform (s : CTintedImage) (host : Host) :
    (s.ApplyTransform host).params = s.params := by
  unfold ApplyTransform replaceAfterDraw
  repeat' split
  all_goals rfl

theorem params_LoadImage_stages (s : CTintedImage) (host : Host) (b : Bitmap) :
    (LoadImage_stages s host b).1.params = s.params := by
  unfold LoadImage_stages
  split_ifs
  · simp only
    split_ifs
    · rw [params_ApplyTransform, params_ApplyTint, params_ApplyCrop]
    · rw [params_ApplyCrop]
  · rfl

theorem params_LoadImage_pipeline (s : CTintedImage) (host : Host) :
    (LoadImage_pipeline s host).1.params = s.params := by
  unfold LoadImage_pipeline
  split
  · rfl
  · split_ifs
    · show (LoadImage_stages _ host _).1.params = _
      rw [params_LoadImage_stages]
      rfl
    · rfl

theorem params_LoadImage_reload (s : CTintedImage) (fh : FileHandle) (fn : String)
    (t : FILETIME) : (LoadImage_reload s fh fn t).1.params = s.params := by
  unfold LoadImage_reload
  split
  · simp only
    split_ifs <;> rfl
  · rfl

/-- The call `LoadImage` leaves the configuration members unchanged. -/
theorem params_LoadImage (s : CTintedImage) (host : Host) (n : String) (b : Bool) :
    (s.LoadImage host n b).1.params = s.params := by
  unfold LoadImage
  split_ifs
  · dsimp only
    split
    · rw [params_LoadImage_pipeline]
      split_ifs
      · rw [params_LoadImage_reload]
      · rfl
    · rfl
  · rfl
  · rfl

/-! ### Reading the same configuration again -/

theorem CompareColorMatrix_self (a : ColorMatrix) : CompareColorMatrix a a = true := by
  rw [CompareColorMatrix_iff]
  intros
  rfl

/-- Reading a configuration into an object that already holds its parameters returns
that object with the three flags false. -/
theorem ReadConfig_again (s0 s1 r : CTintedImage) (parser : CConfigParser) (sect : String)
    (h1 : s0.ReadConfig parser sect = .ok s1) (hp : r.params = s1.params) :
    r.ReadConfig parser sect = .ok (r.withFlags false false false) := by
  rw [ReadConfig_eq] at h1 ⊢
  by_cases ht : cropThrows s0 parser sect
  · simp [ht] at h1
  rw [if_neg ht] at h1
  cases hf : ReadConfig_flip
      (parser.ReadString sect (s0.m_ConfigArray ConfigIndexImageFlip) "NONE") with
  | none => simp [hf] at h1
  | some f =>
    simp only [hf, Except.ok.injEq] at h1
    subst h1
    simp only [params, afterFlip, beforeFlip, Prod.mk.injEq] at hp
    obtain ⟨hd, -, hk, hc, hm, hg, hM, hfl, hr⟩ := hp
    have hcv : cropValues r parser sect = (r.m_Crop, r.m_CropMode) := by
      rw [hc, hm]
      unfold cropValues
      rw [hd, hk]
      by_cases hd0 : s0.m_DisableTransform = true
      · simp [hd0, hc, hm, cropValues]
      · simp [hd0, cropValues]
    have ht' : ¬ cropThrows r parser sect := by
      intro hx
      apply ht
      unfold cropThrows at hx ⊢
      rw [hd, hk] at hx
      refine ⟨hx.1, hx.2.1, ?_⟩
      have h3 := hx.2.2
      rw [hcv, hm] at h3
      exact h3
    rw [if_neg ht', hk, hf]
    simp only [Except.ok.injEq]
    have hrv : rotateValue r parser sect = r.m_Rotate := by
      rw [hr]
      unfold rotateValue
      rw [hd, hk]
      by_cases hd0 : s0.m_DisableTransform = true
      · simp [hd0, hr, rotateValue]
      · simp [hd0, rotateValue]
    cases r
    simp only [afterFlip, beforeFlip, withFlags] at *
    simp_all [CompareColorMatrix_self]

/-! ### `LoadImage` on an unchanged file -/

theorem stored_ApplyCrop (s : CTintedImage) : s.ApplyCrop.stored = s.stored := by
  unfold ApplyCrop
  repeat' split
  all_goals rfl

theorem stored_ApplyTint (s : CTintedImage) : s.ApplyTint.stored = s.stored := by
  unfold ApplyTint
  repeat' split
  all_goals rfl

theorem stored_ApplyTransform (s : CTintedImage) (host : Host) :
    (s.ApplyTransform host).stored = s.stored := by
  unfold ApplyTransform replaceAfterDraw
  repeat' split
  all_goals rfl

theorem stored_LoadImage_stages (s : CTintedImage) (host : Host) (b : Bitmap) :
    (LoadImage_stages s host b).1.stored = s.stored := by
  unfold LoadImage_stages
  split_ifs
  · simp only
    split_ifs
    · rw [stored_ApplyTransform, stored_ApplyTint, stored_ApplyCrop]
    · rw [stored_ApplyCrop]
  · rfl

theorem stored_LoadImage_pipeline (s : CTintedImage) (host : Host) :
    (LoadImage_pipeline s host).1.stored = s.stored := by
  unfold LoadImage_pipeline
  split
  · rfl
  · split_ifs
    · show (LoadImage_stages _ host _).1.stored = _
      rw [stored_LoadImage_stages]
      rfl
    · rfl

theorem LoadImage_pipeline_idle (s : CTintedImage) (host : Host)
    (h : s.flags = (false, false, false)) : LoadImage_pipeline s host = (s, []) := by
  simp only [flags, Prod.mk.injEq] at h
  unfold LoadImage_pipeline
  split
  · rfl
  · simp [h.1, h.2.1, h.2.2]

/-- The call `LoadImage` when the path is not empty and the file opens. -/
theorem LoadImage_open (s : CTintedImage) (host : Host) (n : String) (b : Bool) (fh : FileHandle)
    (hn : n ≠ "") (hf : host.CreateFile (LoadImage_filename n) = some fh) :
    s.LoadImage host n b =
      ((LoadImage_pipeline (if b = true ∨ CompareFileTime fh.lastWriteTime s.m_Modified ≠ 0 then
          LoadImage_reload s fh (LoadImage_filename n) fh.lastWriteTime else (s, [])).1 host).1,
        Event.CreateFile (LoadImage_filename n) ::
          ((if b = true ∨ CompareFileTime fh.lastWriteTime s.m_Modified ≠ 0 then
            LoadImage_reload s fh (LoadImage_filename n) fh.lastWriteTime else (s, [])).2 ++
          (LoadImage_pipeline (if b = true ∨ CompareFileTime fh.lastWriteTime s.m_Modified ≠ 0 then
            LoadImage_reload s fh (LoadImage_filename n) fh.lastWriteTime else (s, [])).1 host).2)) := by
  unfold LoadImage
  rw [if_pos hn]
  dsimp only
  rw [hf]

/-- With the flags false and the stored time that of the file, `LoadImage` only opens
the file. -/
theorem LoadImage_idle (s : CTintedImage) (host : Host) (n : String) (fh : FileHandle)
    (hn : n ≠ "") (hf : host.CreateFile (LoadImage_filename n) = some fh)
    (ht : fh.lastWriteTime = s.m_Modified) (h : s.flags = (false, false, false)) :
    s.LoadImage host n false = (s, [Event.CreateFile (LoadImage_filename n)]) := by
  rw [LoadImage_open s host n false fh hn hf]
  have : ¬ (false = true ∨ CompareFileTime fh.lastWriteTime s.m_Modified ≠ 0) := by
    rw [ht]
    simp [(CompareFileTime_eq_zero_iff _ _).2 rfl]
  rw [if_neg this]
  simp [LoadImage_pipeline_idle s host h]

theorem LoadImage_reload_modified (s : CTintedImage) (fh : FileHandle) (fn : String)
    (t : FILETIME) (hd : (LoadImageFromFileHandle fh).isSome = true) :
    (LoadImage_reload s fh fn t).1.m_Modified = t := by
  unfold LoadImage_reload
  split
  · simp only
    split_ifs <;> rfl
  · rename_i h
    simp [h] at hd

/-- After `LoadImage` on a file that opens and decodes, the stored time is that of the
file. -/
theorem LoadImage_modified (s : CTintedImage) (host : Host) (n : String) (fh : FileHandle)
    (hn : n ≠ "") (hf : host.CreateFile (LoadImage_filename n) = some fh)
    (hd : (LoadImageFromFileHandle fh).isSome = true) :
    (s.LoadImage host n false).1.m_Modified = fh.lastWriteTime := by
  rw [LoadImage_open s host n false fh hn hf]
  have hs := stored_LoadImage_pipeline
  simp only [stored, Prod.mk.injEq] at hs
  rw [(hs _ _).2]
  by_cases hc : false = true ∨ CompareFileTime fh.lastWriteTime s.m_Modified ≠ 0
  · rw [if_pos hc]
    exact LoadImage_reload_modified _ _ _ _ hd
  · rw [if_neg hc]
    simp only [Bool.false_eq_true, ne_eq, false_or, not_not] at hc
    exact ((CompareFileTime_eq_zero_iff _ _).1 hc).symm

/-- The call `LoadImage` with the empty path. -/
theorem LoadImage_empty (s : CTintedImage) (host : Host) (b : Bool) :
    s.LoadImage host "" b =
      if s.m_Bitmap.isSome = true then (s.DisposeImage, [Event.DisposeImage]) else (s, []) := by
  unfold LoadImage IsLoaded
  simp

theorem exampleRead_ok :
    (new none none false).ReadConfig (exampleParser (some "0,0,10,10") none (some 1) none) "Meter"
      = .ok (afterFlip (new none none false)
          (exampleParser (some "0,0,10,10") none (some 1) none) "Meter" RotateNoneFlipNone) := by
  rw [ReadConfig_eq, if_neg (by decide)]
  rfl

end CTintedImage

/-! ### The C string routines -/

/-- The routine `_wcsicmp` answers 0 exactly when the lower-cased strings are equal. -/
theorem _wcsicmp_eq_zero_iff (a b : List Char) :
    _wcsicmp a b = 0 ↔ a.map Char.toLower = b.map Char.toLower := by
  induction a generalizing b with
  | nil =>
    cases b with
    | nil => simp [_wcsicmp]
    | cons b bs => simp [_wcsicmp]
  | cons a as ih =>
    cases b with
    | nil => simp [_wcsicmp]
    | cons b bs =>
      simp only [_wcsicmp, List.map_cons, List.cons.injEq]
      split_ifs with h1 h2
      · simp [h1, ih]
      · simp [h1]
      · simp [h1]

theorem splitOnP_eq_takeWhile (p : Char → Bool) (xs : List Char) :
    xs.splitOnP p = xs.takeWhile (fun c => !p c) ::
      (match xs.dropWhile (fun c => !p c) with
        | [] => []
        | _ :: r => r.splitOnP p) := by
  induction xs with
  | nil => simp [List.splitOnP_nil]
  | cons x xs ih =>
    rw [List.splitOnP_cons]
    by_cases hx : p x = true
    · simp [hx, List.takeWhile_cons, List.dropWhile_cons]
    · simp only [hx, Bool.false_eq_true, if_false]
      rw [ih]
      simp [hx, List.takeWhile_cons, List.dropWhile_cons, List.modifyHead]

/-- One `wcstok` call yields the first non-empty piece between commas and leaves a text
whose non-empty pieces are the remaining ones. -/
theorem wcstok_fields (s : List Char) :
    (wcstok s ',').1 = ((s.splitOn ',').filter fun f => !f.isEmpty).head? ∧
    (((wcstok s ',').2.splitOn ',').filter fun f => !f.isEmpty) =
      ((s.splitOn ',').filter fun f => !f.isEmpty).tail := by
  induction s with
  | nil => exact ⟨rfl, rfl⟩
  | cons x xs ih =>
    by_cases hx : x = ','
    · subst hx
      have hw : wcstok (',' :: xs) ',' = wcstok xs ',' := by
        simp [wcstok, List.dropWhile_cons]
      have hf : ((',' :: xs).splitOn ',').filter (fun f => !f.isEmpty) =
          (xs.splitOn ',').filter (fun f => !f.isEmpty) := by
        simp [List.splitOn, List.splitOnP_cons]
      rw [hw, hf]
      exact ih
    · have hw : wcstok (x :: xs) ',' =
          (some (x :: xs.takeWhile (fun c => c != ',')),
            (xs.dropWhile (fun c => c != ',')).drop 1) := by
        simp [wcstok, List.dropWhile_cons, List.takeWhile_cons, hx]
      have hf : ((x :: xs).splitOn ',').filter (fun f => !f.isEmpty) =
          (x :: xs.takeWhile (fun c => c != ',')) ::
            ((((xs.dropWhile (fun c => c != ',')).drop 1).splitOn ',').filter
              (fun f => !f.isEmpty)) := by
        simp only [List.splitOn]
        rw [List.splitOnP_cons, splitOnP_eq_takeWhile]
        simp only [beq_iff_eq, hx, if_false, List.modifyHead]
        have hne : (fun c : Char => !c == ',') = (fun c => c != ',') := rfl
        rw [hne]
        cases hd : List.dropWhile (fun c => c != ',') xs with
        | nil => simp [List.splitOnP_nil]
        | cons y ys => simp
      rw [hw, hf]
      exact ⟨rfl, rfl⟩

namespace CTintedImage

/-! ### The crop string and the flip keyword -/

/-- The five `wcstok` calls store the integers the first five fields read as. -/
theorem ReadConfig_tokens_eq (crop : Rect) (mode : CROPMODE) (sz : List Char) :
    ReadConfig_tokens crop mode sz =
      (⟨((((sz.splitOn ',').filter fun f => !f.isEmpty)[0]?).map _wtoi).getD crop.X,
        ((((sz.splitOn ',').filter fun f => !f.isEmpty)[1]?).map _wtoi).getD crop.Y,
        ((((sz.splitOn ',').filter fun f => !f.isEmpty)[2]?).map _wtoi).getD crop.Width,
        ((((sz.splitOn ',').filter fun f => !f.isEmpty)[3]?).map _wtoi).getD crop.Height⟩,
       ((((sz.splitOn ',').filter fun f => !f.isEmpty)[4]?).map _wtoi).getD mode) := by
  obtain ⟨h1, r1⟩ := wcstok_fields sz
  obtain ⟨h2, r2⟩ := wcstok_fields (wcstok sz ',').2
  obtain ⟨h3, r3⟩ := wcstok_fields (wcstok (wcstok sz ',').2 ',').2
  obtain ⟨h4, r4⟩ := wcstok_fields (wcstok (wcstok (wcstok sz ',').2 ',').2 ',').2
  obtain ⟨h5, -⟩ := wcstok_fields (wcstok (wcstok (wcstok (wcstok sz ',').2 ',').2 ',').2 ',').2
  rw [r4, r3, r2, r1] at h5
  rw [r3, r2, r1] at h4
  rw [r2, r1] at h3
  rw [r1] at h2
  unfold ReadConfig_tokens
  simp only [h1, h2, h3, h4, h5]
  generalize ((sz.splitOn ',').filter fun f => !f.isEmpty) = F
  rcases F with _ | ⟨a, _ | ⟨b, _ | ⟨c, _ | ⟨d, _ | ⟨e, F⟩⟩⟩⟩⟩ <;> simp


theorem anchorIndex_comma (crop : String) (a : Int) (h : anchorIndex crop = some a) :
    crop ≠ "" ∧ wcschr crop.data ',' = true := by
  have hc : wcschr crop.data ',' = true := by
    by_contra hw
    have hno : ∀ x ∈ crop.data, ¬ ((fun c : Char => c == ',') x = true) := by
      intro x hx hxe
      apply hw
      simp only [beq_iff_eq] at hxe
      subst hxe
      simp [wcschr, hx]
    have hs : crop.data.splitOn ',' = [crop.data] := List.splitOnP_eq_single _ _ hno
    unfold anchorIndex cropFields at h
    rw [hs] at h
    by_cases he : crop.data.isEmpty = true <;> simp [List.filter, he] at h
  refine ⟨?_, hc⟩
  rintro rfl
  simp [wcschr] at hc

/-- The crop block throws exactly when the transform is not disabled and the anchor
index is outside 0..4. -/
theorem cropThrows_iff (self : CTintedImage) (parser : CConfigParser) (sect : String) :
    cropThrows self parser sect ↔
      (self.m_DisableTransform = false ∧
        ∃ a, anchorIndex (parser.ReadString sect (self.m_ConfigArray ConfigIndexImageCrop) "")
          = some a ∧ (a < 0 ∨ 4 < a)) := by
  unfold cropThrows
  constructor
  · rintro ⟨hd, hne, hr⟩
    refine ⟨hd, ?_⟩
    unfold cropValues at hr
    simp only [hd, Bool.false_eq_true, if_false] at hr
    split_ifs at hr with hc
    · rw [ReadConfig_tokens_eq] at hr
      simp only [CROPMODE_TL, CROPMODE_C] at hr
      unfold anchorIndex cropFields
      cases hg : ((List.filter (fun f => !f.isEmpty) (List.splitOn ','
        (parser.ReadString sect (self.m_ConfigArray ConfigIndexImageCrop) "").data))[4]?) with
      | none => simp [hg] at hr
      | some tok =>
        simp only [hg, Option.map_some', Option.getD_some] at hr
        exact ⟨_, rfl, hr⟩
    · simp [CROPMODE_TL, CROPMODE_C] at hr
  · rintro ⟨hd, a, ha, hr⟩
    obtain ⟨hne, hc⟩ := anchorIndex_comma _ _ ha
    refine ⟨hd, hne, ?_⟩
    unfold cropValues
    simp only [hd, Bool.false_eq_true, if_false]
    rw [if_pos ⟨hne, hc⟩, ReadConfig_tokens_eq]
    unfold anchorIndex cropFields at ha
    simp only [ha, Option.getD_some, CROPMODE_TL, CROPMODE_C]
    exact hr

/-- The flip block throws exactly when the value is none of the four keywords. -/
theorem ReadConfig_flip_eq_none_iff (flip : String) :
    ReadConfig_flip flip = none ↔ ¬ isFlipKeyword flip := by
  unfold ReadConfig_flip isFlipKeyword equalsIgnoreCase
  simp only [_wcsicmp_eq_zero_iff]
  split_ifs <;> simp_all

theorem exampleRead_tint_ok :
    (new none none false).ReadConfig (exampleParser none none none (some ⟨0x80FF8040⟩)) "Meter"
      = .ok (afterFlip (new none none false)
          (exampleParser none none none (some ⟨0x80FF8040⟩)) "Meter" RotateNoneFlipNone) := by
  rw [ReadConfig_eq, if_neg (by decide)]
  rfl

/-! ### The rows of the color matrix -/

theorem ReadConfig_ok_matrix (self s' : CTintedImage) (parser : CConfigParser) (sect : String)
    (h : self.ReadConfig parser sect = .ok s') :
    s'.m_ColorMatrix = ReadConfig_matrix self.m_ConfigArray parser sect := by
  rw [ReadConfig_eq] at h
  split_ifs at h
  split at h
  · simp at h
  · simp only [Except.ok.injEq] at h
    subst h
    rfl

theorem set_m (M : ColorMatrix) (i j i' j' : Fin 5) (v : REAL) :
    (M.set i j v).m i' j' = if i' = i ∧ j' = j then v else M.m i' j' := rfl

theorem setRow_m_of_ne (M : ColorMatrix) (r i : Fin 5) (v : List REAL) (j : Fin 5) (h : i ≠ r) :
    (M.setRow r v).m i j = M.m i j := by
  simp [ColorMatrix.setRow, set_m, h]

theorem rowStep_m_of_ne (c : Prop) [Decidable c] (M : ColorMatrix) (r i j : Fin 5)
    (v : List REAL) (x : REAL) (h : i ≠ r) :
    (if c then M.setRow r v else M.set r r x).m i j = M.m i j := by
  split_ifs
  · exact setRow_m_of_ne M r i v j h
  · simp [set_m, h]

theorem lastStep_m_of_ne (c : Prop) [Decidable c] (M : ColorMatrix) (i j : Fin 5)
    (v : List REAL) (h : i ≠ 4) :
    (if c then M.setRow 4 v else M).m i j = M.m i j := by
  split_ifs
  · exact setRow_m_of_ne M 4 i v j h
  · rfl

theorem c_IdentifyMatrix_m (i j : Fin 5) : c_IdentifyMatrix.m i j = if i = j then 1 else 0 := by
  fin_cases i <;> fin_cases j <;> rfl

theorem ReadConfig_matrix_row0 (k : ConfigIndex → String) (parser : CConfigParser) (sect : String)
    (h : (parser.ReadFloats sect (k ConfigIndexColorMatrix1)).length ≠ 5) (j : Fin 5) :
    (ReadConfig_matrix k parser sect).m 0 j =
      if j = 0 then
        toREAL (((parser.ReadColor sect (k ConfigIndexImageTint) Color.White).GetRed : REAL) / 255)
      else 0 := by
  unfold ReadConfig_matrix
  simp only [h, if_false]
  rw [lastStep_m_of_ne _ _ _ _ _ (by decide), rowStep_m_of_ne _ _ _ _ _ _ _ (by decide),
    rowStep_m_of_ne _ _ _ _ _ _ _ (by decide), rowStep_m_of_ne _ _ _ _ _ _ _ (by decide),
    set_m, c_IdentifyMatrix_m]
  by_cases hj : j = 0
  · simp [hj]
  · simp [hj, Ne.symm hj]

theorem ReadConfig_matrix_row1 (k : ConfigIndex → String) (parser : CConfigParser) (sect : String)
    (h : (parser.ReadFloats sect (k ConfigIndexColorMatrix2)).length ≠ 5) (j : Fin 5) :
    (ReadConfig_matrix k parser sect).m 1 j =
      if j = 1 then
        toREAL (((parser.ReadColor sect (k ConfigIndexImageTint) Color.White).GetGreen : REAL) /
          255)
      else 0 := by
  unfold ReadConfig_matrix
  simp only [h, if_false]
  rw [lastStep_m_of_ne _ _ _ _ _ (by decide), rowStep_m_of_ne _ _ _ _ _ _ _ (by decide),
    rowStep_m_of_ne _ _ _ _ _ _ _ (by decide), set_m,
    rowStep_m_of_ne _ _ _ _ _ _ _ (by decide), c_IdentifyMatrix_m]
  by_cases hj : j = 1
  · simp [hj]
  · simp [hj, Ne.symm hj]

theorem ReadConfig_matrix_row2 (k : ConfigIndex → String) (parser : CConfigParser) (sect : String)
    (h : (parser.ReadFloats sect (k ConfigIndexColorMatrix3)).length ≠ 5) (j : Fin 5) :
    (ReadConfig_matrix k parser sect).m 2 j =
      if j = 2 then
        toREAL (((parser.ReadColor sect (k ConfigIndexImageTint) Color.White).GetBlue : REAL) /
          255)
      else 0 := by
  unfold ReadConfig_matrix
  simp only [h, if_false]
  rw [lastStep_m_of_ne _ _ _ _ _ (by decide), rowStep_m_of_ne _ _ _ _ _ _ _ (by decide), set_m,
    rowStep_m_of_ne _ _ _ _ _ _ _ (by decide),
    rowStep_m_of_ne _ _ _ _ _ _ _ (by decide), c_IdentifyMatrix_m]
  by_cases hj : j = 2
  · simp [hj]
  · simp [hj, Ne.symm hj]

theorem ReadConfig_matrix_row3 (k : ConfigIndex → String) (parser : CConfigParser) (sect : String)
    (h : (parser.ReadFloats sect (k ConfigIndexColorMatrix4)).length ≠ 5) (j : Fin 5) :
    (ReadConfig_matrix k parser sect).m 3 j =
      if j = 3 then
        toREAL (((max 0 (min 255 (parser.ReadInt sect (k ConfigIndexImageAlpha)
          (parser.ReadColor sect (k ConfigIndexImageTint) Color.White).GetAlpha)) : Int) : REAL)
          / 255)
      else 0 := by
  unfold ReadConfig_matrix
  simp only [h, if_false]
  rw [lastStep_m_of_ne _ _ _ _ _ (by decide), set_m, rowStep_m_of_ne _ _ _ _ _ _ _ (by decide),
    rowStep_m_of_ne _ _ _ _ _ _ _ (by decide),
    rowStep_m_of_ne _ _ _ _ _ _ _ (by decide), c_IdentifyMatrix_m]
  by_cases hj : j = 3
  · simp [hj]
  · simp [hj, Ne.symm hj]

theorem ReadConfig_matrix_row4 (k : ConfigIndex → String) (parser : CConfigParser) (sect : String)
    (h : (parser.ReadFloats sect (k ConfigIndexColorMatrix5)).length ≠ 5) (j : Fin 5) :
    (ReadConfig_matrix k parser sect).m 4 j = if j = 4 then 1 else 0 := by
  unfold ReadConfig_matrix
  simp only [h, if_false]
  rw [rowStep_m_of_ne _ _ _ _ _ _ _ (by decide), rowStep_m_of_ne _ _ _ _ _ _ _ (by decide),
    rowStep_m_of_ne _ _ _ _ _ _ _ (by decide),
    rowStep_m_of_ne _ _ _ _ _ _ _ (by decide), c_IdentifyMatrix_m]
  by_cases hj : j = 4
  · simp [hj]
  · simp [hj, Ne.symm hj]

/-! ### The invariant of the slot -/

theorem slot_ReadConfig_ok (s s' : CTintedImage) (parser : CConfigParser) (sect : String)
    (h : s.ReadConfig parser sect = .ok s') : s'.slot = s.slot := by
  rw [ReadConfig_eq] at h
  split_ifs at h
  split at h
  · simp at h
  · simp only [Except.ok.injEq] at h
    subst h
    rfl

theorem slot_ReadConfig_error (s : CTintedImage) (e : Thrown) (parser : CConfigParser)
    (sect : String) (h : s.ReadConfig parser sect = .error e) : e.self.slot = s.slot := by
  rw [ReadConfig_eq] at h
  split_ifs at h
  · simp only [Except.error.injEq] at h
    subst h
    rfl
  · split at h
    · simp only [Except.error.injEq] at h
      subst h
      rfl
    · simp at h

theorem Coherent_of_slot (s s' : CTintedImage) (h : s'.slot = s.slot) (hc : s.Coherent) :
    s'.Coherent := by
  simp only [slot, Prod.mk.injEq] at h
  unfold Coherent slotEmpty at *
  rw [h.1, h.2.1, h.2.2.1, h.2.2.2]
  exact hc

theorem slotEmpty_DisposeImage (s : CTintedImage) : s.DisposeImage.slotEmpty :=
  ⟨rfl, rfl, rfl, rfl⟩

theorem bitmap_ApplyCrop (s : CTintedImage) : s.ApplyCrop.m_Bitmap = s.m_Bitmap := by
  unfold ApplyCrop
  repeat' split
  all_goals rfl

theorem bitmap_ApplyTint (s : CTintedImage) : s.ApplyTint.m_Bitmap = s.m_Bitmap := by
  unfold ApplyTint
  repeat' split
  all_goals rfl

theorem bitmap_ApplyTransform (s : CTintedImage) (host : Host) (h : s.m_Bitmap.isSome = true) :
    (s.ApplyTransform host).m_Bitmap.isSome = true := by
  unfold ApplyTransform replaceAfterDraw
  repeat' split
  all_goals first | exact h | rfl

theorem bitmap_LoadImage_stages (s : CTintedImage) (host : Host) (b : Bitmap)
    (h : s.m_Bitmap.isSome = true) : (LoadImage_stages s host b).1.m_Bitmap.isSome = true := by
  unfold LoadImage_stages
  split_ifs
  · simp only
    split_ifs
    · apply bitmap_ApplyTransform
      rw [bitmap_ApplyTint, bitmap_ApplyCrop]
      exact h
    · rw [bitmap_ApplyCrop]
      exact h
  · exact h

theorem bitmap_LoadImage_pipeline (s : CTintedImage) (host : Host)
    (h : s.m_Bitmap.isSome = true) : (LoadImage_pipeline s host).1.m_Bitmap.isSome = true := by
  unfold LoadImage_pipeline
  split
  · rename_i hn
    simp [hn] at h
  · split_ifs
    · show (LoadImage_stages _ host _).1.m_Bitmap.isSome = true
      apply bitmap_LoadImage_stages
      exact h
    · exact h

theorem LoadImage_pipeline_none (s : CTintedImage) (host : Host) (h : s.m_Bitmap = none) :
    LoadImage_pipeline s host = (s, []) := by
  unfold LoadImage_pipeline
  rw [h]

theorem Coherent_LoadImage_pipeline (s : CTintedImage) (host : Host) (h : s.Coherent) :
    (LoadImage_pipeline s host).1.Coherent := by
  cases hb : s.m_Bitmap with
  | none => rw [LoadImage_pipeline_none s host hb]; exact h
  | some b =>
    intro hn
    have := bitmap_LoadImage_pipeline s host (by simp [hb])
    simp [hn] at this

theorem Coherent_LoadImage_reload (s : CTintedImage) (fh : FileHandle) (fn : String)
    (t : FILETIME) : (LoadImage_reload s fh fn t).1.Coherent := by
  unfold LoadImage_reload
  split
  · simp only
    intro hn
    split_ifs at hn
  · intro _
    exact slotEmpty_DisposeImage s

theorem Coherent_LoadImage (s : CTintedImage) (host : Host) (n : String) (b : Bool)
    (h : s.Coherent) : (s.LoadImage host n b).1.Coherent := by
  unfold LoadImage
  split_ifs
  · dsimp only
    split
    · apply Coherent_LoadImage_pipeline
      split_ifs
      · exact Coherent_LoadImage_reload _ _ _ _
      · exact h
    · intro _
      exact slotEmpty_DisposeImage s
  · intro _
    exact slotEmpty_DisposeImage s
  · exact h

/-- In every state the object can be in, a slot without source bitmap is empty. -/
theorem Coherent_of_Reachable (s : CTintedImage) (h : s.Reachable) : s.Coherent := by
  induction h with
  | new name configArray disableTransform => intro _; exact ⟨rfl, rfl, rfl, rfl⟩
  | ReadConfig_return s s' parser sect _ hok ih => exact Coherent_of_slot s s' (slot_ReadConfig_ok _ _ _ _ hok) ih
  | ReadConfig_throw s e parser sect _ herr ih =>
    exact Coherent_of_slot s e.self (slot_ReadConfig_error _ _ _ _ herr) ih
  | LoadImage s host n b _ ih => exact Coherent_LoadImage s host n b ih
  | DisposeImage s _ _ => intro _; exact slotEmpty_DisposeImage s

end CTintedImage

/-! ### The file name -/

/-- The index `find_last_of` answers holds the character and no later index does; `npos`
means that no index holds it. -/
theorem find_last_of_spec (s : List Char) (c : Char) :
    (∀ k, find_last_of s [c] = some k →
      s[k]? = some c ∧ ∀ j : Nat, k < j → s[j]? ≠ some c) ∧
    (find_last_of s [c] = none → ∀ j : Nat, s[j]? ≠ some c) := by
  induction s with
  | nil => simp [find_last_of]
  | cons x xs ih =>
    obtain ⟨ih1, ih2⟩ := ih
    cases h : find_last_of xs [c] with
    | some i =>
      obtain ⟨hi1, hi2⟩ := ih1 i h
      simp only [find_last_of, h]
      refine ⟨?_, by simp⟩
      intro k hk
      simp only [Option.some.injEq] at hk
      subst hk
      refine ⟨by simpa using hi1, ?_⟩
      intro j hj
      cases j with
      | zero => omega
      | succ j => simpa using hi2 j (by omega)
    | none =>
      have hn := ih2 h
      simp only [find_last_of, h]
      by_cases hx : x = c
      · subst hx
        refine ⟨?_, by simp⟩
        intro k hk
        simp at hk
        subst hk
        refine ⟨by simp, ?_⟩
        intro j hj
        cases j with
        | zero => omega
        | succ j => simpa using hn j
      · have hc : ([c].contains x) = false := by simp [hx]
        simp only [hc, Bool.false_eq_true, if_false]
        refine ⟨by simp, ?_⟩
        intro _ j
        cases j with
        | zero => simpa using hx
        | succ j => simpa using hn j

/-- The routine `find` answers `npos` exactly when no index from `pos` on holds the
character. -/
theorem find_eq_none_iff (s : List Char) (c : Char) (pos : Nat) :
    find s c pos = none ↔ ∀ i : Nat, pos ≤ i → s[i]? ≠ some c := by
  induction s generalizing pos with
  | nil => simp [find]
  | cons x xs ih =>
    cases pos with
    | zero =>
      simp only [find]
      by_cases hx : x = c
      · simp only [hx, if_true]
        constructor
        · intro h; simp at h
        · intro h
          exact absurd (by simp) (h 0 (le_refl 0))
      · simp only [hx, if_false, Option.map_eq_none', ih]
        constructor
        · intro h i _
          cases i with
          | zero => simpa using hx
          | succ i => simpa using h i (Nat.zero_le _)
        · intro h i _
          simpa using h (i + 1) (Nat.zero_le _)
    | succ pos =>
      simp only [find, Option.map_eq_none', ih]
      constructor
      · intro h i hi
        cases i with
        | zero => omega
        | succ i => simpa using h i (by omega)
      · intro h i hi
        simpa using h (i + 1) (by omega)

theorem lastBackslashPos_find (p : String) :
    lastBackslashPos p ((find_last_of p.data [Char.ofNat 92]).getD 0) ∧
    ∀ k, lastBackslashPos p k → k = (find_last_of p.data [Char.ofNat 92]).getD 0 := by
  obtain ⟨h1, h2⟩ := find_last_of_spec p.data (Char.ofNat 92)
  cases h : find_last_of p.data [Char.ofNat 92] with
  | none =>
    have hn := h2 h
    refine ⟨Or.inr ⟨hn, rfl⟩, ?_⟩
    rintro k (⟨hk, -⟩ | ⟨-, hk⟩)
    · exact absurd hk (hn k)
    · exact hk
  | some i =>
    obtain ⟨hi1, hi2⟩ := h1 i h
    refine ⟨Or.inl ⟨hi1, hi2⟩, ?_⟩
    rintro k (⟨hk1, hk2⟩ | ⟨hk, -⟩)
    · simp only [Option.getD_some]
      rcases Nat.lt_trichotomy k i with hlt | heq | hgt
      · exact absurd hi1 (hk2 i hlt)
      · exact heq
      · exact absurd hk1 (hi2 k hgt)
    · exact absurd hi1 (hk i)

/-- A path lacks an extension exactly when the `find` of `LoadImage` answers `npos`. -/
theorem lacksExtension_iff (p : String) :
    lacksExtension p ↔ find p.data '.' ((find_last_of p.data [Char.ofNat 92]).getD 0) = none := by
  obtain ⟨hpos, huniq⟩ := lastBackslashPos_find p
  rw [find_eq_none_iff]
  constructor
  · intro h
    exact h _ hpos
  · intro h k hk
    rw [huniq k hk]
    exact h

namespace CTintedImage

theorem LoadImage_filename_eq (p : String) :
    (lacksExtension p → LoadImage_filename p = p ++ ".png") ∧
    (¬ lacksExtension p → LoadImage_filename p = p) := by
  rw [lacksExtension_iff]
  unfold LoadImage_filename
  constructor
  · intro h
    simp [h]
  · intro h
    simp [h]

/-! ### The calls `LoadImage` makes -/

theorem LoadImage_reload_events (s : CTintedImage) (fh : FileHandle) (fn : String)
    (t : FILETIME) (f : String) : Event.CreateFile f ∉ (LoadImage_reload s fh fn t).2 := by
  unfold LoadImage_reload
  split <;> simp

theorem LoadImage_stages_events (s : CTintedImage) (host : Host) (b : Bitmap) :
    (LoadImage_stages s host b).2 = [] ∨ (LoadImage_stages s host b).2 = [Event.ApplyCrop] ∨
      (LoadImage_stages s host b).2 = [Event.ApplyCrop, Event.ApplyTint, Event.ApplyTransform] := by
  unfold LoadImage_stages
  split_ifs
  · dsimp only
    split_ifs
    · exact Or.inr (Or.inr rfl)
    · exact Or.inr (Or.inl rfl)
  · exact Or.inl rfl

/-- The pipeline block when a source bitmap is loaded and a flag is set. -/
theorem LoadImage_pipeline_some (s : CTintedImage) (host : Host) (b : Bitmap)
    (hb : s.m_Bitmap = some b)
    (hf : s.m_NeedsCrop = true ∨ s.m_NeedsTinting = true ∨ s.m_NeedsTransform = true) :
    LoadImage_pipeline s host =
      ((LoadImage_stages { s with m_BitmapTint := none } host b).1.withFlags false false false,
        (LoadImage_stages { s with m_BitmapTint := none } host b).2) := by
  unfold LoadImage_pipeline
  rw [hb]
  dsimp only
  rw [if_pos hf]
  rfl

theorem LoadImage_pipeline_events (s : CTintedImage) (host : Host) (f : String) :
    Event.CreateFile f ∉ (LoadImage_pipeline s host).2 := by
  cases hb : s.m_Bitmap with
  | none => simp [LoadImage_pipeline_none s host hb]
  | some b =>
    by_cases hf : s.m_NeedsCrop = true ∨ s.m_NeedsTinting = true ∨ s.m_NeedsTransform = true
    · rw [LoadImage_pipeline_some s host b hb hf]
      rcases LoadImage_stages_events { s with m_BitmapTint := none } host b with h | h | h <;>
        simp [h]
    · rw [LoadImage_pipeline_idle s host]
      · simp
      · simp only [not_or, Bool.not_eq_true] at hf
        simp [flags, hf.1, hf.2.1, hf.2.2]

/-- The call `LoadImage` with a non-empty path makes `CreateFile` calls for the file name
of lines 178-184 only. -/
theorem LoadImage_events_CreateFile (s : CTintedImage) (host : Host) (n : String) (b : Bool)
    (hn : n ≠ "") (f : String) :
    Event.CreateFile f ∈ (s.LoadImage host n b).2 ↔ f = LoadImage_filename n := by
  cases hf : host.CreateFile (LoadImage_filename n) with
  | none =>
    have : s.LoadImage host n b =
        (s.DisposeImage, [Event.CreateFile (LoadImage_filename n),
          Event.LogWithArgs "Unable to open %s: %s" [s.m_ConfigName, LoadImage_filename n],
          Event.DisposeImage]) := by
      unfold LoadImage
      rw [if_pos hn]
      dsimp only
      rw [hf]
    rw [this]
    simp
  | some fh =>
    rw [LoadImage_open s host n b fh hn hf]
    simp only [List.mem_cons, Event.CreateFile.injEq, List.mem_append]
    constructor
    · rintro (h | h | h)
      · exact h
      · split_ifs at h
        · exact absurd h (LoadImage_reload_events _ _ _ _ _)
        · simp at h
      · exact absurd h (LoadImage_pipeline_events _ _ _)
    · intro h
      exact Or.inl h

/-! ### A successful reload -/

theorem eq_of_parts (a b : CTintedImage) (hp : a.params = b.params) (hs : a.slot = b.slot)
    (hf : a.flags = b.flags) : a = b := by
  cases a
  cases b
  simp only [params, slot, flags, Prod.mk.injEq] at hp hs hf
  simp only [mk.injEq]
  tauto

theorem slot_LoadImage_reload_some (s : CTintedImage) (fh : FileHandle) (fn : String)
    (t : FILETIME) (bitmap : Bitmap) (hBuffer : HGLOBAL)
    (hd : LoadImageFromFileHandle fh = some (bitmap, hBuffer)) :
    (LoadImage_reload s fh fn t).1.slot = (some bitmap, none, some hBuffer, t) := by
  unfold LoadImage_reload
  rw [hd]
  dsimp only
  split_ifs <;> rfl

theorem flags_LoadImage_reload_some (s : CTintedImage) (fh : FileHandle) (fn : String)
    (t : FILETIME) (bitmap : Bitmap) (hBuffer : HGLOBAL)
    (hd : LoadImageFromFileHandle fh = some (bitmap, hBuffer)) :
    (LoadImage_reload s fh fn t).1.flags =
      (s.m_NeedsCrop || decide (s.m_Crop.Width ≥ 0 ∨ s.m_Crop.Height ≥ 0),
        s.m_NeedsTinting ||
          (s.m_GreyScale || !CompareColorMatrix s.m_ColorMatrix c_IdentifyMatrix),
        s.m_NeedsTransform || decide (s.m_Flip ≠ RotateNoneFlipNone ∨ s.m_Rotate ≠ 0)) := by
  unfold LoadImage_reload
  rw [hd]
  dsimp only [DisposeImage]
  split_ifs <;> simp_all [flags]

/-- A reload that decodes, in closed form: the fresh-image rule sets each flag that its
stage needs. -/
theorem LoadImage_reload_some (s : CTintedImage) (fh : FileHandle) (fn : String) (t : FILETIME)
    (bitmap : Bitmap) (hBuffer : HGLOBAL)
    (hd : LoadImageFromFileHandle fh = some (bitmap, hBuffer)) :
    LoadImage_reload s fh fn t =
      ({ s with
          m_Bitmap := some bitmap
          m_BitmapTint := none
          m_hBuffer := some hBuffer
          m_Modified := t
          m_NeedsCrop := s.m_NeedsCrop || decide (s.m_Crop.Width ≥ 0 ∨ s.m_Crop.Height ≥ 0)
          m_NeedsTinting := s.m_NeedsTinting ||
            (s.m_GreyScale || !CompareColorMatrix s.m_ColorMatrix c_IdentifyMatrix)
          m_NeedsTransform := s.m_NeedsTransform ||
            decide (s.m_Flip ≠ RotateNoneFlipNone ∨ s.m_Rotate ≠ 0) },
        [Event.DisposeImage, Event.LoadImageFromFileHandle]) := by
  have he : (LoadImage_reload s fh fn t).2 =
      [Event.DisposeImage, Event.LoadImageFromFileHandle] := by
    unfold LoadImage_reload
    rw [hd]
  refine Prod.ext ?_ he
  apply eq_of_parts
  · rw [params_LoadImage_reload]
    rfl
  · rw [slot_LoadImage_reload_some s fh fn t bitmap hBuffer hd]
    rfl
  · rw [flags_LoadImage_reload_some s fh fn t bitmap hBuffer hd]
    rfl

/-! ### Degenerate crops and degenerate sources -/

theorem LoadImage_stages_degenerate (s : CTintedImage) (host : Host) (b : Bitmap)
    (hsize : 0 < b.GetWidth ∧ 0 < b.GetHeight)
    (hzero : s.m_Crop.Width = 0 ∨ s.m_Crop.Height = 0)
    (hnn : 0 ≤ s.m_Crop.Width ∧ 0 ≤ s.m_Crop.Height) :
    LoadImage_stages s host b = ({ s with m_BitmapTint := some (Bitmap.New 0 0) }, [Event.ApplyCrop]) := by
  have hc : s.ApplyCrop = { s with m_BitmapTint := some (Bitmap.New 0 0) } := by
    unfold ApplyCrop
    rw [if_pos hnn, if_pos hzero]
  unfold LoadImage_stages
  rw [if_pos hsize]
  dsimp only
  rw [hc]
  rfl

/-- The pipeline block on a crop rectangle with a zero and no negative side. -/
theorem LoadImage_pipeline_degenerate (s : CTintedImage) (host : Host) (b : Bitmap)
    (hb : s.m_Bitmap = some b)
    (hf : s.m_NeedsCrop = true ∨ s.m_NeedsTinting = true ∨ s.m_NeedsTransform = true)
    (hsize : 0 < b.GetWidth ∧ 0 < b.GetHeight)
    (hzero : s.m_Crop.Width = 0 ∨ s.m_Crop.Height = 0)
    (hnn : 0 ≤ s.m_Crop.Width ∧ 0 ≤ s.m_Crop.Height) :
    LoadImage_pipeline s host =
      (({ s with m_BitmapTint := some (Bitmap.New 0 0) } : CTintedImage).withFlags false false
        false, [Event.ApplyCrop]) := by
  rw [LoadImage_pipeline_some s host b hb hf,
    LoadImage_stages_degenerate { s with m_BitmapTint := none } host b hsize hzero hnn]

theorem LoadImage_reload_some_facts (s : CTintedImage) (fh : FileHandle) (fn : String)
    (t : FILETIME) (bitmap : Bitmap) (hBuffer : HGLOBAL)
    (hd : LoadImageFromFileHandle fh = some (bitmap, hBuffer)) :
    (LoadImage_reload s fh fn t).1.m_Bitmap = some bitmap ∧
    (LoadImage_reload s fh fn t).1.m_Crop = s.m_Crop ∧
    ((LoadImage_reload s fh fn t).1.m_NeedsCrop =
      (s.m_NeedsCrop || decide (s.m_Crop.Width ≥ 0 ∨ s.m_Crop.Height ≥ 0))) ∧
    (LoadImage_reload s fh fn t).2 = [Event.DisposeImage, Event.LoadImageFromFileHandle] := by
  rw [LoadImage_reload_some s fh fn t bitmap hBuffer hd]
  exact ⟨rfl, rfl, rfl, rfl⟩

theorem LoadImage_closed (s : CTintedImage) (host : Host) (n : String) (b : Bool)
    (hn : n ≠ "") (hf : host.CreateFile (LoadImage_filename n) = none) :
    s.LoadImage host n b =
      (s.DisposeImage, [Event.CreateFile (LoadImage_filename n),
        Event.LogWithArgs "Unable to open %s: %s" [s.m_ConfigName, LoadImage_filename n],
        Event.DisposeImage]) := by
  unfold LoadImage
  rw [if_pos hn]
  dsimp only
  rw [hf]

theorem LoadImage_reload_none (s : CTintedImage) (fh : FileHandle) (fn : String) (t : FILETIME)
    (hd : LoadImageFromFileHandle fh = none) :
    LoadImage_reload s fh fn t =
      (s.DisposeImage, [Event.DisposeImage, Event.LoadImageFromFileHandle,
        Event.LogWithArgs "Unable to load %s: %s" [s.m_ConfigName, fn]]) := by
  unfold LoadImage_reload
  rw [hd]

theorem reloads_iff (b : Bool) (t m : FILETIME) :
    (b = true ∨ CompareFileTime t m ≠ 0) ↔ (b = true ∨ t ≠ m) := by
  rw [Ne, CompareFileTime_eq_zero_iff]

theorem LoadImage_stages_skip (s : CTintedImage) (host : Host) (b : Bitmap)
    (h : b.GetWidth = 0 ∨ b.GetHeight = 0) : LoadImage_stages s host b = (s, []) := by
  unfold LoadImage_stages
  rw [if_neg (by omega)]

theorem LoadImage_pipeline_skip (s : CTintedImage) (host : Host) (b : Bitmap)
    (hb : s.m_Bitmap = some b) (h : b.GetWidth = 0 ∨ b.GetHeight = 0) :
    (LoadImage_pipeline s host).1.flags = (false, false, false) ∧
    (LoadImage_pipeline s host).2 = [] := by
  by_cases hf : s.m_NeedsCrop = true ∨ s.m_NeedsTinting = true ∨ s.m_NeedsTransform = true
  · rw [LoadImage_pipeline_some s host b hb hf, LoadImage_stages_skip _ host b h]
    exact ⟨rfl, rfl⟩
  · have hfl : s.flags = (false, false, false) := by
      simp only [not_or, Bool.not_eq_true] at hf
      simp [flags, hf.1, hf.2.1, hf.2.2]
    rw [LoadImage_pipeline_idle s host hfl]
    exact ⟨hfl, rfl⟩

/-- A `LoadImage` call that leaves no source bitmap leaves the flags as they were. -/
theorem LoadImage_flags_of_none (s : CTintedImage) (host : Host) (n : String) (b : Bool)
    (h : (s.LoadImage host n b).1.m_Bitmap = none) : (s.LoadImage host n b).1.flags = s.flags := by
  by_cases hn : n = ""
  · subst hn
    rw [LoadImage_empty]
    split_ifs <;> rfl
  · cases hf : host.CreateFile (LoadImage_filename n) with
    | none => rw [LoadImage_closed s host n b hn hf]; rfl
    | some fh =>
      rw [LoadImage_open s host n b fh hn hf] at h ⊢
      dsimp only at h ⊢
      have hin : (if b = true ∨ CompareFileTime fh.lastWriteTime s.m_Modified ≠ 0 then
          LoadImage_reload s fh (LoadImage_filename n) fh.lastWriteTime
          else (s, [])).1.m_Bitmap = none := by
        by_contra hne
        have := bitmap_LoadImage_pipeline _ host (Option.ne_none_iff_isSome.1 hne)
        rw [h] at this
        simp at this
      rw [LoadImage_pipeline_none _ host hin]
      split_ifs at hin ⊢ with hc
      · cases hd : LoadImageFromFileHandle fh with
        | none => rw [LoadImage_reload_none s fh _ _ hd]; rfl
        | some r =>
          obtain ⟨bitmap, hBuffer⟩ := r
          rw [(LoadImage_reload_some_facts s fh _ _ bitmap hBuffer hd).1] at hin
          simp at hin
      · rfl

/-- A `LoadImage` call that finds or loads a source image of width or height 0 calls no
stage and leaves the three flags false. -/
theorem LoadImage_degenerate_source (s : CTintedImage) (host : Host) (n : String) (b : Bool)
    (fh : FileHandle) (bitmap : Bitmap) (hn : n ≠ "")
    (hf : host.CreateFile (LoadImage_filename n) = some fh)
    (hdeg : bitmap.GetWidth = 0 ∨ bitmap.GetHeight = 0)
    (hrun : (b = false ∧ fh.lastWriteTime = s.m_Modified ∧ s.m_Bitmap = some bitmap) ∨
      ((b = true ∨ fh.lastWriteTime ≠ s.m_Modified) ∧
        ∃ hBuffer, LoadImageFromFileHandle fh = some (bitmap, hBuffer))) :
    (s.LoadImage host n b).1.flags = (false, false, false) ∧
    (s.LoadImage host n b).2 = Event.CreateFile (LoadImage_filename n) ::
      (if b = true ∨ fh.lastWriteTime ≠ s.m_Modified then
        [Event.DisposeImage, Event.LoadImageFromFileHandle] else []) := by
  rw [LoadImage_open s host n b fh hn hf]
  rcases hrun with ⟨hb, ht, hbm⟩ | ⟨hre, hBuffer, hdec⟩
  · have hc : ¬ (b = true ∨ CompareFileTime fh.lastWriteTime s.m_Modified ≠ 0) := by
      rw [reloads_iff, hb, ht]
      simp
    rw [if_neg hc, if_neg ((reloads_iff _ _ _).not.1 hc)]
    obtain ⟨h1, h2⟩ := LoadImage_pipeline_skip s host bitmap hbm hdeg
    exact ⟨h1, by simp [h2]⟩
  · rw [if_pos ((reloads_iff _ _ _).2 hre), if_pos hre]
    obtain ⟨h1, -, -, h4⟩ := LoadImage_reload_some_facts s fh
      (LoadImage_filename n) fh.lastWriteTime bitmap hBuffer hdec
    obtain ⟨h5, h6⟩ := LoadImage_pipeline_skip _ host bitmap h1 hdeg
    exact ⟨h5, by simp [h4, h6]⟩

/-! ### Sequences of `ReadConfig` calls -/

/-- A sequence with one more call at its end is the sequence followed by that call. -/
theorem ReadConfigSeq_append (s : CTintedImage) (cs : List (CConfigParser × String))
    (c : CConfigParser × String) :
    ReadConfigSeq s (cs ++ [c]) =
      match ReadConfigSeq s cs with
      | .ok sm => sm.ReadConfig c.1 c.2
      | .error e => .error e := by
  induction cs generalizing s with
  | nil =>
    simp only [List.nil_append, ReadConfigSeq]
    cases s.ReadConfig c.1 c.2 <;> rfl
  | cons d ds ih =>
    simp only [List.cons_append, ReadConfigSeq]
    cases s.ReadConfig d.1 d.2 with
    | error e => rfl
    | ok s1 => exact ih s1

theorem exampleSeq_one :
    ReadConfigSeq (new none none false)
        [(exampleParser (some "0,0,10,10") none (some 1) none, "Meter")]
      = .ok (afterFlip (new none none false)
          (exampleParser (some "0,0,10,10") none (some 1) none) "Meter" RotateNoneFlipNone) := by
  simp only [ReadConfigSeq, exampleRead_ok]

theorem exampleSeq_two :
    ReadConfigSeq (new none none false)
        ([(exampleParser (some "0,0,10,10") none (some 1) none, "Meter")] ++
          [(exampleParser (some "0,0,10,10") none (some 1) none, "Meter")])
      = .ok ((afterFlip (new none none false)
          (exampleParser (some "0,0,10,10") none (some 1) none) "Meter"
          RotateNoneFlipNone).withFlags false false false) := by
  rw [ReadConfigSeq_append, exampleSeq_one]
  exact ReadConfig_again _ _ _ _ _ exampleRead_ok rfl

end CTintedImage

namespace CTintedImage

/-- The example configuration with a `ColorMatrix1` row is read normally. -/
theorem exampleRead_matrix_ok :
    (new none none false).ReadConfig exampleMatrixParser "Meter"
      = .ok (afterFlip (new none none false) exampleMatrixParser "Meter"
          RotateFlipType.RotateNoneFlipNone) := by
  rw [ReadConfig_eq, if_neg (by decide)]
  rfl

/-! ### The fifth column of the color matrix -/

/-- The assignment loop of a row leaves the fifth column as it was. -/
theorem setRow_m_col4 (M : ColorMatrix) (r i : Fin 5) (v : List REAL) :
    (M.setRow r v).m i 4 = M.m i 4 := by
  simp [ColorMatrix.setRow, set_m]

/-- A step of `ReadConfig` on one of the rows 0..3 leaves the fifth column as it
was. -/
theorem rowStep_m_col4 (c : Prop) [Decidable c] (M : ColorMatrix) (r i : Fin 5)
    (v : List REAL) (x : REAL) (h : r ≠ 4) :
    (if c then M.setRow r v else M.set r r x).m i 4 = M.m i 4 := by
  split_ifs
  · exact setRow_m_col4 M r i v
  · simp [set_m, Ne.symm h]

/-- The step of `ReadConfig` on row 4 leaves the fifth column as it was. -/
theorem lastStep_m_col4 (c : Prop) [Decidable c] (M : ColorMatrix) (i : Fin 5)
    (v : List REAL) :
    (if c then M.setRow 4 v else M).m i 4 = M.m i 4 := by
  split_ifs
  · exact setRow_m_col4 M 4 i v
  · rfl

/-- The fifth column of the matrix `ReadConfig` reads is that of the identity. -/
theorem ReadConfig_matrix_col4 (k : ConfigIndex → String) (parser : CConfigParser)
    (sect : String) (i : Fin 5) :
    (ReadConfig_matrix k parser sect).m i 4 = if i = 4 then 1 else 0 := by
  unfold ReadConfig_matrix
  simp only
  rw [lastStep_m_col4, rowStep_m_col4 _ _ _ _ _ _ (by decide),
    rowStep_m_col4 _ _ _ _ _ _ (by decide), rowStep_m_col4 _ _ _ _ _ _ (by decide),
    rowStep_m_col4 _ _ _ _ _ _ (by decide), c_IdentifyMatrix_m]

end CTintedImage

namespace CTintedImage

/-! ### The crop rectangle `ReadConfig` stores -/

/-- An `ImageCrop` value that is empty or has no comma has at most one field. -/
theorem cropFields_short (crop : String)
    (h : ¬ (crop ≠ "" ∧ wcschr crop.data ',' = true)) : (cropFields crop).length ≤ 1 := by
  have hno : ∀ x ∈ crop.data, ¬ ((fun c : Char => c == ',') x = true) := by
    intro x hx hxe
    simp only [beq_iff_eq] at hxe
    subst hxe
    apply h
    refine ⟨?_, by simp [wcschr, hx]⟩
    rintro rfl
    simp at hx
  have hs : crop.data.splitOn ',' = [crop.data] := List.splitOnP_eq_single _ _ hno
  unfold cropFields
  rw [hs]
  by_cases he : crop.data.isEmpty = true <;> simp [List.filter, he]

/-- A normal return of `ReadConfig` stores the crop values of the crop block. -/
theorem ReadConfig_ok_crop (self s' : CTintedImage) (parser : CConfigParser) (sect : String)
    (h : self.ReadConfig parser sect = .ok s') :
    s'.m_Crop = (cropValues self parser sect).1 ∧
      s'.m_CropMode = (cropValues self parser sect).2 := by
  rw [ReadConfig_eq] at h
  split_ifs at h
  split at h
  · simp at h
  · simp only [Except.ok.injEq] at h
    subst h
    exact ⟨rfl, rfl⟩

/-- Without `disableTransform`, the width and height the crop block stores are the
integers the third and fourth fields of the `ImageCrop` value read as, -1 standing
for an absent field. -/
theorem cropValues_size (self : CTintedImage) (parser : CConfigParser) (sect : String)
    (hd : self.m_DisableTransform = false) :
    (cropValues self parser sect).1.Width =
      ((cropFields (parser.ReadString sect (self.m_ConfigArray ConfigIndex.ConfigIndexImageCrop)
        ""))[2]?.map _wtoi).getD (-1) ∧
    (cropValues self parser sect).1.Height =
      ((cropFields (parser.ReadString sect (self.m_ConfigArray ConfigIndex.ConfigIndexImageCrop)
        ""))[3]?.map _wtoi).getD (-1) := by
  unfold cropValues
  simp only [hd, Bool.false_eq_true, if_false]
  split_ifs with hc
  · rw [ReadConfig_tokens_eq]
    exact ⟨rfl, rfl⟩
  · have hl := cropFields_short _ hc
    have h2 : (cropFields (parser.ReadString sect
        (self.m_ConfigArray ConfigIndex.ConfigIndexImageCrop) ""))[2]? = none := by
      rw [List.getElem?_eq_none_iff]
      omega
    have h3 : (cropFields (parser.ReadString sect
        (self.m_ConfigArray ConfigIndex.ConfigIndexImageCrop) ""))[3]? = none := by
      rw [List.getElem?_eq_none_iff]
      omega
    rw [h2, h3]
    exact ⟨rfl, rfl⟩

end CTintedImage

namespace CTintedImage

/-! ### The stages do not read the flags -/

end CTintedImage

/-! ### The cast to `int` -/

/-- The cast `(int)` of a float is the integer `z` when `z` is not negative and the
float is at least `z` and less than `z + 1`. -/
theorem truncToInt_eq (q : REAL) (z : Int) (h0 : 0 ≤ z) (h1 : (z : REAL) ≤ q)
    (h2 : q < (z : REAL) + 1) : truncToInt q = z := by
  unfold truncToInt
  have hz : (0 : REAL) ≤ (z : REAL) := by exact_mod_cast h0
  rw [if_pos (le_trans hz h1), Int.floor_eq_iff]
  exact ⟨h1, h2⟩

/-! ### The quotient of a color channel by 255 -/

/-- The float quotient of a channel value by 255 is within one millionth of the exact
quotient. -/
theorem toREAL_channel (c : ℚ) (h0 : 0 ≤ c) (h1 : c ≤ 255) :
    |toREAL (c / 255) - c / 255| ≤ 1 / 1000000 := by
  refine (toREAL_close (c / 255)).trans ?_
  have h : |c / 255| ≤ 1 := by
    rw [abs_of_nonneg (by positivity)]
    linarith
  have : |c / 255| / 2 ^ 24 ≤ 1 / 2 ^ 24 := by
    apply div_le_div_of_nonneg_right h (by positivity)
  have h2 : (1 : ℚ) / 2 ^ 24 + 1 / 2 ^ 150 ≤ 1 / 1000000 := by norm_num
  linarith

/-- The float quotient of 128 by 255. -/
theorem toREAL_128_div_255 : toREAL (128 / 255) = 8421505 / 16777216 := by
  rw [toREAL_eq (128 / 255) (-1) 8421505 (by norm_num) (by norm_num) (by norm_num)
    (by norm_num [abs_lt])]
  norm_num

theorem Color_channel_le (c : Color) :
    c.GetRed ≤ 255 ∧ c.GetGreen ≤ 255 ∧ c.GetBlue ≤ 255 ∧ c.GetAlpha ≤ 255 := by
  unfold Color.GetRed Color.GetGreen Color.GetBlue Color.GetAlpha
  omega

/-! ### The rounded angle and size of a quarter turn -/

theorem toREAL_100 : toREAL 100 = 100 := by
  rw [toREAL_eq 100 6 13107200 (by norm_num) (by norm_num) (by norm_num) (by norm_num [abs_lt])]
  norm_num

theorem toREAL_50 : toREAL 50 = 50 := by
  rw [toREAL_eq 50 5 13107200 (by norm_num) (by norm_num) (by norm_num) (by norm_num [abs_lt])]
  norm_num

/-- The macro `PI` is the float 13176795/4194304. -/
theorem PI_eq : PI = 13176795 / 4194304 := by
  unfold PI
  rw [toREAL_eq 3.14159265 1 13176795 (by norm_num) (by norm_num) (by norm_num)
    (by norm_num [abs_lt])]
  norm_num

/-- The angle `CONVERT_TO_RADIANS 90` is the float 13176795/8388608. -/
theorem CONVERT_TO_RADIANS_90 : CONVERT_TO_RADIANS 90 = 13176795 / 8388608 := by
  unfold CONVERT_TO_RADIANS
  rw [PI_eq]
  have h1 : toREAL (13176795 / 4194304 / 180) = 9370165 / 536870912 := by
    rw [toREAL_eq (13176795 / 4194304 / 180) (-6) 9370165 (by norm_num) (by norm_num)
      (by norm_num) (by norm_num [abs_lt])]
    norm_num
  rw [h1]
  rw [toREAL_eq (90 * (9370165 / 536870912)) 0 13176795 (by norm_num) (by norm_num)
    (by norm_num) (by norm_num [abs_lt])]
  norm_num

/-- The cosine of `CONVERT_TO_RADIANS 90` is within 1/10000 of 0 and its sine within
1/10000 of 1. -/
theorem cos_sin_CONVERT_TO_RADIANS_90 :
    |Real.cos ((CONVERT_TO_RADIANS 90 : REAL) : ℝ)| ≤ 1 / 10000 ∧
    |Real.sin ((CONVERT_TO_RADIANS 90 : REAL) : ℝ) - 1| ≤ 1 / 10000 := by
  rw [CONVERT_TO_RADIANS_90]
  have hx : (((13176795 / 8388608 : ℚ)) : ℝ) = 13176795 / 8388608 := by push_cast; rfl
  rw [hx]
  have h1 := Real.pi_gt_d4
  have h2 := Real.pi_lt_d4
  have hd : |Real.pi / 2 - 13176795 / 8388608| ≤ 1 / 10000 := by
    rw [abs_le]
    constructor <;> norm_num at h1 h2 ⊢ <;> linarith
  have hcos : Real.cos (13176795 / 8388608) = Real.sin (Real.pi / 2 - 13176795 / 8388608) := by
    rw [← Real.cos_pi_div_two_sub]
    congr 1
    ring
  have hsin : Real.sin (13176795 / 8388608) = Real.cos (Real.pi / 2 - 13176795 / 8388608) := by
    rw [← Real.sin_pi_div_two_sub]
    congr 1
    ring
  rw [hcos, hsin]
  generalize Real.pi / 2 - 13176795 / 8388608 = d at hd
  have hd' := abs_le.1 hd
  constructor
  · rw [abs_le]
    constructor
    · rcases le_total 0 d with h0 | h0
      · have := Real.sin_nonneg_of_nonneg_of_le_pi h0 (by linarith [Real.pi_gt_three])
        linarith
      · have := Real.le_sin h0
        linarith
    · rcases le_total 0 d with h0 | h0
      · have := Real.sin_le h0
        linarith
      · have := Real.sin_nonpos_of_nonnpos_of_neg_pi_le h0 (by linarith [Real.pi_gt_three])
        linarith
  · rw [abs_le]
    have hc := Real.one_sub_sq_div_two_le_cos (x := d)
    have hc1 := Real.cos_le_one d
    have hsq : d ^ 2 ≤ 1 / 10000 := by nlinarith
    constructor <;> linarith

/-- The example platform answers the cosine and sine of `CONVERT_TO_RADIANS 90`
within 1/1000. -/
theorem exampleQuarterHost_accurate :
    |((exampleQuarterHost.cos (CONVERT_TO_RADIANS 90) : REAL) : ℝ) -
      Real.cos ((CONVERT_TO_RADIANS 90 : REAL) : ℝ)| ≤ 1 / 1000 ∧
    |((exampleQuarterHost.sin (CONVERT_TO_RADIANS 90) : REAL) : ℝ) -
      Real.sin ((CONVERT_TO_RADIANS 90 : REAL) : ℝ)| ≤ 1 / 1000 := by
  obtain ⟨hc, hs⟩ := cos_sin_CONVERT_TO_RADIANS_90
  have e1 : ((exampleQuarterHost.cos (CONVERT_TO_RADIANS 90) : REAL) : ℝ) = 0 := by
    simp [exampleQuarterHost]
  have e2 : ((exampleQuarterHost.sin (CONVERT_TO_RADIANS 90) : REAL) : ℝ) = 1 := by
    simp [exampleQuarterHost]
  rw [e1, e2]
  constructor
  · rw [zero_sub, abs_neg]
    linarith
  · rw [abs_sub_comm]
    linarith

/-- The rounding to `float` of a value of size at most 65536 changes it by at most
1/250. -/
theorem toREAL_near (q : ℚ) (h : |q| ≤ 65536) : |toREAL q - q| ≤ 1 / 250 := by
  refine (toREAL_close q).trans ?_
  have : |q| / 2 ^ 24 ≤ 65536 / 2 ^ 24 := div_le_div_of_nonneg_right h (by positivity)
  have h2 : (65536 : ℚ) / 2 ^ 24 + 1 / 2 ^ 150 ≤ 1 / 250 := by norm_num
  linarith

/-- The rounding to `float` of a value of size at most 200 changes it by at most
1/50000. -/
theorem toREAL_near_small (q : ℚ) (h : |q| ≤ 200) : |toREAL q - q| ≤ 1 / 50000 := by
  refine (toREAL_close q).trans ?_
  have : |q| / 2 ^ 24 ≤ 200 / 2 ^ 24 := div_le_div_of_nonneg_right h (by positivity)
  have h2 : (200 : ℚ) / 2 ^ 24 + 1 / 2 ^ 150 ≤ 1 / 50000 := by norm_num
  linarith

/-- The size `ApplyTransform` computes for a 100 by 50 image from a cosine within
12/10000 of 0 and a sine within 12/10000 of 1. -/
theorem quarterTurn_size (c s : REAL) (hc : |c| ≤ 12 / 10000) (hs : |s - 1| ≤ 12 / 10000) :
    truncToInt (toREAL (toREAL (|toREAL (100 * c)| + |toREAL (50 * s)|) + 0.5)) = 50 ∧
    truncToInt (toREAL (toREAL (|toREAL (100 * s)| + |toREAL (50 * c)|) + 0.5)) = 100 := by
  have hc' := abs_le.1 hc
  have hs' := abs_le.1 hs
  have b1 : |100 * c| ≤ 200 := by rw [abs_le]; constructor <;> linarith
  have b2 : |50 * s| ≤ 200 := by rw [abs_le]; constructor <;> linarith
  have b3 : |100 * s| ≤ 200 := by rw [abs_le]; constructor <;> linarith
  have b4 : |50 * c| ≤ 200 := by rw [abs_le]; constructor <;> linarith
  have n1 := abs_le.1 (toREAL_near_small _ b1)
  have n2 := abs_le.1 (toREAL_near_small _ b2)
  have n3 := abs_le.1 (toREAL_near_small _ b3)
  have n4 := abs_le.1 (toREAL_near_small _ b4)
  have a1 : |toREAL (100 * c)| ≤ 13 / 100 := by rw [abs_le]; constructor <;> linarith
  have a1' := abs_nonneg (toREAL (100 * c))
  have a4 : |toREAL (50 * c)| ≤ 7 / 100 := by rw [abs_le]; constructor <;> linarith
  have a4' := abs_nonneg (toREAL (50 * c))
  have a2 : |toREAL (50 * s)| = toREAL (50 * s) := abs_of_nonneg (by linarith)
  have a3 : |toREAL (100 * s)| = toREAL (100 * s) := abs_of_nonneg (by linarith)
  have t1 : |(|toREAL (100 * c)| + |toREAL (50 * s)|)| ≤ 200 := by
    rw [a2, abs_le]; constructor <;> linarith
  have t2 : |(|toREAL (100 * s)| + |toREAL (50 * c)|)| ≤ 200 := by
    rw [a3, abs_le]; constructor <;> linarith
  have m1 := abs_le.1 (toREAL_near_small _ t1)
  have m2 := abs_le.1 (toREAL_near_small _ t2)
  rw [a2] at m1
  rw [a3] at m2
  have u1 : |toREAL (|toREAL (100 * c)| + |toREAL (50 * s)|) + 0.5| ≤ 200 := by
    rw [a2, abs_le]; constructor <;> norm_num <;> linarith
  have u2 : |toREAL (|toREAL (100 * s)| + |toREAL (50 * c)|) + 0.5| ≤ 200 := by
    rw [a3, abs_le]; constructor <;> norm_num <;> linarith
  have k1 := abs_le.1 (toREAL_near_small _ u1)
  have k2 := abs_le.1 (toREAL_near_small _ u2)
  rw [a2] at k1
  rw [a3] at k2
  rw [a2, a3]
  constructor
  · apply truncToInt_eq _ 50 (by norm_num)
    · push_cast
      norm_num at k1 ⊢
      linarith
    · push_cast
      norm_num at k1 ⊢
      linarith
  · apply truncToInt_eq _ 100 (by norm_num)
    · push_cast
      norm_num at k2 ⊢
      linarith
    · push_cast
      norm_num at k2 ⊢
      linarith
/-! ### The rounded size against the exact one -/

/-- The casts `(int)` of two non-negative floats less than 1 apart differ by at most
1. -/
theorem truncToInt_near (x y : REAL) (hx : 0 ≤ x) (hy : 0 ≤ y) (h : |x - y| < 1) :
    |truncToInt x - truncToInt y| ≤ 1 := by
  unfold truncToInt
  rw [if_pos hx, if_pos hy]
  rw [abs_lt] at h
  have x1 : (⌊x⌋ : ℚ) ≤ x := Int.floor_le x
  have x2 : x < ⌊x⌋ + 1 := Int.lt_floor_add_one x
  have y1 : (⌊y⌋ : ℚ) ≤ y := Int.floor_le y
  have y2 : y < ⌊y⌋ + 1 := Int.lt_floor_add_one y
  have a : (⌊x⌋ : ℚ) < ⌊y⌋ + 2 := by linarith
  have b : (⌊y⌋ : ℚ) < ⌊x⌋ + 2 := by linarith
  have a' : ⌊x⌋ < ⌊y⌋ + 2 := by exact_mod_cast a
  have b' : ⌊y⌋ < ⌊x⌋ + 2 := by exact_mod_cast b
  rw [abs_le]
  constructor <;> omega

/-- A rounded product of a rounded size up to 16000 and a factor of size up to 2 is
within 3/250 of the exact product. -/
theorem toREAL_product_near (n : Nat) (c : REAL) (hn : n ≤ 16000) (hc : |c| ≤ 2) :
    |toREAL (toREAL n * c) - n * c| ≤ 3 / 250 := by
  have hn' : (n : ℚ) ≤ 16000 := by exact_mod_cast hn
  have hn0 : (0 : ℚ) ≤ n := Nat.cast_nonneg n
  have h1 : |toREAL (n : ℚ) - n| ≤ 1 / 250 :=
    toREAL_near _ (by rw [abs_of_nonneg hn0]; linarith)
  have hW : |toREAL (n : ℚ)| ≤ 16001 := by
    have := abs_le.1 h1
    rw [abs_le]
    constructor <;> linarith
  have hp : |toREAL (n : ℚ) * c| ≤ 65536 := by
    rw [abs_mul]
    calc |toREAL (n : ℚ)| * |c| ≤ 16001 * 2 :=
          mul_le_mul hW hc (abs_nonneg _) (by norm_num)
      _ ≤ 65536 := by norm_num
  have h2 := toREAL_near _ hp
  have h3 : |toREAL (n : ℚ) * c - n * c| ≤ 2 / 250 := by
    rw [← sub_mul, abs_mul]
    calc |toREAL (n : ℚ) - n| * |c| ≤ 1 / 250 * 2 :=
          mul_le_mul h1 hc (abs_nonneg _) (by norm_num)
      _ = 2 / 250 := by norm_num
  calc |toREAL (toREAL n * c) - n * c|
      = |(toREAL (toREAL n * c) - toREAL n * c) + (toREAL n * c - n * c)| := by ring_nf
    _ ≤ |toREAL (toREAL n * c) - toREAL n * c| + |toREAL n * c - n * c| := abs_add _ _
    _ ≤ 3 / 250 := by linarith

/-- The size `ApplyTransform` computes in floats is within one pixel of the size the
same formula gives in exact arithmetic, for an image with width plus height up to
16000 and a cosine and sine of size up to 2. -/
theorem rotatedSize_near (w h : Nat) (c s : REAL) (hwh : w + h ≤ 16000) (hc : |c| ≤ 2)
    (hs : |s| ≤ 2) :
    |truncToInt (toREAL (toREAL (|toREAL (toREAL w * c)| + |toREAL (toREAL h * s)|) + 0.5)) -
      truncToInt (|(w : REAL) * c| + |(h : REAL) * s| + 0.5)| ≤ 1 := by
  have hw : w ≤ 16000 := by omega
  have hh : h ≤ 16000 := by omega
  have hwh' : (w : ℚ) + h ≤ 16000 := by exact_mod_cast hwh
  have hw0 : (0 : ℚ) ≤ w := Nat.cast_nonneg w
  have hh0 : (0 : ℚ) ≤ h := Nat.cast_nonneg h
  have pa := toREAL_product_near w c hw hc
  have pb := toREAL_product_near h s hh hs
  have qa := (abs_abs_sub_abs_le_abs_sub (toREAL (toREAL w * c)) (w * c)).trans pa
  have qb := (abs_abs_sub_abs_le_abs_sub (toREAL (toREAL h * s)) (h * s)).trans pb
  have xa : |(w : ℚ) * c| ≤ 2 * w := by
    rw [abs_mul, abs_of_nonneg hw0]
    nlinarith [abs_nonneg c]
  have xb : |(h : ℚ) * s| ≤ 2 * h := by
    rw [abs_mul, abs_of_nonneg hh0]
    nlinarith [abs_nonneg s]
  have xa0 := abs_nonneg ((w : ℚ) * c)
  have xb0 := abs_nonneg ((h : ℚ) * s)
  have ya0 := abs_nonneg (toREAL (toREAL (w : ℚ) * c))
  have yb0 := abs_nonneg (toREAL (toREAL (h : ℚ) * s))
  rw [abs_le] at qa qb
  have hS : |(|toREAL (toREAL (w : ℚ) * c)| + |toREAL (toREAL (h : ℚ) * s)|)| ≤ 65536 := by
    rw [abs_of_nonneg (by linarith)]
    linarith
  have hT := abs_le.1 (toREAL_near _ hS)
  have hU0 : |toREAL (|toREAL (toREAL (w : ℚ) * c)| + |toREAL (toREAL (h : ℚ) * s)|) + 0.5|
      ≤ 65536 := by
    rw [abs_le]
    constructor <;> norm_num <;> linarith
  have hU := abs_le.1 (toREAL_near _ hU0)
  apply truncToInt_near
  · norm_num at hU ⊢
    linarith
  · norm_num
    linarith
  · rw [abs_lt]
    constructor <;> norm_num at hU ⊢ <;> linarith

/-! ### The rotation by 27 degrees of a 22 by 32 image -/

/-- The sizes `ApplyTransform` computes in floats for a 22 by 32 image from the
single-precision cosine and sine of `CONVERT_TO_RADIANS 27`. -/
theorem exampleTurn_size :
    truncToInt (toREAL (toREAL (|toREAL (toREAL 22 * toREAL (14948609 / 16777216))| +
      |toREAL (toREAL 32 * toREAL (15233393 / 33554432))|) + 0.5)) = 34 ∧
    truncToInt (toREAL (toREAL (|toREAL (toREAL 22 * toREAL (15233393 / 33554432))| +
      |toREAL (toREAL 32 * toREAL (14948609 / 16777216))|) + 0.5)) = 39 := by
  have e22 : toREAL 22 = 22 := by
    rw [toREAL_eq 22 4 11534336 (by norm_num) (by norm_num) (by norm_num) (by norm_num [abs_lt])]
    norm_num
  have e32 : toREAL 32 = 32 := by
    rw [toREAL_eq 32 5 8388608 (by norm_num) (by norm_num) (by norm_num) (by norm_num [abs_lt])]
    norm_num
  have ec : toREAL (14948609 / 16777216) = 14948609 / 16777216 := by
    rw [toREAL_eq (14948609 / 16777216) (-1) 14948609 (by norm_num) (by norm_num) (by norm_num)
      (by norm_num [abs_lt])]
    norm_num
  have es : toREAL (15233393 / 33554432) = 15233393 / 33554432 := by
    rw [toREAL_eq (15233393 / 33554432) (-2) 15233393 (by norm_num) (by norm_num) (by norm_num)
      (by norm_num [abs_lt])]
    norm_num
  have a1 : toREAL (22 * (14948609 / 16777216)) = 10277169 / 524288 := by
    rw [toREAL_eq (22 * (14948609 / 16777216)) 4 10277169 (by norm_num) (by norm_num)
      (by norm_num) (by norm_num [abs_lt])]
    norm_num
  have b1 : toREAL (32 * (15233393 / 33554432)) = 15233393 / 1048576 := by
    rw [toREAL_eq (32 * (15233393 / 33554432)) 3 15233393 (by norm_num) (by norm_num)
      (by norm_num) (by norm_num [abs_lt])]
    norm_num
  have a2 : toREAL (22 * (15233393 / 33554432)) = 5236479 / 524288 := by
    rw [toREAL_eq (22 * (15233393 / 33554432)) 3 10472958 (by norm_num) (by norm_num)
      (by norm_num) (by norm_num [abs_lt])]
    norm_num
  have b2 : toREAL (32 * (14948609 / 16777216)) = 14948609 / 524288 := by
    rw [toREAL_eq (32 * (14948609 / 16777216)) 4 14948609 (by norm_num) (by norm_num)
      (by norm_num) (by norm_num [abs_lt])]
    norm_num
  have tW : toREAL (|(10277169 / 524288 : ℚ)| + |(15233393 / 1048576 : ℚ)|) =
      8946933 / 262144 := by
    rw [abs_of_pos (by norm_num), abs_of_pos (by norm_num)]
    rw [toREAL_eq (10277169 / 524288 + 15233393 / 1048576) 5 8946933 (by norm_num)
      (by norm_num) (by norm_num) (by norm_num [abs_lt])]
    norm_num
  have tH : toREAL (|(5236479 / 524288 : ℚ)| + |(14948609 / 524288 : ℚ)|) = 77 / 2 := by
    rw [abs_of_pos (by norm_num), abs_of_pos (by norm_num)]
    rw [toREAL_eq (5236479 / 524288 + 14948609 / 524288) 5 10092544 (by norm_num)
      (by norm_num) (by norm_num) (by norm_num [abs_lt])]
    norm_num
  have uW : toREAL (8946933 / 262144 + 0.5) = 9078005 / 262144 := by
    rw [toREAL_eq (8946933 / 262144 + 0.5) 5 9078005 (by norm_num) (by norm_num)
      (by norm_num) (by norm_num [abs_lt])]
    norm_num
  have uH : toREAL (77 / 2 + 0.5) = 39 := by
    rw [toREAL_eq (77 / 2 + 0.5) 5 10223616 (by norm_num) (by norm_num)
      (by norm_num) (by norm_num [abs_lt])]
    norm_num
  rw [e22, e32, ec, es, a1, b1, a2, b2, tW, tH, uW, uH]
  constructor
  · exact truncToInt_eq _ 34 (by norm_num) (by norm_num) (by norm_num)
  · exact truncToInt_eq _ 39 (by norm_num) (by norm_num) (by norm_num)

/-- The sizes the same formula gives in exact arithmetic. -/
theorem exampleTurn_exact_size :
    truncToInt (|(22 : REAL) * (14948609 / 16777216)| +
      |(32 : REAL) * (15233393 / 33554432)| + 0.5) = 34 ∧
    truncToInt (|(22 : REAL) * (15233393 / 33554432)| +
      |(32 : REAL) * (14948609 / 16777216)| + 0.5) = 38 := by
  rw [abs_of_pos (by norm_num), abs_of_pos (by norm_num), abs_of_pos (by norm_num),
    abs_of_pos (by norm_num)]
  constructor
  · exact truncToInt_eq _ 34 (by norm_num) (by norm_num) (by norm_num)
  · exact truncToInt_eq _ 38 (by norm_num) (by norm_num) (by norm_num)

namespace CTintedImage

/-- The bitmap `ApplyTransform` allocates when the rotation is not 0. -/
theorem ApplyTransform_alloc (self : CTintedImage) (host : Host) (original : Bitmap)
    (hr : self.m_Rotate ≠ 0) (hi : self.GetImage = some original) :
    ∃ rot src dst srcRect,
      (self.ApplyTransform host).m_BitmapTint = some (Bitmap.DrawImage
        (truncToInt (toREAL (toREAL (
          |toREAL (toREAL original.GetWidth *
            toREAL (host.cos (CONVERT_TO_RADIANS self.m_Rotate)))| +
          |toREAL (toREAL original.GetHeight *
            toREAL (host.sin (CONVERT_TO_RADIANS self.m_Rotate)))|) + 0.5)))
        (truncToInt (toREAL (toREAL (
          |toREAL (toREAL original.GetWidth *
            toREAL (host.sin (CONVERT_TO_RADIANS self.m_Rotate)))| +
          |toREAL (toREAL original.GetHeight *
            toREAL (host.cos (CONVERT_TO_RADIANS self.m_Rotate)))|) + 0.5)))
        rot src dst srcRect none) := by
  unfold ApplyTransform
  rw [if_pos hr, hi]
  dsimp only
  unfold replaceAfterDraw
  split <;> exact ⟨_, _, _, _, rfl⟩

end CTintedImage

/-! ### The cosine and sine of 27 degrees -/

/-- The Taylor polynomial of degree 9 of the exponential at `x * I`, by real and
imaginary part. -/
theorem expI_sum (x : ℝ) :
    (∑ m ∈ Finset.range 10, ((x : ℂ) * Complex.I) ^ m / (m.factorial : ℂ)) =
      ((1 - x ^ 2 / 2 + x ^ 4 / 24 - x ^ 6 / 720 + x ^ 8 / 40320 : ℝ) : ℂ) +
      ((x - x ^ 3 / 6 + x ^ 5 / 120 - x ^ 7 / 5040 + x ^ 9 / 362880 : ℝ) : ℂ) * Complex.I := by
  simp only [Finset.sum_range_succ, Finset.sum_range_zero, mul_pow, Nat.factorial]
  have h2 : Complex.I ^ 2 = -1 := Complex.I_sq
  have h3 : Complex.I ^ 3 = -Complex.I := by rw [pow_succ, h2]; ring
  have h4 : Complex.I ^ 4 = 1 := by rw [pow_succ, h3]; ring_nf; rw [h2]; ring
  have h5 : Complex.I ^ 5 = Complex.I := by rw [pow_succ, h4]; ring
  have h6 : Complex.I ^ 6 = -1 := by rw [pow_succ, h5]; ring_nf; rw [h2]
  have h7 : Complex.I ^ 7 = -Complex.I := by rw [pow_succ, h6]; ring
  have h8 : Complex.I ^ 8 = 1 := by rw [pow_succ, h7]; ring_nf; rw [h2]; ring
  have h9 : Complex.I ^ 9 = Complex.I := by rw [pow_succ, h8]; ring
  rw [h2, h3, h4, h5, h6, h7, h8, h9]
  push_cast
  ring

/-- The real and the imaginary part of a difference are at most its size. -/
theorem re_im_sub_le (E : ℂ) (p q : ℝ) :
    |E.re - p| ≤ Complex.abs (E - ((p : ℂ) + (q : ℂ) * Complex.I)) ∧
    |E.im - q| ≤ Complex.abs (E - ((p : ℂ) + (q : ℂ) * Complex.I)) := by
  constructor
  · have := Complex.abs_re_le_abs (E - ((p : ℂ) + (q : ℂ) * Complex.I))
    simpa using this
  · have := Complex.abs_im_le_abs (E - ((p : ℂ) + (q : ℂ) * Complex.I))
    simpa using this

/-- The cosine and the sine against their Taylor polynomials of degree 8 and 9. -/
theorem cos_sin_taylor (x : ℝ) (hx : |x| ≤ 1) :
    |Real.cos x - (1 - x ^ 2 / 2 + x ^ 4 / 24 - x ^ 6 / 720 + x ^ 8 / 40320)| ≤
      |x| ^ 10 * (11 / 36288000) ∧
    |Real.sin x - (x - x ^ 3 / 6 + x ^ 5 / 120 - x ^ 7 / 5040 + x ^ 9 / 362880)| ≤
      |x| ^ 10 * (11 / 36288000) := by
  have ha : Complex.abs ((x : ℂ) * Complex.I) = |x| := by simp
  have h := Complex.exp_bound (x := (x : ℂ) * Complex.I) (by rw [ha]; exact hx) (n := 10)
    (by norm_num)
  rw [expI_sum, ha] at h
  have hb : |x| ^ 10 * (((10 : ℕ).succ : ℝ) * (((10 : ℕ).factorial : ℝ) * (10 : ℕ))⁻¹) =
      |x| ^ 10 * (11 / 36288000) := by
    norm_num [Nat.factorial]
  rw [hb] at h
  have k := re_im_sub_le (Complex.exp ((x : ℂ) * Complex.I))
    (1 - x ^ 2 / 2 + x ^ 4 / 24 - x ^ 6 / 720 + x ^ 8 / 40320)
    (x - x ^ 3 / 6 + x ^ 5 / 120 - x ^ 7 / 5040 + x ^ 9 / 362880)
  rw [Complex.exp_ofReal_mul_I_re, Complex.exp_ofReal_mul_I_im] at k
  exact ⟨k.1.trans h, k.2.trans h⟩

/-- The angle `CONVERT_TO_RADIANS 27` is the float 15812153/33554432. -/
theorem CONVERT_TO_RADIANS_27 : CONVERT_TO_RADIANS 27 = 15812153 / 33554432 := by
  unfold CONVERT_TO_RADIANS
  rw [PI_eq]
  have h1 : toREAL (13176795 / 4194304 / 180) = 9370165 / 536870912 := by
    rw [toREAL_eq (13176795 / 4194304 / 180) (-6) 9370165 (by norm_num) (by norm_num)
      (by norm_num) (by norm_num [abs_lt])]
    norm_num
  rw [h1]
  rw [toREAL_eq (27 * (9370165 / 536870912)) (-2) 15812153 (by norm_num) (by norm_num)
    (by norm_num) (by norm_num [abs_lt])]
  norm_num

/-- The cosine and sine of `CONVERT_TO_RADIANS 27` are within 3 and 5 billionths of the
floats 14948609/16777216 and 15233393/33554432. -/
theorem cos_sin_CONVERT_TO_RADIANS_27 :
    |Real.cos ((CONVERT_TO_RADIANS 27 : REAL) : ℝ) - 14948609 / 16777216| ≤ 3 / 10 ^ 9 ∧
    |Real.sin ((CONVERT_TO_RADIANS 27 : REAL) : ℝ) - 15233393 / 33554432| ≤ 5 / 10 ^ 9 := by
  rw [CONVERT_TO_RADIANS_27]
  have hx : (((15812153 / 33554432 : ℚ)) : ℝ) = 15812153 / 33554432 := by push_cast; rfl
  rw [hx]
  obtain ⟨hc, hs⟩ := cos_sin_taylor (15812153 / 33554432) (by rw [abs_le]; constructor <;> norm_num)
  rw [abs_of_pos (by norm_num : (0 : ℝ) < 15812153 / 33554432)] at hc hs
  rw [abs_le] at hc hs
  constructor
  · rw [abs_le]
    constructor
    · have := hc.1
      norm_num at this ⊢
      linarith
    · have := hc.2
      norm_num at this ⊢
      linarith
  · rw [abs_le]
    constructor
    · have := hs.1
      norm_num at this ⊢
      linarith
    · have := hs.2
      norm_num at this ⊢
      linarith
/-- The sizes the formula gives with the real cosine and sine of
`CONVERT_TO_RADIANS 27`. -/
theorem exampleTurn_real_size :
    ⌊|22 * Real.cos ((CONVERT_TO_RADIANS 27 : REAL) : ℝ)| +
      |32 * Real.sin ((CONVERT_TO_RADIANS 27 : REAL) : ℝ)| + 1 / 2⌋ = 34 ∧
    ⌊|22 * Real.sin ((CONVERT_TO_RADIANS 27 : REAL) : ℝ)| +
      |32 * Real.cos ((CONVERT_TO_RADIANS 27 : REAL) : ℝ)| + 1 / 2⌋ = 38 := by
  obtain ⟨hc, hs⟩ := cos_sin_CONVERT_TO_RADIANS_27
  rw [abs_le] at hc hs
  have c0 : 0 < Real.cos ((CONVERT_TO_RADIANS 27 : REAL) : ℝ) := by
    have := hc.1
    norm_num at this
    linarith
  have s0 : 0 < Real.sin ((CONVERT_TO_RADIANS 27 : REAL) : ℝ) := by
    have := hs.1
    norm_num at this
    linarith
  rw [abs_of_pos (by positivity), abs_of_pos (by positivity), abs_of_pos (by positivity),
    abs_of_pos (by positivity)]
  constructor
  · rw [Int.floor_eq_iff]
    constructor
    · have h1 := hc.1
      have h2 := hs.1
      norm_num at h1 h2 ⊢
      linarith
    · have h1 := hc.2
      have h2 := hs.2
      norm_num at h1 h2 ⊢
      linarith
  · rw [Int.floor_eq_iff]
    constructor
    · have h1 := hc.1
      have h2 := hs.1
      norm_num at h1 h2 ⊢
      linarith
    · have h1 := hc.2
      have h2 := hs.2
      norm_num at h1 h2 ⊢
      linarith

/-! ## The claims -/

namespace CTintedImage

/-- C1. When `ReadConfig` returns normally, `m_NeedsCrop` is true exactly when the crop
x, y, width, height or anchor differs from its value before the call,
`m_NeedsTinting` exactly when the greyscale flag differs or the color matrix differs
from its previous value in some entry of the first four columns, and
`m_NeedsTransform` exactly when the flip mode or the rotation angle differs; the
values the three flags had before the call do not matter: with any other values the
call returns the same object. -/
theorem ReadConfig_flags_exact (self s' : CTintedImage) (parser : CConfigParser) (sect : String)
    (h : self.ReadConfig parser sect = .ok s') :
    (s'.m_NeedsCrop = true ↔
      (s'.m_Crop.X ≠ self.m_Crop.X ∨ s'.m_Crop.Y ≠ self.m_Crop.Y ∨
        s'.m_Crop.Width ≠ self.m_Crop.Width ∨ s'.m_Crop.Height ≠ self.m_Crop.Height ∨
        s'.m_CropMode ≠ self.m_CropMode)) ∧
    (s'.m_NeedsTinting = true ↔
      (s'.m_GreyScale ≠ self.m_GreyScale ∨
        ∃ i j : Fin 5, j.val < 4 ∧ s'.m_ColorMatrix.m i j ≠ self.m_ColorMatrix.m i j)) ∧
    (s'.m_NeedsTransform = true ↔
      (s'.m_Flip ≠ self.m_Flip ∨ s'.m_Rotate ≠ self.m_Rotate)) ∧
    ∀ c t r : Bool, ReadConfig
      { self with m_NeedsCrop := c, m_NeedsTinting := t, m_NeedsTransform := r } parser sect
        = .ok s' := by
  refine ⟨?_, ?_, ?_, fun c t r => ReadConfig_withFlags self parser sect c t r s' h⟩
  all_goals
    rw [ReadConfig_eq] at h
    split_ifs at h
    split at h
    · simp at h
    · simp only [Except.ok.injEq] at h
      subst h
      simp only [afterFlip, beforeFlip, decide_eq_true_eq, Bool.or_eq_true, Bool.not_eq_true',
        CompareColorMatrix_eq_false_iff, ne_eq]
      simp only [eq_comm]

/-- Witness for C1: from the freshly constructed object, reading a configuration with
`ImageCrop=0,0,10,10` and `Greyscale=1` returns normally and sets `m_NeedsCrop`
according to the comparison with the values before the call. -/
theorem ReadConfig_flags_exact_witness :
    (new none none false).ReadConfig (exampleParser (some "0,0,10,10") none (some 1) none) "Meter"
      = .ok (afterFlip (new none none false)
          (exampleParser (some "0,0,10,10") none (some 1) none) "Meter" RotateNoneFlipNone) ∧
    ((afterFlip (new none none false)
        (exampleParser (some "0,0,10,10") none (some 1) none) "Meter"
        RotateNoneFlipNone).m_NeedsCrop = true ↔
      ((afterFlip (new none none false)
          (exampleParser (some "0,0,10,10") none (some 1) none) "Meter"
          RotateNoneFlipNone).m_Crop.X ≠ (new none none false).m_Crop.X ∨
        (afterFlip (new none none false)
          (exampleParser (some "0,0,10,10") none (some 1) none) "Meter"
          RotateNoneFlipNone).m_Crop.Y ≠ (new none none false).m_Crop.Y ∨
        (afterFlip (new none none false)
          (exampleParser (some "0,0,10,10") none (some 1) none) "Meter"
          RotateNoneFlipNone).m_Crop.Width ≠ (new none none false).m_Crop.Width ∨
        (afterFlip (new none none false)
          (exampleParser (some "0,0,10,10") none (some 1) none) "Meter"
          RotateNoneFlipNone).m_Crop.Height ≠ (new none none false).m_Crop.Height ∨
        (afterFlip (new none none false)
          (exampleParser (some "0,0,10,10") none (some 1) none) "Meter"
          RotateNoneFlipNone).m_CropMode ≠ (new none none false).m_CropMode)) :=
  ⟨exampleRead_ok, (ReadConfig_flags_exact _ _ _ _ exampleRead_ok).1⟩

/-- Counterexample to C2 as stated: the file "a.png" opens with a last write time
that never changes, but does not decode.  After `ReadConfig`, `LoadImage`,
`ReadConfig`, the second `LoadImage` disposes the slot and attempts the decode
again. -/
theorem LoadImage_second_run_counterexample :
    (new none none false).ReadConfig (exampleParser none none none none) "Meter"
      = .ok (afterFlip (new none none false) (exampleParser none none none none) "Meter"
          RotateNoneFlipNone) ∧
    ((afterFlip (new none none false) (exampleParser none none none none) "Meter"
        RotateNoneFlipNone).LoadImage (exampleHost (some (exampleFile ⟨5, 1⟩ none))) "a" false).1.ReadConfig
        (exampleParser none none none none) "Meter"
      = .ok (((afterFlip (new none none false) (exampleParser none none none none) "Meter"
          RotateNoneFlipNone).LoadImage (exampleHost (some (exampleFile ⟨5, 1⟩ none))) "a"
          false).1.withFlags false false false) ∧
    ((((afterFlip (new none none false) (exampleParser none none none none) "Meter"
        RotateNoneFlipNone).LoadImage (exampleHost (some (exampleFile ⟨5, 1⟩ none))) "a"
        false).1.withFlags false false false).LoadImage
        (exampleHost (some (exampleFile ⟨5, 1⟩ none))) "a" false).2
      = [Event.CreateFile "a.png", Event.DisposeImage, Event.LoadImageFromFileHandle,
          Event.LogWithArgs "Unable to load %s: %s" ["Image", "a.png"]] := by
  have h1 : (new none none false).ReadConfig (exampleParser none none none none) "Meter"
      = .ok (afterFlip (new none none false) (exampleParser none none none none) "Meter"
          RotateNoneFlipNone) := by
    rw [ReadConfig_eq, if_neg (by decide)]
    rfl
  refine ⟨h1, ReadConfig_again _ _ _ _ _ h1 (params_LoadImage _ _ _ _), ?_⟩
  rfl

/-- C2, amended.  Let `ReadConfig` return normally, and let the path be empty or name
a file that opens and decodes, and that opens with the same last write time when
`LoadImage` is called again.  Then in the sequence `ReadConfig`, `LoadImage`,
`ReadConfig`, `LoadImage` the second `ReadConfig` returns normally with the three
flags false, and the second `LoadImage` returns the object unchanged (so the flags
are false when it ends and the source bitmap, derived bitmap and stored time are the
same) after no routine call other than the `CreateFile` that opens the file: no
dispose, no decode, no stage. -/
theorem LoadImage_second_run_idle (s0 s1 : CTintedImage) (parser : CConfigParser)
    (sect : String) (host host2 : Host) (imageName : String)
    (h1 : s0.ReadConfig parser sect = .ok s1)
    (hfile : imageName ≠ "" → ∃ fh fh2,
      host.CreateFile (LoadImage_filename imageName) = some fh ∧
      (LoadImageFromFileHandle fh).isSome = true ∧
      host2.CreateFile (LoadImage_filename imageName) = some fh2 ∧
      fh2.lastWriteTime = fh.lastWriteTime) :
    (s1.LoadImage host imageName false).1.ReadConfig parser sect
      = .ok ((s1.LoadImage host imageName false).1.withFlags false false false) ∧
    ((s1.LoadImage host imageName false).1.withFlags false false false).LoadImage host2
        imageName false
      = ((s1.LoadImage host imageName false).1.withFlags false false false,
          if imageName = "" then [] else [Event.CreateFile (LoadImage_filename imageName)]) := by
  refine ⟨ReadConfig_again _ _ _ _ _ h1 (params_LoadImage _ _ _ _), ?_⟩
  by_cases hn : imageName = ""
  · subst hn
    rw [if_pos rfl, LoadImage_empty, LoadImage_empty]
    split_ifs <;> simp_all [withFlags, DisposeImage]
  · obtain ⟨fh, fh2, hf, hd, hf2, ht⟩ := hfile hn
    rw [if_neg hn]
    apply LoadImage_idle _ _ _ fh2 hn hf2
    · rw [ht]
      exact (LoadImage_modified s1 host imageName fh hn hf hd).symm
    · rfl

/-- Witness for C2: the file "a.png" opens and decodes to a 64 by 64 bitmap, and the
configuration has `ImageCrop=0,0,10,10` and `Greyscale=1`. -/
theorem LoadImage_second_run_idle_witness :
    (new none none false).ReadConfig (exampleParser (some "0,0,10,10") none (some 1) none) "Meter"
      = .ok (afterFlip (new none none false)
          (exampleParser (some "0,0,10,10") none (some 1) none) "Meter" RotateNoneFlipNone) ∧
    (((afterFlip (new none none false)
        (exampleParser (some "0,0,10,10") none (some 1) none) "Meter"
        RotateNoneFlipNone).LoadImage
        (exampleHost (some (exampleFile ⟨5, 1⟩ (some (Bitmap.FromStream 0 64 64))))) "a"
        false).1.withFlags false false false).LoadImage
        (exampleHost (some (exampleFile ⟨5, 1⟩ (some (Bitmap.FromStream 0 64 64))))) "a" false
      = (((afterFlip (new none none false)
          (exampleParser (some "0,0,10,10") none (some 1) none) "Meter"
          RotateNoneFlipNone).LoadImage
          (exampleHost (some (exampleFile ⟨5, 1⟩ (some (Bitmap.FromStream 0 64 64))))) "a"
          false).1.withFlags false false false,
          if "a" = "" then [] else [Event.CreateFile (LoadImage_filename "a")]) :=
  ⟨exampleRead_ok,
    (LoadImage_second_run_idle _ _ _ _
      (exampleHost (some (exampleFile ⟨5, 1⟩ (some (Bitmap.FromStream 0 64 64)))))
      (exampleHost (some (exampleFile ⟨5, 1⟩ (some (Bitmap.FromStream 0 64 64))))) "a"
      exampleRead_ok
      (fun _ => ⟨exampleFile ⟨5, 1⟩ (some (Bitmap.FromStream 0 64 64)),
        exampleFile ⟨5, 1⟩ (some (Bitmap.FromStream 0 64 64)), rfl, rfl, rfl, rfl⟩)).2⟩

/-- Counterexample to C3 as stated: the value `ImageCrop=0,0,10,10,9` carries the
anchor index 9, yet on an object constructed with `disableTransform` set
`ReadConfig` returns normally. -/
theorem ReadConfig_throws_counterexample :
    anchorIndex "0,0,10,10,9" = some 9 ∧
    (new none none true).ReadConfig (exampleParser (some "0,0,10,10,9") none none none) "Meter"
      = .ok (afterFlip (new none none true)
          (exampleParser (some "0,0,10,10,9") none none none) "Meter" RotateNoneFlipNone) := by
  refine ⟨by decide, ?_⟩
  rw [ReadConfig_eq, if_neg (by decide)]
  rfl

/-- C3, amended.  `ReadConfig` throws exactly when the object was constructed without
`disableTransform` and the `ImageCrop` value carries an anchor index outside 0..4, or
the `ImageFlip` value is not, compared case-insensitively, one of NONE, HORIZONTAL,
VERTICAL, BOTH; on every other configuration it returns normally.  In particular, on
a freshly constructed object without `disableTransform`, `ImageFlip=DIAGONAL` throws
and `ImageCrop=0,0,10,10,9` throws, the error naming the key, the value and the
section. -/
theorem ReadConfig_throws_iff :
    (∀ (self : CTintedImage) (parser : CConfigParser) (sect : String),
      ((∃ e, self.ReadConfig parser sect = .error e) ↔
        ((self.m_DisableTransform = false ∧
          ∃ a, anchorIndex (parser.ReadString sect (self.m_ConfigArray ConfigIndexImageCrop) "")
            = some a ∧ (a < 0 ∨ 4 < a)) ∨
        ¬ isFlipKeyword
          (parser.ReadString sect (self.m_ConfigArray ConfigIndexImageFlip) "NONE"))) ∧
      ((∃ s, self.ReadConfig parser sect = .ok s) ↔
        ¬ ((self.m_DisableTransform = false ∧
          ∃ a, anchorIndex (parser.ReadString sect (self.m_ConfigArray ConfigIndexImageCrop) "")
            = some a ∧ (a < 0 ∨ 4 < a)) ∨
        ¬ isFlipKeyword
          (parser.ReadString sect (self.m_ConfigArray ConfigIndexImageFlip) "NONE")))) ∧
    (new none none false).ReadConfig (exampleParser none (some "DIAGONAL") none none) "Meter"
      = .error ⟨⟨"ImageFlip=DIAGONAL is not valid in meter [Meter].", 631⟩,
          beforeFlip (new none none false) (exampleParser none (some "DIAGONAL") none none)
            "Meter"⟩ ∧
    (new none none false).ReadConfig (exampleParser (some "0,0,10,10,9") none none none) "Meter"
      = .error ⟨⟨"ImageCrop=0,0,10,10,9 (origin) is not valid in meter [Meter].", 523⟩,
          (new none none false).withCrop (⟨0, 0, 10, 10⟩, 9)⟩ := by
  refine ⟨fun self parser sect => ?_, ?_, ?_⟩
  · rw [ReadConfig_eq, ← cropThrows_iff, ← ReadConfig_flip_eq_none_iff]
    by_cases ht : cropThrows self parser sect
    · simp [ht]
    · cases hf : ReadConfig_flip
        (parser.ReadString sect (self.m_ConfigArray ConfigIndexImageFlip) "NONE") <;>
        simp [ht]
  · rw [ReadConfig_eq, if_neg (by decide)]
    rfl
  · rw [ReadConfig_eq, if_pos (by decide)]
    rfl

/-- C4. On a source bitmap of size `W` by `H` and a crop rectangle `(x, y, w, h)` with
`w > 0` and `h > 0`, `ApplyCrop` makes the derived image a bitmap of size exactly `w`
by `h` sampled from the source at origin `(x, y)` for the anchor TopLeft, `(x+W, y)`
for TopRight, `(x+W, y+H)` for BottomRight, `(x, y+H)` for BottomLeft and
`(x + W/2, y + H/2)` for Center, the halves by integer division; so with `x = 0` and
`y = 0` BottomRight gives the origin `(W, H)` and Center `(W/2, H/2)`. -/
theorem ApplyCrop_anchor (self : CTintedImage) (bitmap : Bitmap)
    (hb : self.m_Bitmap = some bitmap)
    (hw : 0 < self.m_Crop.Width) (hh : 0 < self.m_Crop.Height) :
    (∀ ox oy : Int,
      ((bitmap.sampledFrom ox oy self.m_Crop.Width self.m_Crop.Height).GetWidth : Int)
        = self.m_Crop.Width ∧
      ((bitmap.sampledFrom ox oy self.m_Crop.Width self.m_Crop.Height).GetHeight : Int)
        = self.m_Crop.Height) ∧
    (self.m_CropMode = CROPMODE_TL → self.ApplyCrop.m_BitmapTint = some
      (bitmap.sampledFrom self.m_Crop.X self.m_Crop.Y self.m_Crop.Width self.m_Crop.Height)) ∧
    (self.m_CropMode = CROPMODE_TR → self.ApplyCrop.m_BitmapTint = some
      (bitmap.sampledFrom (self.m_Crop.X + bitmap.GetWidth) self.m_Crop.Y
        self.m_Crop.Width self.m_Crop.Height)) ∧
    (self.m_CropMode = CROPMODE_BR → self.ApplyCrop.m_BitmapTint = some
      (bitmap.sampledFrom (self.m_Crop.X + bitmap.GetWidth) (self.m_Crop.Y + bitmap.GetHeight)
        self.m_Crop.Width self.m_Crop.Height)) ∧
    (self.m_CropMode = CROPMODE_BL → self.ApplyCrop.m_BitmapTint = some
      (bitmap.sampledFrom self.m_Crop.X (self.m_Crop.Y + bitmap.GetHeight)
        self.m_Crop.Width self.m_Crop.Height)) ∧
    (self.m_CropMode = CROPMODE_C → self.ApplyCrop.m_BitmapTint = some
      (bitmap.sampledFrom (self.m_Crop.X + (bitmap.GetWidth : Int) / 2)
        (self.m_Crop.Y + (bitmap.GetHeight : Int) / 2)
        self.m_Crop.Width self.m_Crop.Height)) ∧
    (self.m_Crop.X = 0 → self.m_Crop.Y = 0 → self.m_CropMode = CROPMODE_BR →
      self.ApplyCrop.m_BitmapTint = some
        (bitmap.sampledFrom bitmap.GetWidth bitmap.GetHeight
          self.m_Crop.Width self.m_Crop.Height)) ∧
    (self.m_Crop.X = 0 → self.m_Crop.Y = 0 → self.m_CropMode = CROPMODE_C →
      self.ApplyCrop.m_BitmapTint = some
        (bitmap.sampledFrom ((bitmap.GetWidth : Int) / 2) ((bitmap.GetHeight : Int) / 2)
          self.m_Crop.Width self.m_Crop.Height)) := by
  have hne : ¬ (self.m_Crop.Width = 0 ∨ self.m_Crop.Height = 0) := by omega
  have hge : self.m_Crop.Width ≥ 0 ∧ self.m_Crop.Height ≥ 0 := by omega
  refine ⟨fun ox oy => ?_, ?_, ?_, ?_, ?_, ?_, ?_, ?_⟩
  · simp only [Bitmap.sampledFrom, Bitmap.GetWidth, Bitmap.GetHeight, Bitmap.allocWidth,
      Bitmap.allocHeight, hw, hh, and_self, if_true]
    omega
  all_goals
    intros
    unfold ApplyCrop
    rw [if_pos hge, if_neg hne, hb]
    simp_all [Bitmap.sampledFrom, CROPMODE_TL, CROPMODE_TR, CROPMODE_BR, CROPMODE_BL, CROPMODE_C]

/-- Witness for C4: a 64 by 48 source bitmap and the crop rectangle `(0, 0, 10, 10)`
with the anchor BottomRight. -/
theorem ApplyCrop_anchor_witness :
    (0 : Int) < 10 ∧
    (({ new none none false with
        m_Bitmap := some (Bitmap.FromStream 0 64 48)
        m_Crop := ⟨0, 0, 10, 10⟩
        m_CropMode := CROPMODE_BR } : CTintedImage).ApplyCrop.m_BitmapTint
      = some ((Bitmap.FromStream 0 64 48).sampledFrom 64 48 10 10)) :=
  ⟨by decide,
    (ApplyCrop_anchor
      { new none none false with
        m_Bitmap := some (Bitmap.FromStream 0 64 48)
        m_Crop := ⟨0, 0, 10, 10⟩
        m_CropMode := CROPMODE_BR }
      (Bitmap.FromStream 0 64 48) rfl (by decide) (by decide)).2.2.2.2.2.2.1 rfl rfl rfl⟩

/-- C5. When `ReadConfig` returns normally, for each N in 1..4 for which `ColorMatrixN`
is absent (it does not supply five floats), row N-1 of the color matrix is the
identity row with its diagonal entry replaced by the float quotient by 255 of the
red (N=1), green (N=2) or blue (N=3) of `ImageTint`, or (N=4) of the alpha, the alpha
being `ImageAlpha`, which defaults to the alpha of `ImageTint`, clamped to 0..255;
the entry is within one millionth of the exact quotient.  When `ColorMatrix5` is
absent row 4 is the identity row.  So with no `ColorMatrix4` and no `ImageAlpha`
supplied and the alpha of `ImageTint` 128, entry [3][3] is the float 8421505/16777216,
which is 128/255 to within one millionth. -/
theorem ReadConfig_legacy_tint (self s' : CTintedImage) (parser : CConfigParser)
    (sect : String) (h : self.ReadConfig parser sect = .ok s') :
    ((parser.ReadFloats sect (self.m_ConfigArray ConfigIndexColorMatrix1)).length ≠ 5 →
      (∀ j : Fin 5, s'.m_ColorMatrix.m 0 j =
        if j = 0 then
          toREAL (((parser.ReadColor sect (self.m_ConfigArray ConfigIndexImageTint)
            Color.White).GetRed : REAL) / 255)
        else 0) ∧
      |s'.m_ColorMatrix.m 0 0 - ((parser.ReadColor sect (self.m_ConfigArray ConfigIndexImageTint)
        Color.White).GetRed : REAL) / 255| ≤ 1 / 1000000) ∧
    ((parser.ReadFloats sect (self.m_ConfigArray ConfigIndexColorMatrix2)).length ≠ 5 →
      (∀ j : Fin 5, s'.m_ColorMatrix.m 1 j =
        if j = 1 then
          toREAL (((parser.ReadColor sect (self.m_ConfigArray ConfigIndexImageTint)
            Color.White).GetGreen : REAL) / 255)
        else 0) ∧
      |s'.m_ColorMatrix.m 1 1 - ((parser.ReadColor sect (self.m_ConfigArray ConfigIndexImageTint)
        Color.White).GetGreen : REAL) / 255| ≤ 1 / 1000000) ∧
    ((parser.ReadFloats sect (self.m_ConfigArray ConfigIndexColorMatrix3)).length ≠ 5 →
      (∀ j : Fin 5, s'.m_ColorMatrix.m 2 j =
        if j = 2 then
          toREAL (((parser.ReadColor sect (self.m_ConfigArray ConfigIndexImageTint)
            Color.White).GetBlue : REAL) / 255)
        else 0) ∧
      |s'.m_ColorMatrix.m 2 2 - ((parser.ReadColor sect (self.m_ConfigArray ConfigIndexImageTint)
        Color.White).GetBlue : REAL) / 255| ≤ 1 / 1000000) ∧
    ((parser.ReadFloats sect (self.m_ConfigArray ConfigIndexColorMatrix4)).length ≠ 5 →
      (∀ j : Fin 5, s'.m_ColorMatrix.m 3 j =
        if j = 3 then
          toREAL (((max 0 (min 255 (parser.ReadInt sect (self.m_ConfigArray ConfigIndexImageAlpha)
            (parser.ReadColor sect (self.m_ConfigArray ConfigIndexImageTint)
              Color.White).GetAlpha)) : Int) : REAL) / 255)
        else 0) ∧
      |s'.m_ColorMatrix.m 3 3 -
        ((max 0 (min 255 (parser.ReadInt sect (self.m_ConfigArray ConfigIndexImageAlpha)
          (parser.ReadColor sect (self.m_ConfigArray ConfigIndexImageTint)
            Color.White).GetAlpha)) : Int) : REAL) / 255| ≤ 1 / 1000000) ∧
    ((parser.ReadFloats sect (self.m_ConfigArray ConfigIndexColorMatrix5)).length ≠ 5 →
      ∀ j : Fin 5, s'.m_ColorMatrix.m 4 j = if j = 4 then 1 else 0) ∧
    ((parser.ReadFloats sect (self.m_ConfigArray ConfigIndexColorMatrix4)).length ≠ 5 →
      parser.ints sect (self.m_ConfigArray ConfigIndexImageAlpha) = none →
      (parser.ReadColor sect (self.m_ConfigArray ConfigIndexImageTint) Color.White).GetAlpha
        = 128 →
      s'.m_ColorMatrix.m 3 3 = 8421505 / 16777216 ∧
      |s'.m_ColorMatrix.m 3 3 - 128 / 255| ≤ 1 / 1000000) := by
  rw [ReadConfig_ok_matrix self s' parser sect h]
  have hch := Color_channel_le
    (parser.ReadColor sect (self.m_ConfigArray ConfigIndexImageTint) Color.White)
  refine ⟨fun h1 => ⟨fun j => ReadConfig_matrix_row0 _ _ _ h1 j, ?_⟩,
    fun h2 => ⟨fun j => ReadConfig_matrix_row1 _ _ _ h2 j, ?_⟩,
    fun h3 => ⟨fun j => ReadConfig_matrix_row2 _ _ _ h3 j, ?_⟩,
    fun h4 => ⟨fun j => ReadConfig_matrix_row3 _ _ _ h4 j, ?_⟩,
    fun h5 j => ReadConfig_matrix_row4 _ _ _ h5 j, fun h4 ha ht => ?_⟩
  · rw [ReadConfig_matrix_row0 _ _ _ h1 0, if_pos rfl]
    exact toREAL_channel _ (by positivity) (by exact_mod_cast hch.1)
  · rw [ReadConfig_matrix_row1 _ _ _ h2 1, if_pos rfl]
    exact toREAL_channel _ (by positivity) (by exact_mod_cast hch.2.1)
  · rw [ReadConfig_matrix_row2 _ _ _ h3 2, if_pos rfl]
    exact toREAL_channel _ (by positivity) (by exact_mod_cast hch.2.2.1)
  · rw [ReadConfig_matrix_row3 _ _ _ h4 3, if_pos rfl]
    apply toREAL_channel
    · exact_mod_cast le_max_left _ _
    · have : max 0 (min 255 (parser.ReadInt sect (self.m_ConfigArray ConfigIndexImageAlpha)
          (parser.ReadColor sect (self.m_ConfigArray ConfigIndexImageTint)
            Color.White).GetAlpha)) ≤ 255 := by
        apply max_le (by norm_num) (min_le_left _ _)
      exact_mod_cast this
  · have e : (ReadConfig_matrix self.m_ConfigArray parser sect).m 3 3 = toREAL (128 / 255) := by
      rw [ReadConfig_matrix_row3 _ _ _ h4 3]
      simp [CConfigParser.ReadInt, ha, ht]
    rw [e]
    refine ⟨toREAL_128_div_255, ?_⟩
    have := toREAL_channel 128 (by norm_num) (by norm_num)
    exact this

/-- Witness for C5: the configuration has `ImageTint` with alpha 128 and neither
`ColorMatrix4` nor `ImageAlpha`, and entry [3][3] of the color matrix read is the
float 8421505/16777216. -/
theorem ReadConfig_legacy_tint_witness :
    (new none none false).ReadConfig (exampleParser none none none (some ⟨0x80FF8040⟩)) "Meter"
      = .ok (afterFlip (new none none false)
          (exampleParser none none none (some ⟨0x80FF8040⟩)) "Meter" RotateNoneFlipNone) ∧
    (afterFlip (new none none false)
      (exampleParser none none none (some ⟨0x80FF8040⟩)) "Meter"
      RotateNoneFlipNone).m_ColorMatrix.m 3 3 = 8421505 / 16777216 :=
  ⟨exampleRead_tint_ok,
    ((ReadConfig_legacy_tint _ _ _ _ exampleRead_tint_ok).2.2.2.2.2 (by decide) rfl
      (by decide)).1⟩

/-- C6. The call `LoadImage` leaves the slot empty (no source bitmap, no derived bitmap,
no raw buffer, stored time zero) when the path is empty, when the file cannot be
opened, and when a reload is attempted (`bLoadAlways` is set or the time of the file
differs from the stored one) and the decode fails, whatever the slot held before.
For the empty path the object is one in which a slot without source bitmap is
empty, and every state the object can reach is such a state.  No error reaches the
caller: `LoadImage` returns in each case, and in the last two the failure is
logged. -/
theorem LoadImage_failure_empties (self : CTintedImage) (host : Host)
    (imageName : String) (bLoadAlways : Bool)
    (hcase : (imageName = "" ∧ (self.m_Bitmap = none → self.slotEmpty)) ∨
      (imageName ≠ "" ∧ host.CreateFile (LoadImage_filename imageName) = none) ∨
      (imageName ≠ "" ∧ ∃ fh, host.CreateFile (LoadImage_filename imageName) = some fh ∧
        (bLoadAlways = true ∨ fh.lastWriteTime ≠ self.m_Modified) ∧
        LoadImageFromFileHandle fh = none)) :
    (self.LoadImage host imageName bLoadAlways).1.slotEmpty ∧
    (imageName ≠ "" → ∃ format,
      Event.LogWithArgs format [self.m_ConfigName, LoadImage_filename imageName] ∈
        (self.LoadImage host imageName bLoadAlways).2) ∧
    (self.Reachable → self.m_Bitmap = none → self.slotEmpty) := by
  refine and_assoc.1 ⟨?_, fun hr => Coherent_of_Reachable self hr⟩
  rcases hcase with ⟨rfl, hco⟩ | ⟨hn, hf⟩ | ⟨hn, fh, hf, hre, hdec⟩
  · refine ⟨?_, fun h => absurd rfl h⟩
    rw [LoadImage_empty]
    split_ifs with hb
    · exact slotEmpty_DisposeImage self
    · apply hco
      simpa using hb
  · have : self.LoadImage host imageName bLoadAlways =
        (self.DisposeImage, [Event.CreateFile (LoadImage_filename imageName),
          Event.LogWithArgs "Unable to open %s: %s" [self.m_ConfigName, LoadImage_filename imageName],
          Event.DisposeImage]) := by
      unfold LoadImage
      rw [if_pos hn]
      dsimp only
      rw [hf]
    rw [this]
    exact ⟨slotEmpty_DisposeImage self, fun _ => ⟨"Unable to open %s: %s", by simp⟩⟩
  · have hc : bLoadAlways = true ∨ CompareFileTime fh.lastWriteTime self.m_Modified ≠ 0 := by
      rcases hre with h | h
      · exact Or.inl h
      · exact Or.inr (fun h0 => h ((CompareFileTime_eq_zero_iff _ _).1 h0))
    have hrel : LoadImage_reload self fh (LoadImage_filename imageName) fh.lastWriteTime =
        (self.DisposeImage, [Event.DisposeImage, Event.LoadImageFromFileHandle,
          Event.LogWithArgs "Unable to load %s: %s"
            [self.m_ConfigName, LoadImage_filename imageName]]) := by
      unfold LoadImage_reload
      rw [hdec]
    rw [LoadImage_open self host imageName bLoadAlways fh hn hf, if_pos hc, hrel,
      LoadImage_pipeline_none _ _ rfl]
    exact ⟨slotEmpty_DisposeImage self, fun _ => ⟨"Unable to load %s: %s", by simp⟩⟩

/-- Witness for C6: the object holds a loaded image, so its slot is not empty; the
slot is empty after `LoadImage` with the empty path, with a file that cannot be
opened, and with a file of another time that does not decode. -/
theorem LoadImage_failure_empties_witness :
    ¬ exampleLoaded.slotEmpty ∧
    (exampleLoaded.LoadImage (exampleHost none) "" false).1.slotEmpty ∧
    (exampleLoaded.LoadImage (exampleHost none) "a" false).1.slotEmpty ∧
    (exampleLoaded.LoadImage (exampleHost (some (exampleFile ⟨6, 0⟩ none))) "a"
      false).1.slotEmpty :=
  ⟨fun h => absurd h.1 (by simp [exampleLoaded]),
    (LoadImage_failure_empties exampleLoaded (exampleHost none) "" false
      (Or.inl ⟨rfl, fun h => absurd h (by simp [exampleLoaded])⟩)).1,
    (LoadImage_failure_empties exampleLoaded (exampleHost none) "a" false
      (Or.inr (Or.inl ⟨by decide, rfl⟩))).1,
    (LoadImage_failure_empties exampleLoaded (exampleHost (some (exampleFile ⟨6, 0⟩ none))) "a"
      false (Or.inr (Or.inr ⟨by decide, exampleFile ⟨6, 0⟩ none, rfl,
        Or.inr (by simp [exampleFile, exampleLoaded]), rfl⟩))).1⟩

/-- C7. For a non-empty image path, the file name `LoadImage` opens is the path with
".png" appended when the path lacks an extension, and the path itself when it has
one, where the path lacks an extension when no '.' occurs at or after the position of
its last backslash (position 0 when it has no backslash). -/
theorem LoadImage_opens (self : CTintedImage) (host : Host) (imageName : String)
    (bLoadAlways : Bool) (hn : imageName ≠ "") :
    (lacksExtension imageName → ∀ f,
      Event.CreateFile f ∈ (self.LoadImage host imageName bLoadAlways).2 ↔
        f = imageName ++ ".png") ∧
    (¬ lacksExtension imageName → ∀ f,
      Event.CreateFile f ∈ (self.LoadImage host imageName bLoadAlways).2 ↔ f = imageName) := by
  constructor
  · intro h f
    rw [LoadImage_events_CreateFile self host imageName bLoadAlways hn f,
      (LoadImage_filename_eq imageName).1 h]
  · intro h f
    rw [LoadImage_events_CreateFile self host imageName bLoadAlways hn f,
      (LoadImage_filename_eq imageName).2 h]

/-- Witness for C7: the path "a" lacks an extension and `LoadImage` opens "a.png". -/
theorem LoadImage_opens_witness :
    "a" ≠ "" ∧ lacksExtension "a" ∧
    Event.CreateFile "a.png" ∈ ((new none none false).LoadImage (exampleHost none) "a" false).2 :=
  ⟨by decide, (lacksExtension_iff "a").2 (by decide),
    ((LoadImage_opens (new none none false) (exampleHost none) "a" false (by decide)).1
      ((lacksExtension_iff "a").2 (by decide)) "a.png").2 (by decide)⟩

/-- Counterexample to C8 as stated: with `ImageCrop=0,0,0` the crop rectangle has
width 0 and height -1; on a 64 by 64 source image the pipeline run executes the Tint
and the Transform stage and the derived image is 64 by 64, not 0 by 0. -/
theorem LoadImage_degenerate_crop_counterexample :
    (new none none false).ReadConfig (exampleParser (some "0,0,0") none (some 1) none) "Meter"
      = .ok (afterFlip (new none none false)
          (exampleParser (some "0,0,0") none (some 1) none) "Meter" RotateNoneFlipNone) ∧
    (afterFlip (new none none false)
      (exampleParser (some "0,0,0") none (some 1) none) "Meter" RotateNoneFlipNone).m_Crop
      = ⟨0, 0, 0, -1⟩ ∧
    ((afterFlip (new none none false)
      (exampleParser (some "0,0,0") none (some 1) none) "Meter" RotateNoneFlipNone).LoadImage
      (exampleHost (some (exampleFile ⟨5, 1⟩ (some (Bitmap.FromStream 0 64 64))))) "a" false).2
      = [Event.CreateFile "a.png", Event.DisposeImage, Event.LoadImageFromFileHandle,
          Event.ApplyCrop, Event.ApplyTint, Event.ApplyTransform] ∧
    ((afterFlip (new none none false)
      (exampleParser (some "0,0,0") none (some 1) none) "Meter" RotateNoneFlipNone).LoadImage
      (exampleHost (some (exampleFile ⟨5, 1⟩ (some (Bitmap.FromStream 0 64 64))))) "a"
      false).1.m_BitmapTint.map (fun t => (t.GetWidth, t.GetHeight)) = some (64, 64) := by
  refine ⟨?_, ?_, ?_, ?_⟩
  · rw [ReadConfig_eq, if_neg (by decide)]
    rfl
  · decide
  · rfl
  · rfl

/-- C8, amended.  For a source image with positive width and height and a crop
rectangle with width 0 or height 0 and neither of them negative, a pipeline run (a
`LoadImage` call that finds the file unchanged, the source image loaded and a flag
set, or that reloads the source image) makes the derived image a 0 by 0 bitmap and
calls `ApplyCrop` but neither `ApplyTint` nor `ApplyTransform`, whatever the
greyscale flag, color matrix, flip and rotation are. -/
theorem LoadImage_degenerate_crop (self : CTintedImage) (host : Host) (imageName : String)
    (bLoadAlways : Bool) (fh : FileHandle) (bitmap : Bitmap)
    (hn : imageName ≠ "")
    (hf : host.CreateFile (LoadImage_filename imageName) = some fh)
    (hsize : 0 < bitmap.GetWidth ∧ 0 < bitmap.GetHeight)
    (hzero : self.m_Crop.Width = 0 ∨ self.m_Crop.Height = 0)
    (hnn : 0 ≤ self.m_Crop.Width ∧ 0 ≤ self.m_Crop.Height)
    (hrun : (bLoadAlways = false ∧ fh.lastWriteTime = self.m_Modified ∧
        self.m_Bitmap = some bitmap ∧
        (self.m_NeedsCrop = true ∨ self.m_NeedsTinting = true ∨ self.m_NeedsTransform = true)) ∨
      ((bLoadAlways = true ∨ fh.lastWriteTime ≠ self.m_Modified) ∧
        ∃ hBuffer, LoadImageFromFileHandle fh = some (bitmap, hBuffer))) :
    (self.LoadImage host imageName bLoadAlways).1.m_BitmapTint = some (Bitmap.New 0 0) ∧
    (Bitmap.New 0 0).GetWidth = 0 ∧ (Bitmap.New 0 0).GetHeight = 0 ∧
    Event.ApplyCrop ∈ (self.LoadImage host imageName bLoadAlways).2 ∧
    Event.ApplyTint ∉ (self.LoadImage host imageName bLoadAlways).2 ∧
    Event.ApplyTransform ∉ (self.LoadImage host imageName bLoadAlways).2 := by
  refine ⟨?_, rfl, rfl, ?_⟩
  all_goals
    rw [LoadImage_open self host imageName bLoadAlways fh hn hf]
    rcases hrun with ⟨hb, ht, hbm, hfl⟩ | ⟨hre, hBuffer, hdec⟩
    · have hc : ¬ (bLoadAlways = true ∨ CompareFileTime fh.lastWriteTime self.m_Modified ≠ 0) := by
        rw [hb, ht]
        simp [(CompareFileTime_eq_zero_iff _ _).2 rfl]
      rw [if_neg hc, LoadImage_pipeline_degenerate self host bitmap hbm hfl hsize hzero hnn]
      simp [withFlags]
    · have hc : bLoadAlways = true ∨ CompareFileTime fh.lastWriteTime self.m_Modified ≠ 0 := by
        rcases hre with h | h
        · exact Or.inl h
        · exact Or.inr (fun h0 => h ((CompareFileTime_eq_zero_iff _ _).1 h0))
      obtain ⟨h1, h2, h3, h4⟩ := LoadImage_reload_some_facts self fh
        (LoadImage_filename imageName) fh.lastWriteTime bitmap hBuffer hdec
      have h5 : (LoadImage_reload self fh (LoadImage_filename imageName)
          fh.lastWriteTime).1.m_NeedsCrop = true := by
        rw [h3]
        simp only [Bool.or_eq_true, decide_eq_true_eq]
        exact Or.inr (Or.inl hnn.1)
      rw [if_pos hc, LoadImage_pipeline_degenerate _ host bitmap h1 (Or.inl h5) hsize
        (by rw [h2]; exact hzero) (by rw [h2]; exact hnn), h4]
      simp [withFlags]

/-- Witness for C8: `ImageCrop=0,0,0,10` on a 64 by 64 source image that is
loaded by the call. -/
theorem LoadImage_degenerate_crop_witness :
    (({ new none none false with m_Crop := ⟨0, 0, 0, 10⟩ } : CTintedImage).LoadImage
      (exampleHost (some (exampleFile ⟨5, 1⟩ (some (Bitmap.FromStream 0 64 64))))) "a"
      false).1.m_BitmapTint = some (Bitmap.New 0 0) :=
  (LoadImage_degenerate_crop { new none none false with m_Crop := ⟨0, 0, 0, 10⟩ }
    (exampleHost (some (exampleFile ⟨5, 1⟩ (some (Bitmap.FromStream 0 64 64))))) "a" false
    (exampleFile ⟨5, 1⟩ (some (Bitmap.FromStream 0 64 64))) (Bitmap.FromStream 0 64 64)
    (by decide) rfl (by decide) (Or.inl rfl) (by decide)
    (Or.inr ⟨Or.inr (by decide), 1, rfl⟩)).1

/-- Counterexample to C9 as stated: after `ImageCrop=0,0,10,10` is read the flag
`m_NeedsCrop` is set; `LoadImage` then loads an image of width 0, no stage is called,
and yet the three flags are false after the call. -/
theorem LoadImage_flags_counterexample :
    (new none none false).ReadConfig (exampleParser (some "0,0,10,10") none none none) "Meter"
      = .ok (afterFlip (new none none false)
          (exampleParser (some "0,0,10,10") none none none) "Meter" RotateNoneFlipNone) ∧
    (afterFlip (new none none false)
      (exampleParser (some "0,0,10,10") none none none) "Meter"
      RotateNoneFlipNone).m_NeedsCrop = true ∧
    ((afterFlip (new none none false)
      (exampleParser (some "0,0,10,10") none none none) "Meter" RotateNoneFlipNone).LoadImage
      (exampleHost (some (exampleFile ⟨5, 1⟩ (some (Bitmap.FromStream 0 0 5))))) "a" false).2
      = [Event.CreateFile "a.png", Event.DisposeImage, Event.LoadImageFromFileHandle] ∧
    ((afterFlip (new none none false)
      (exampleParser (some "0,0,10,10") none none none) "Meter" RotateNoneFlipNone).LoadImage
      (exampleHost (some (exampleFile ⟨5, 1⟩ (some (Bitmap.FromStream 0 0 5))))) "a" false).1.flags
      = (false, false, false) := by
  have h := LoadImage_degenerate_source
    (afterFlip (new none none false)
      (exampleParser (some "0,0,10,10") none none none) "Meter" RotateNoneFlipNone)
    (exampleHost (some (exampleFile ⟨5, 1⟩ (some (Bitmap.FromStream 0 0 5))))) "a" false
    (exampleFile ⟨5, 1⟩ (some (Bitmap.FromStream 0 0 5))) (Bitmap.FromStream 0 0 5)
    (by decide) rfl (Or.inl rfl) (Or.inr ⟨Or.inr (by decide), 1, rfl⟩)
  refine ⟨?_, by decide, ?_, h.1⟩
  · rw [ReadConfig_eq, if_neg (by decide)]
    rfl
  · rw [h.2]
    rfl

/-- C9, amended.  When the path is empty, the file cannot be opened, or a reload is
attempted and the decode fails, each of the three flags has the same value after the
`LoadImage` call as before it.  When the source image the call finds or loads has
width or height 0, no stage is called and all three flags are false after the call,
whatever they were before.  The flags change only in a call that leaves a source
bitmap loaded. -/
theorem LoadImage_flags_kept (self : CTintedImage) (host : Host) (imageName : String)
    (bLoadAlways : Bool) :
    ((imageName = "" ∨
      (imageName ≠ "" ∧ host.CreateFile (LoadImage_filename imageName) = none) ∨
      (imageName ≠ "" ∧ ∃ fh, host.CreateFile (LoadImage_filename imageName) = some fh ∧
        (bLoadAlways = true ∨ fh.lastWriteTime ≠ self.m_Modified) ∧
        LoadImageFromFileHandle fh = none)) →
      (self.LoadImage host imageName bLoadAlways).1.flags = self.flags) ∧
    (∀ fh bitmap, imageName ≠ "" →
      host.CreateFile (LoadImage_filename imageName) = some fh →
      (bitmap.GetWidth = 0 ∨ bitmap.GetHeight = 0) →
      ((bLoadAlways = false ∧ fh.lastWriteTime = self.m_Modified ∧
          self.m_Bitmap = some bitmap) ∨
        ((bLoadAlways = true ∨ fh.lastWriteTime ≠ self.m_Modified) ∧
          ∃ hBuffer, LoadImageFromFileHandle fh = some (bitmap, hBuffer))) →
      (self.LoadImage host imageName bLoadAlways).1.flags = (false, false, false) ∧
      Event.ApplyCrop ∉ (self.LoadImage host imageName bLoadAlways).2 ∧
      Event.ApplyTint ∉ (self.LoadImage host imageName bLoadAlways).2 ∧
      Event.ApplyTransform ∉ (self.LoadImage host imageName bLoadAlways).2) ∧
    ((self.LoadImage host imageName bLoadAlways).1.flags ≠ self.flags →
      (self.LoadImage host imageName bLoadAlways).1.m_Bitmap.isSome = true) := by
  refine ⟨?_, ?_, ?_⟩
  · rintro (rfl | ⟨hn, hf⟩ | ⟨hn, fh, hf, hre, hdec⟩)
    · rw [LoadImage_empty]
      split_ifs <;> rfl
    · rw [LoadImage_closed self host imageName bLoadAlways hn hf]
      rfl
    · rw [LoadImage_open self host imageName bLoadAlways fh hn hf,
        if_pos ((reloads_iff _ _ _).2 hre), LoadImage_reload_none self fh _ _ hdec,
        LoadImage_pipeline_none _ _ rfl]
      rfl
  · intro fh bitmap hn hf hdeg hrun
    obtain ⟨h1, h2⟩ := LoadImage_degenerate_source self host imageName bLoadAlways fh bitmap
      hn hf hdeg hrun
    refine ⟨h1, ?_⟩
    rw [h2]
    split_ifs <;> simp
  · intro hne
    by_contra hb
    apply hne
    apply LoadImage_flags_of_none
    simpa using hb

/-- Witness for C9: on the freshly constructed object the file "a.png" cannot be
opened, and the flags after the call are the flags before it. -/
theorem LoadImage_flags_kept_witness :
    ("a" ≠ "" ∧ (exampleHost none).CreateFile (LoadImage_filename "a") = none) ∧
    ((new none none false).LoadImage (exampleHost none) "a" false).1.flags
      = (new none none false).flags :=
  ⟨⟨by decide, rfl⟩,
    (LoadImage_flags_kept (new none none false) (exampleHost none) "a" false).1
      (Or.inr (Or.inl ⟨by decide, rfl⟩))⟩

/-- Counterexample to C10 as stated: two `ReadConfig` calls with the same
configuration (`ImageCrop=0,0,10,10`, `Greyscale=1`, `ImageFlip=BOTH`) on the freshly
constructed object, and no `LoadImage` call.  The first call changes the crop
rectangle, the greyscale flag and the flip mode, yet after the second call the three
flags are false. -/
theorem ReadConfig_flags_counterexample :
    (new none none false).ReadConfig
        (exampleParser (some "0,0,10,10") (some "BOTH") (some 1) none) "Meter"
      = .ok (afterFlip (new none none false)
          (exampleParser (some "0,0,10,10") (some "BOTH") (some 1) none) "Meter"
          RotateNoneFlipXY) ∧
    (afterFlip (new none none false)
      (exampleParser (some "0,0,10,10") (some "BOTH") (some 1) none) "Meter"
      RotateNoneFlipXY).m_Crop ≠ (new none none false).m_Crop ∧
    (afterFlip (new none none false)
      (exampleParser (some "0,0,10,10") (some "BOTH") (some 1) none) "Meter"
      RotateNoneFlipXY).m_GreyScale ≠ (new none none false).m_GreyScale ∧
    (afterFlip (new none none false)
      (exampleParser (some "0,0,10,10") (some "BOTH") (some 1) none) "Meter"
      RotateNoneFlipXY).m_Flip ≠ (new none none false).m_Flip ∧
    (afterFlip (new none none false)
      (exampleParser (some "0,0,10,10") (some "BOTH") (some 1) none) "Meter"
      RotateNoneFlipXY).ReadConfig
        (exampleParser (some "0,0,10,10") (some "BOTH") (some 1) none) "Meter"
      = .ok ((afterFlip (new none none false)
          (exampleParser (some "0,0,10,10") (some "BOTH") (some 1) none) "Meter"
          RotateNoneFlipXY).withFlags false false false) ∧
    ((afterFlip (new none none false)
      (exampleParser (some "0,0,10,10") (some "BOTH") (some 1) none) "Meter"
      RotateNoneFlipXY).withFlags false false false).flags = (false, false, false) := by
  have h1 : (new none none false).ReadConfig
        (exampleParser (some "0,0,10,10") (some "BOTH") (some 1) none) "Meter"
      = .ok (afterFlip (new none none false)
          (exampleParser (some "0,0,10,10") (some "BOTH") (some 1) none) "Meter"
          RotateNoneFlipXY) := by
    rw [ReadConfig_eq, if_neg (by decide)]
    rfl
  exact ⟨h1, by decide, by decide, by decide, ReadConfig_again _ _ _ _ _ h1 rfl, rfl⟩

/-- C10, amended.  In a sequence of `ReadConfig` calls that return normally, with no
other call between them, each flag after the last call tells whether the last call
changed its parameters: `m_NeedsCrop` is true exactly when the last call changed the
crop rectangle or anchor, `m_NeedsTinting` exactly when it changed the greyscale flag
or an entry of the first four columns of the color matrix, `m_NeedsTransform` exactly
when it changed the flip mode or the rotation.  A change made by an earlier call of
the sequence does not keep a flag set. -/
theorem ReadConfigSeq_flags (s sm s' : CTintedImage) (cs : List (CConfigParser × String))
    (c : CConfigParser × String)
    (hm : ReadConfigSeq s cs = .ok sm) (h : ReadConfigSeq s (cs ++ [c]) = .ok s') :
    (s'.m_NeedsCrop = true ↔
      (s'.m_Crop.X ≠ sm.m_Crop.X ∨ s'.m_Crop.Y ≠ sm.m_Crop.Y ∨
        s'.m_Crop.Width ≠ sm.m_Crop.Width ∨ s'.m_Crop.Height ≠ sm.m_Crop.Height ∨
        s'.m_CropMode ≠ sm.m_CropMode)) ∧
    (s'.m_NeedsTinting = true ↔
      (s'.m_GreyScale ≠ sm.m_GreyScale ∨
        ∃ i j : Fin 5, j.val < 4 ∧ s'.m_ColorMatrix.m i j ≠ sm.m_ColorMatrix.m i j)) ∧
    (s'.m_NeedsTransform = true ↔
      (s'.m_Flip ≠ sm.m_Flip ∨ s'.m_Rotate ≠ sm.m_Rotate)) := by
  rw [ReadConfigSeq_append, hm] at h
  simp only at h
  rw [ReadConfig_eq] at h
  split_ifs at h
  split at h
  · simp at h
  · simp only [Except.ok.injEq] at h
    subst h
    simp only [afterFlip, beforeFlip, decide_eq_true_eq, Bool.or_eq_true, Bool.not_eq_true',
      CompareColorMatrix_eq_false_iff, ne_eq]
    simp only [eq_comm, and_self]

/-- Witness for C10: the sequence of two `ReadConfig` calls with `ImageCrop=0,0,10,10`
on the freshly constructed object; the last call changes no crop parameter and
`m_NeedsCrop` is false after it. -/
theorem ReadConfigSeq_flags_witness :
    ReadConfigSeq (new none none false)
        [(exampleParser (some "0,0,10,10") none (some 1) none, "Meter")]
      = .ok (afterFlip (new none none false)
          (exampleParser (some "0,0,10,10") none (some 1) none) "Meter" RotateNoneFlipNone) ∧
    ReadConfigSeq (new none none false)
        ([(exampleParser (some "0,0,10,10") none (some 1) none, "Meter")] ++
          [(exampleParser (some "0,0,10,10") none (some 1) none, "Meter")])
      = .ok ((afterFlip (new none none false)
          (exampleParser (some "0,0,10,10") none (some 1) none) "Meter"
          RotateNoneFlipNone).withFlags false false false) ∧
    (((afterFlip (new none none false)
        (exampleParser (some "0,0,10,10") none (some 1) none) "Meter"
        RotateNoneFlipNone).withFlags false false false).m_NeedsTransform = true ↔
      (((afterFlip (new none none false)
          (exampleParser (some "0,0,10,10") none (some 1) none) "Meter"
          RotateNoneFlipNone).withFlags false false false).m_Flip ≠
        (afterFlip (new none none false)
          (exampleParser (some "0,0,10,10") none (some 1) none) "Meter"
          RotateNoneFlipNone).m_Flip ∨
      ((afterFlip (new none none false)
          (exampleParser (some "0,0,10,10") none (some 1) none) "Meter"
          RotateNoneFlipNone).withFlags false false false).m_Rotate ≠
        (afterFlip (new none none false)
          (exampleParser (some "0,0,10,10") none (some 1) none) "Meter"
          RotateNoneFlipNone).m_Rotate)) :=
  ⟨exampleSeq_one, exampleSeq_two,
    (ReadConfigSeq_flags _ _ _ _ _ exampleSeq_one exampleSeq_two).2.2⟩

end CTintedImage

namespace CTintedImage

/-- Counterexample to C11 as stated: `ImageCrop=0,0,-5,3` is read without an error
and leaves a crop rectangle of width -5 and height 3, and `ImageCrop=0,0,0` leaves
width 0 and height -1; neither has both sizes non-negative or both -1. -/
theorem ReadConfig_crop_size_counterexample :
    (new none none false).ReadConfig (exampleParser (some "0,0,-5,3") none none none) "Meter"
      = .ok (afterFlip (new none none false)
          (exampleParser (some "0,0,-5,3") none none none) "Meter" RotateNoneFlipNone) ∧
    (afterFlip (new none none false)
      (exampleParser (some "0,0,-5,3") none none none) "Meter" RotateNoneFlipNone).m_Crop
      = ⟨0, 0, -5, 3⟩ ∧
    (new none none false).ReadConfig (exampleParser (some "0,0,0") none none none) "Meter"
      = .ok (afterFlip (new none none false)
          (exampleParser (some "0,0,0") none none none) "Meter" RotateNoneFlipNone) ∧
    (afterFlip (new none none false)
      (exampleParser (some "0,0,0") none none none) "Meter" RotateNoneFlipNone).m_Crop
      = ⟨0, 0, 0, -1⟩ := by
  refine ⟨?_, ?_, ?_, ?_⟩
  · rw [ReadConfig_eq, if_neg (by decide)]
    rfl
  · decide
  · rw [ReadConfig_eq, if_neg (by decide)]
    rfl
  · decide

/-- C11, amended.  The constructor leaves the crop rectangle (-1, -1, -1, -1).  A
`ReadConfig` call that returns normally leaves the rectangle as it was when the
object was built with `disableTransform`; otherwise the width and the height it
stores are the integers the third and the fourth field of the `ImageCrop` value
read as, -1 standing for an absent field.  So the stored width and height are both
non-negative or both -1 exactly when these two integers are; in particular they are
both -1 when the value has at most two fields, and both non-negative when its third
and fourth fields read as non-negative integers. -/
theorem ReadConfig_crop_size :
    (∀ (name : Option String) (configArray : Option (ConfigIndex → String))
        (disableTransform : Bool),
      (new name configArray disableTransform).m_Crop = ⟨-1, -1, -1, -1⟩) ∧
    (∀ (self s' : CTintedImage) (parser : CConfigParser) (sect : String),
      self.ReadConfig parser sect = .ok s' →
        (self.m_DisableTransform = true → s'.m_Crop = self.m_Crop) ∧
        (self.m_DisableTransform = false →
          s'.m_Crop.Width = ((cropFields (parser.ReadString sect
            (self.m_ConfigArray ConfigIndex.ConfigIndexImageCrop) ""))[2]?.map _wtoi).getD (-1) ∧
          s'.m_Crop.Height = ((cropFields (parser.ReadString sect
            (self.m_ConfigArray ConfigIndex.ConfigIndexImageCrop) ""))[3]?.map _wtoi).getD (-1) ∧
          ((0 ≤ s'.m_Crop.Width ∧ 0 ≤ s'.m_Crop.Height ∨
              s'.m_Crop.Width = -1 ∧ s'.m_Crop.Height = -1) ↔
            (0 ≤ ((cropFields (parser.ReadString sect (self.m_ConfigArray
                ConfigIndex.ConfigIndexImageCrop) ""))[2]?.map _wtoi).getD (-1) ∧
              0 ≤ ((cropFields (parser.ReadString sect (self.m_ConfigArray
                ConfigIndex.ConfigIndexImageCrop) ""))[3]?.map _wtoi).getD (-1) ∨
            ((cropFields (parser.ReadString sect (self.m_ConfigArray
                ConfigIndex.ConfigIndexImageCrop) ""))[2]?.map _wtoi).getD (-1) = -1 ∧
              ((cropFields (parser.ReadString sect (self.m_ConfigArray
                ConfigIndex.ConfigIndexImageCrop) ""))[3]?.map _wtoi).getD (-1) = -1)) ∧
          ((cropFields (parser.ReadString sect
              (self.m_ConfigArray ConfigIndex.ConfigIndexImageCrop) "")).length ≤ 2 →
            s'.m_Crop.Width = -1 ∧ s'.m_Crop.Height = -1) ∧
          (∀ w h : List Char,
            (cropFields (parser.ReadString sect
              (self.m_ConfigArray ConfigIndex.ConfigIndexImageCrop) ""))[2]? = some w →
            (cropFields (parser.ReadString sect
              (self.m_ConfigArray ConfigIndex.ConfigIndexImageCrop) ""))[3]? = some h →
            0 ≤ _wtoi w → 0 ≤ _wtoi h → 0 ≤ s'.m_Crop.Width ∧ 0 ≤ s'.m_Crop.Height))) := by
  refine ⟨fun _ _ _ => rfl, ?_⟩
  intro self s' parser sect h
  have hc := (ReadConfig_ok_crop self s' parser sect h).1
  refine ⟨?_, ?_⟩
  · intro hd
    rw [hc]
    unfold cropValues
    simp [hd]
  · intro hd
    have hs := cropValues_size self parser sect hd
    rw [← hc] at hs
    refine ⟨hs.1, hs.2, ?_, ?_, ?_⟩
    · rw [hs.1, hs.2]
    · intro hl
      have h2 : (cropFields (parser.ReadString sect
          (self.m_ConfigArray ConfigIndex.ConfigIndexImageCrop) ""))[2]? = none := by
        rw [List.getElem?_eq_none_iff]
        omega
      have h3 : (cropFields (parser.ReadString sect
          (self.m_ConfigArray ConfigIndex.ConfigIndexImageCrop) ""))[3]? = none := by
        rw [List.getElem?_eq_none_iff]
        omega
      rw [hs.1, hs.2, h2, h3]
      exact ⟨rfl, rfl⟩
    · intro w h hw hh hw0 hh0
      rw [hs.1, hs.2, hw, hh]
      exact ⟨hw0, hh0⟩

/-- Witness for C11: `ImageCrop=0,0,10,10` leaves width 10 and height 10. -/
theorem ReadConfig_crop_size_witness :
    (new none none false).ReadConfig (exampleParser (some "0,0,10,10") none (some 1) none) "Meter"
      = .ok (afterFlip (new none none false)
          (exampleParser (some "0,0,10,10") none (some 1) none) "Meter" RotateNoneFlipNone) ∧
    (afterFlip (new none none false)
      (exampleParser (some "0,0,10,10") none (some 1) none) "Meter"
      RotateNoneFlipNone).m_Crop.Width = 10 ∧
    (afterFlip (new none none false)
      (exampleParser (some "0,0,10,10") none (some 1) none) "Meter"
      RotateNoneFlipNone).m_Crop.Height = 10 :=
  ⟨exampleRead_ok,
    (((ReadConfig_crop_size.2 _ _ _ _ exampleRead_ok).2 rfl).1).trans (by decide),
    (((ReadConfig_crop_size.2 _ _ _ _ exampleRead_ok).2 rfl).2.1).trans (by decide)⟩

/-- C12. In the state the constructor leaves and after every `ReadConfig` call that
returns normally, whatever rows the keys `ColorMatrix1` to `ColorMatrix5` supply,
the fifth column of the stored color matrix is (0, 0, 0, 0, 1). -/
theorem ReadConfig_fifth_column :
    (∀ (name : Option String) (configArray : Option (ConfigIndex → String))
        (disableTransform : Bool) (i : Fin 5),
      (new name configArray disableTransform).m_ColorMatrix.m i 4 = if i = 4 then 1 else 0) ∧
    (∀ (self s' : CTintedImage) (parser : CConfigParser) (sect : String) (i : Fin 5),
      self.ReadConfig parser sect = .ok s' →
        s'.m_ColorMatrix.m i 4 = if i = 4 then 1 else 0) := by
  constructor
  · intro name configArray disableTransform i
    exact c_IdentifyMatrix_m i 4
  · intro self s' parser sect i h
    rw [ReadConfig_ok_matrix self s' parser sect h]
    exact ReadConfig_matrix_col4 _ _ _ i

/-- Witness for C12: the configuration supplies `ColorMatrix1` as the row
(2, 3, 4, 5, 6); the fifth entry of row 0 of the matrix read is 0. -/
theorem ReadConfig_fifth_column_witness :
    (new none none false).ReadConfig exampleMatrixParser "Meter"
      = .ok (afterFlip (new none none false) exampleMatrixParser "Meter" RotateFlipType.RotateNoneFlipNone) ∧
    (afterFlip (new none none false) exampleMatrixParser "Meter"
      RotateFlipType.RotateNoneFlipNone).m_ColorMatrix.m 0 4 = if (0 : Fin 5) = 4 then 1 else 0 :=
  ⟨exampleRead_matrix_ok,
    ReadConfig_fifth_column.2 _ _ _ _ 0 exampleRead_matrix_ok⟩

/-- C13. For every pair of matrices `a` and `b`, `CompareColorMatrix a b` is true
exactly when `a[i][j] = b[i][j]` for all rows `i` in 0..4 and columns `j` in 0..3,
and changing an entry of the fifth column of `a` or of `b` never changes the result;
so a matrix compares equal to itself, and the identity does not compare equal to the
greyscale matrix. -/
theorem CompareColorMatrix_first_four_columns :
    (∀ a b : ColorMatrix,
      (CompareColorMatrix a b = true ↔ ∀ i j : Fin 5, j.val < 4 → a.m i j = b.m i j)) ∧
    (∀ (a b : ColorMatrix) (i : Fin 5) (v : REAL),
      CompareColorMatrix (a.set i 4 v) b = CompareColorMatrix a b ∧
      CompareColorMatrix a (b.set i 4 v) = CompareColorMatrix a b) ∧
    (∀ a : ColorMatrix, CompareColorMatrix a a = true) ∧
    CompareColorMatrix c_IdentifyMatrix c_GreyScaleMatrix = false := by
  refine ⟨CompareColorMatrix_iff, ?_, CompareColorMatrix_self, ?_⟩
  · intro a b i v
    have key : ∀ (M : ColorMatrix) (i' j : Fin 5), j.val < 4 → (M.set i 4 v).m i' j = M.m i' j := by
      intro M i' j hj
      have hne : j ≠ 4 := by
        intro h
        rw [h] at hj
        exact absurd hj (by decide)
      simp [set_m, hne]
    constructor
    · rw [Bool.eq_iff_iff, CompareColorMatrix_iff, CompareColorMatrix_iff]
      constructor
      · intro h i' j hj
        rw [← key a i' j hj]
        exact h i' j hj
      · intro h i' j hj
        rw [key a i' j hj]
        exact h i' j hj
    · rw [Bool.eq_iff_iff, CompareColorMatrix_iff, CompareColorMatrix_iff]
      constructor
      · intro h i' j hj
        rw [← key b i' j hj]
        exact h i' j hj
      · intro h i' j hj
        rw [key b i' j hj]
        exact h i' j hj
  · rw [CompareColorMatrix_eq_false_iff]
    refine ⟨0, 0, by decide, ?_⟩
    show (1 : ℚ) ≠ toREAL 0.299
    have h := abs_le.1 (toREAL_close 0.299)
    intro h1
    rw [← h1] at h
    norm_num [abs_of_pos] at h

/-- Counterexample to C14 as stated: for a 22 by 32 image rotated by 27 degrees, with
the single-precision cosine and sine of the angle, `ApplyTransform` allocates a 34
by 39 bitmap, while the formula of the claim gives 34 by 38, from the same cosine
and sine and also from the real cosine and sine of the angle, which the platform's
are within 5 billionths of: the sum for the height is 38.4999997 in exact
arithmetic and 38.5 in floats. -/
theorem ApplyTransform_size_counterexample :
    (({ new none none false with m_Bitmap := some (Bitmap.FromStream 0 22 32), m_Rotate := 27 } :
      CTintedImage).ApplyTransform exampleTurnHost).m_BitmapTint.map
        (fun t => (t.GetWidth, t.GetHeight)) = some (34, 39) ∧
    truncToInt (|(22 : REAL) * exampleTurnHost.cos (CONVERT_TO_RADIANS 27)| +
      |(32 : REAL) * exampleTurnHost.sin (CONVERT_TO_RADIANS 27)| + 0.5) = 34 ∧
    truncToInt (|(22 : REAL) * exampleTurnHost.sin (CONVERT_TO_RADIANS 27)| +
      |(32 : REAL) * exampleTurnHost.cos (CONVERT_TO_RADIANS 27)| + 0.5) = 38 ∧
    |((exampleTurnHost.cos (CONVERT_TO_RADIANS 27) : REAL) : ℝ) -
      Real.cos ((CONVERT_TO_RADIANS 27 : REAL) : ℝ)| ≤ 3 / 10 ^ 9 ∧
    |((exampleTurnHost.sin (CONVERT_TO_RADIANS 27) : REAL) : ℝ) -
      Real.sin ((CONVERT_TO_RADIANS 27 : REAL) : ℝ)| ≤ 5 / 10 ^ 9 ∧
    ⌊|22 * Real.cos ((CONVERT_TO_RADIANS 27 : REAL) : ℝ)| +
      |32 * Real.sin ((CONVERT_TO_RADIANS 27 : REAL) : ℝ)| + 1 / 2⌋ = 34 ∧
    ⌊|22 * Real.sin ((CONVERT_TO_RADIANS 27 : REAL) : ℝ)| +
      |32 * Real.cos ((CONVERT_TO_RADIANS 27 : REAL) : ℝ)| + 1 / 2⌋ = 38 := by
  refine ⟨?_, exampleTurn_exact_size.1, exampleTurn_exact_size.2, ?_, ?_,
    exampleTurn_real_size.1, exampleTurn_real_size.2⟩
  · obtain ⟨rot, src, dst, srcRect, hk⟩ := ApplyTransform_alloc
      ({ new none none false with m_Bitmap := some (Bitmap.FromStream 0 22 32), m_Rotate := 27 } :
        CTintedImage) exampleTurnHost (Bitmap.FromStream 0 22 32) (by simp) rfl
    have hw : (((Bitmap.FromStream 0 22 32).GetWidth : ℕ) : ℚ) = 22 := by
      simp [Bitmap.GetWidth]
    have hh : (((Bitmap.FromStream 0 22 32).GetHeight : ℕ) : ℚ) = 32 := by
      simp [Bitmap.GetHeight]
    have hc : ∀ x, exampleTurnHost.cos x = 14948609 / 16777216 := fun _ => rfl
    have hs : ∀ x, exampleTurnHost.sin x = 15233393 / 33554432 := fun _ => rfl
    rw [hw, hh, hc, hs, exampleTurn_size.1, exampleTurn_size.2] at hk
    rw [hk]
    rfl
  · have e : ((exampleTurnHost.cos (CONVERT_TO_RADIANS 27) : REAL) : ℝ) =
        14948609 / 16777216 := by
      simp [exampleTurnHost]
    rw [e, abs_sub_comm]
    exact cos_sin_CONVERT_TO_RADIANS_27.1
  · have e : ((exampleTurnHost.sin (CONVERT_TO_RADIANS 27) : REAL) : ℝ) =
        15233393 / 33554432 := by
      simp [exampleTurnHost]
    rw [e, abs_sub_comm]
    exact cos_sin_CONVERT_TO_RADIANS_27.2

/-- C14, amended.  When the rotation is not 0, `ApplyTransform` makes the derived
image a new bitmap allocated with width `(int)(fl(fl(|fl(w * c)| + |fl(h * s)|) + 0.5))`
and height `(int)(fl(fl(|fl(w * s)| + |fl(h * c)|) + 0.5))`, where `fl` rounds to a
float, `w` and `h` are the width and height of the effective current image as
floats and `c` and `s` the floats the platform's cosine and sine of the rotation
converted to radians are stored as.  When the width plus the height of the image is
at most 16000 and the platform's cosine and sine are at most 1 in size, this width
and height are within 1 of `(int)(|w * c| + |h * s| + 0.5)` and
`(int)(|w * s| + |h * c| + 0.5)` in exact arithmetic.  For a 100 by 50 image and a
rotation of 90 degrees, on a platform whose `cos` and `sin` are within 1/1000 of
the real cosine and sine at that angle, the allocated size is 50 by 100. -/
theorem ApplyTransform_size (self : CTintedImage) (host : Host) (original : Bitmap)
    (hr : self.m_Rotate ≠ 0) (hi : self.GetImage = some original) :
    (∃ rot src dst srcRect,
      (self.ApplyTransform host).m_BitmapTint = some (Bitmap.DrawImage
        (truncToInt (toREAL (toREAL (
          |toREAL (toREAL original.GetWidth *
            toREAL (host.cos (CONVERT_TO_RADIANS self.m_Rotate)))| +
          |toREAL (toREAL original.GetHeight *
            toREAL (host.sin (CONVERT_TO_RADIANS self.m_Rotate)))|) + 0.5)))
        (truncToInt (toREAL (toREAL (
          |toREAL (toREAL original.GetWidth *
            toREAL (host.sin (CONVERT_TO_RADIANS self.m_Rotate)))| +
          |toREAL (toREAL original.GetHeight *
            toREAL (host.cos (CONVERT_TO_RADIANS self.m_Rotate)))|) + 0.5)))
        rot src dst srcRect none)) ∧
    (original.GetWidth + original.GetHeight ≤ 16000 →
      |host.cos (CONVERT_TO_RADIANS self.m_Rotate)| ≤ 1 →
      |host.sin (CONVERT_TO_RADIANS self.m_Rotate)| ≤ 1 →
      ∃ width height rot src dst srcRect,
        (self.ApplyTransform host).m_BitmapTint =
          some (Bitmap.DrawImage width height rot src dst srcRect none) ∧
        |width - truncToInt (
          |(original.GetWidth : REAL) * toREAL (host.cos (CONVERT_TO_RADIANS self.m_Rotate))| +
          |(original.GetHeight : REAL) * toREAL (host.sin (CONVERT_TO_RADIANS self.m_Rotate))| +
          0.5)| ≤ 1 ∧
        |height - truncToInt (
          |(original.GetWidth : REAL) * toREAL (host.sin (CONVERT_TO_RADIANS self.m_Rotate))| +
          |(original.GetHeight : REAL) * toREAL (host.cos (CONVERT_TO_RADIANS self.m_Rotate))| +
          0.5)| ≤ 1) ∧
    (original.GetWidth = 100 → original.GetHeight = 50 → self.m_Rotate = 90 →
      |((host.cos (CONVERT_TO_RADIANS 90) : REAL) : ℝ) -
        Real.cos ((CONVERT_TO_RADIANS 90 : REAL) : ℝ)| ≤ 1 / 1000 →
      |((host.sin (CONVERT_TO_RADIANS 90) : REAL) : ℝ) -
        Real.sin ((CONVERT_TO_RADIANS 90 : REAL) : ℝ)| ≤ 1 / 1000 →
      (∃ rot src dst srcRect, (self.ApplyTransform host).m_BitmapTint =
        some (Bitmap.DrawImage 50 100 rot src dst srcRect none)) ∧
      (self.ApplyTransform host).GetImage.map (fun b => (b.GetWidth, b.GetHeight)) =
        some (50, 100)) := by
  have key := ApplyTransform_alloc self host original hr hi
  refine ⟨key, ?_, ?_⟩
  · intro hwh hc hs
    have hc2 : |toREAL (host.cos (CONVERT_TO_RADIANS self.m_Rotate))| ≤ 2 := by
      have h := abs_le.1 (toREAL_near _ (hc.trans (by norm_num)))
      rw [abs_le] at hc ⊢
      constructor <;> linarith
    have hs2 : |toREAL (host.sin (CONVERT_TO_RADIANS self.m_Rotate))| ≤ 2 := by
      have h := abs_le.1 (toREAL_near _ (hs.trans (by norm_num)))
      rw [abs_le] at hs ⊢
      constructor <;> linarith
    obtain ⟨rot, src, dst, srcRect, hk⟩ := key
    exact ⟨_, _, rot, src, dst, srcRect, hk,
      rotatedSize_near _ _ _ _ hwh hc2 hs2,
      rotatedSize_near _ _ _ _ hwh hs2 hc2⟩
  · intro hw hh hrot hcos hsin
    obtain ⟨hc0, hs0⟩ := cos_sin_CONVERT_TO_RADIANS_90
    have hc : |host.cos (CONVERT_TO_RADIANS 90)| ≤ 11 / 10000 := by
      have h : |((host.cos (CONVERT_TO_RADIANS 90) : REAL) : ℝ)| ≤ 11 / 10000 := by
        rw [abs_le] at hcos hc0 ⊢
        constructor <;> linarith
      have h' : ((|host.cos (CONVERT_TO_RADIANS 90)| : ℚ) : ℝ) ≤ ((11 / 10000 : ℚ) : ℝ) := by
        push_cast
        exact h
      exact Rat.cast_le.1 h'
    have hs : |host.sin (CONVERT_TO_RADIANS 90) - 1| ≤ 11 / 10000 := by
      have h : |((host.sin (CONVERT_TO_RADIANS 90) : REAL) : ℝ) - 1| ≤ 11 / 10000 := by
        rw [abs_le] at hsin hs0 ⊢
        constructor <;> linarith
      have h' : ((|host.sin (CONVERT_TO_RADIANS 90) - 1| : ℚ) : ℝ) ≤ ((11 / 10000 : ℚ) : ℝ) := by
        push_cast
        exact h
      exact Rat.cast_le.1 h'
    have hc' : |toREAL (host.cos (CONVERT_TO_RADIANS 90))| ≤ 12 / 10000 := by
      have h := abs_le.1 (toREAL_near_small _ (hc.trans (by norm_num)))
      rw [abs_le] at hc ⊢
      constructor <;> linarith
    have hs' : |toREAL (host.sin (CONVERT_TO_RADIANS 90)) - 1| ≤ 12 / 10000 := by
      have hb : |host.sin (CONVERT_TO_RADIANS 90)| ≤ 200 := by
        rw [abs_le] at hs ⊢
        constructor <;> linarith
      have h := abs_le.1 (toREAL_near_small _ hb)
      rw [abs_le] at hs ⊢
      constructor <;> linarith
    obtain ⟨q1, q2⟩ := quarterTurn_size _ _ hc' hs'
    obtain ⟨rot, src, dst, srcRect, hk⟩ := key
    rw [hw, hh, hrot] at hk
    simp only [Nat.cast_ofNat] at hk
    rw [toREAL_100, toREAL_50, q1, q2] at hk
    refine ⟨⟨rot, src, dst, srcRect, hk⟩, ?_⟩
    unfold GetImage
    rw [hk]
    rfl

/-- Witness for C14: a 100 by 50 image rotated by 90 degrees on a platform whose
cosine and sine answer 0 and 1 gets a derived image of 50 by 100. -/
theorem ApplyTransform_size_witness :
    (({ new none none false with m_Bitmap := some (Bitmap.FromStream 0 100 50), m_Rotate := 90 } :
      CTintedImage).ApplyTransform exampleQuarterHost).GetImage.map
        (fun b => (b.GetWidth, b.GetHeight)) = some (50, 100) :=
  ((ApplyTransform_size
    ({ new none none false with m_Bitmap := some (Bitmap.FromStream 0 100 50), m_Rotate := 90 } :
      CTintedImage) exampleQuarterHost (Bitmap.FromStream 0 100 50) (by simp) rfl).2.2 rfl rfl rfl
    exampleQuarterHost_accurate.1 exampleQuarterHost_accurate.2).2

/-- C15, as the code has it.  On a reload that decodes, the fresh-image rule of
`LoadImage` (lines 202-222) leaves `m_NeedsCrop` set when it was set or the crop
width or the crop height is not negative (line 204 joins the two tests by "or",
where `ApplyCrop`, line 279, joins them by "and"), `m_NeedsTinting` set when it was
set or the greyscale flag is set or the color matrix differs from the identity in
the first four columns, and `m_NeedsTransform` set when it was set or the flip is
not `RotateNoneFlipNone` or the rotation is not 0. -/
theorem LoadImage_reload_fresh_image (s : CTintedImage) (fh : FileHandle) (fn : String)
    (t : FILETIME) (bitmap : Bitmap) (hBuffer : HGLOBAL)
    (hd : LoadImageFromFileHandle fh = some (bitmap, hBuffer)) :
    (LoadImage_reload s fh fn t).1.m_NeedsCrop =
      (s.m_NeedsCrop || decide (s.m_Crop.Width ≥ 0 ∨ s.m_Crop.Height ≥ 0)) ∧
    (LoadImage_reload s fh fn t).1.m_NeedsTinting =
      (s.m_NeedsTinting || (s.m_GreyScale ||
        decide (∃ i j : Fin 5, j.val < 4 ∧ s.m_ColorMatrix.m i j ≠ c_IdentifyMatrix.m i j))) ∧
    (LoadImage_reload s fh fn t).1.m_NeedsTransform =
      (s.m_NeedsTransform || decide (s.m_Flip ≠ RotateNoneFlipNone ∨ s.m_Rotate ≠ 0)) := by
  rw [LoadImage_reload_some s fh fn t bitmap hBuffer hd]
  refine ⟨rfl, ?_, rfl⟩
  dsimp only
  congr 2
  by_cases h : CompareColorMatrix s.m_ColorMatrix c_IdentifyMatrix = true
  · rw [h]
    have := (CompareColorMatrix_iff _ _).1 h
    symm
    simp only [Bool.not_true, decide_eq_false_iff_not, not_exists, not_and, not_not]
    intro i j hj
    exact this i j hj
  · have hf : CompareColorMatrix s.m_ColorMatrix c_IdentifyMatrix = false := by
      simpa using h
    rw [hf]
    symm
    simp only [Bool.not_false, decide_eq_true_eq]
    by_contra hne
    apply h
    rw [CompareColorMatrix_iff]
    intro i j hj
    by_contra hij
    exact hne ⟨i, j, hj, hij⟩

/-- The failing input of C15: `ImageCrop=0,0,0` read twice leaves the crop rectangle
(0, 0, 0, -1) and the three flags false; the crop rectangle has not both sizes
non-negative, yet the reload of a 64 by 64 image sets `m_NeedsCrop`, and the
`LoadImage` call runs the pipeline. -/
theorem LoadImage_reload_fresh_image_witness :
    (new none none false).ReadConfig (exampleParser (some "0,0,0") none none none) "Meter"
      = .ok (afterFlip (new none none false)
          (exampleParser (some "0,0,0") none none none) "Meter" RotateNoneFlipNone) ∧
    (afterFlip (new none none false)
        (exampleParser (some "0,0,0") none none none) "Meter" RotateNoneFlipNone).ReadConfig
        (exampleParser (some "0,0,0") none none none) "Meter"
      = .ok ((afterFlip (new none none false) (exampleParser (some "0,0,0") none none none)
          "Meter" RotateNoneFlipNone).withFlags false false false) ∧
    ((afterFlip (new none none false) (exampleParser (some "0,0,0") none none none)
      "Meter" RotateNoneFlipNone).withFlags false false false).m_Crop = ⟨0, 0, 0, -1⟩ ∧
    decide (((afterFlip (new none none false) (exampleParser (some "0,0,0") none none none)
        "Meter" RotateNoneFlipNone).withFlags false false false).m_Crop.Width ≥ 0 ∧
      ((afterFlip (new none none false) (exampleParser (some "0,0,0") none none none)
        "Meter" RotateNoneFlipNone).withFlags false false false).m_Crop.Height ≥ 0) = false ∧
    (LoadImage_reload ((afterFlip (new none none false)
        (exampleParser (some "0,0,0") none none none) "Meter" RotateNoneFlipNone).withFlags
        false false false) (exampleFile ⟨5, 1⟩ (some (Bitmap.FromStream 0 64 64))) "a.png"
        ⟨5, 1⟩).1.m_NeedsCrop = true ∧
    (((afterFlip (new none none false) (exampleParser (some "0,0,0") none none none)
        "Meter" RotateNoneFlipNone).withFlags false false false).LoadImage
        (exampleHost (some (exampleFile ⟨5, 1⟩ (some (Bitmap.FromStream 0 64 64))))) "a" false).2
      = [Event.CreateFile "a.png", Event.DisposeImage, Event.LoadImageFromFileHandle,
          Event.ApplyCrop, Event.ApplyTint, Event.ApplyTransform] :=
  have h1 : (new none none false).ReadConfig (exampleParser (some "0,0,0") none none none)
      "Meter" = .ok (afterFlip (new none none false)
        (exampleParser (some "0,0,0") none none none) "Meter" RotateNoneFlipNone) := by
    rw [ReadConfig_eq, if_neg (by decide)]
    rfl
  have h6 : (((afterFlip (new none none false) (exampleParser (some "0,0,0") none none none)
        "Meter" RotateNoneFlipNone).withFlags false false false).LoadImage
        (exampleHost (some (exampleFile ⟨5, 1⟩ (some (Bitmap.FromStream 0 64 64))))) "a" false).2
      = [Event.CreateFile "a.png", Event.DisposeImage, Event.LoadImageFromFileHandle,
          Event.ApplyCrop, Event.ApplyTint, Event.ApplyTransform] := by
    rw [LoadImage_open _ _ "a" false (exampleFile ⟨5, 1⟩ (some (Bitmap.FromStream 0 64 64)))
      (by decide) rfl, if_pos (by decide),
      LoadImage_reload_some _ (exampleFile ⟨5, 1⟩ (some (Bitmap.FromStream 0 64 64))) _ _
        (Bitmap.FromStream 0 64 64) 1 rfl]
    rfl
  ⟨h1, ReadConfig_again _ _ _ _ _ h1 rfl, by decide, by decide,
    (LoadImage_reload_fresh_image _ (exampleFile ⟨5, 1⟩ (some (Bitmap.FromStream 0 64 64)))
      "a.png" ⟨5, 1⟩ (Bitmap.FromStream 0 64 64) 1 rfl).1.trans (by decide),
    h6⟩

/-- C17. A `ReadConfig` call that throws does so at line 523 (invalid crop anchor)
or at line 631 (invalid flip keyword).  After the throw for the crop anchor only the
crop rectangle and the crop anchor may differ from the state before the call, the
anchor holding the out-of-range value: greyscale, color matrix, flip, rotation and
the three flags are unchanged.  After the throw for the flip keyword, flip, rotation
and `m_NeedsTransform` are unchanged, while the crop rectangle and anchor, the
greyscale flag and the color matrix hold the values read from the new configuration
and `m_NeedsCrop` and `m_NeedsTinting` compare them with the old ones. -/
theorem ReadConfig_thrown_state (self : CTintedImage) (parser : CConfigParser) (sect : String)
    (e : Thrown) (h : self.ReadConfig parser sect = .error e) :
    (e.error.line = 523 ∧
      self.m_DisableTransform = false ∧
      (e.self.m_CropMode < CROPMODE_TL ∨ e.self.m_CropMode > CROPMODE_C) ∧
      e.self = { self with m_Crop := e.self.m_Crop, m_CropMode := e.self.m_CropMode } ∧
      e.self.m_GreyScale = self.m_GreyScale ∧
      e.self.m_ColorMatrix = self.m_ColorMatrix ∧
      e.self.m_Flip = self.m_Flip ∧
      e.self.m_Rotate = self.m_Rotate ∧
      e.self.m_NeedsCrop = self.m_NeedsCrop ∧
      e.self.m_NeedsTinting = self.m_NeedsTinting ∧
      e.self.m_NeedsTransform = self.m_NeedsTransform) ∨
    (e.error.line = 631 ∧
      ¬ isFlipKeyword (parser.ReadString sect (self.m_ConfigArray ConfigIndexImageFlip) "NONE") ∧
      e.self.m_Flip = self.m_Flip ∧
      e.self.m_Rotate = self.m_Rotate ∧
      e.self.m_NeedsTransform = self.m_NeedsTransform ∧
      e.self.m_Crop = (cropValues self parser sect).1 ∧
      e.self.m_CropMode = (cropValues self parser sect).2 ∧
      e.self.m_GreyScale =
        decide (0 ≠ parser.ReadInt sect (self.m_ConfigArray ConfigIndexGreyscale) 0) ∧
      e.self.m_ColorMatrix = ReadConfig_matrix self.m_ConfigArray parser sect ∧
      e.self.m_NeedsCrop = decide (self.m_Crop.X ≠ e.self.m_Crop.X ∨
        self.m_Crop.Y ≠ e.self.m_Crop.Y ∨ self.m_Crop.Width ≠ e.self.m_Crop.Width ∨
        self.m_Crop.Height ≠ e.self.m_Crop.Height ∨ self.m_CropMode ≠ e.self.m_CropMode) ∧
      e.self.m_NeedsTinting = (decide (self.m_GreyScale ≠ e.self.m_GreyScale) ||
        !CompareColorMatrix self.m_ColorMatrix e.self.m_ColorMatrix) ∧
      e.self = { self with
        m_Crop := e.self.m_Crop
        m_CropMode := e.self.m_CropMode
        m_GreyScale := e.self.m_GreyScale
        m_ColorMatrix := e.self.m_ColorMatrix
        m_NeedsCrop := e.self.m_NeedsCrop
        m_NeedsTinting := e.self.m_NeedsTinting }) := by
  rw [ReadConfig_eq] at h
  by_cases ht : cropThrows self parser sect
  · rw [if_pos ht] at h
    simp only [Except.error.injEq] at h
    subst h
    left
    exact ⟨rfl, ht.1, ht.2.2, rfl, rfl, rfl, rfl, rfl, rfl, rfl, rfl⟩
  · rw [if_neg ht] at h
    cases hf : ReadConfig_flip
        (parser.ReadString sect (self.m_ConfigArray ConfigIndexImageFlip) "NONE") with
    | some f => rw [hf] at h; simp at h
    | none =>
      rw [hf] at h
      simp only [Except.error.injEq] at h
      subst h
      right
      exact ⟨rfl, (ReadConfig_flip_eq_none_iff _).1 hf, rfl, rfl, rfl, rfl, rfl, rfl, rfl, rfl,
        rfl, rfl⟩

theorem ReadConfig_thrown_state_witness :
    (new none none false).ReadConfig
        (exampleParser (some "0,0,10,10") (some "DIAGONAL") (some 1) none) "Meter"
      = .error ⟨⟨"ImageFlip=DIAGONAL is not valid in meter [Meter].", 631⟩,
          beforeFlip (new none none false)
            (exampleParser (some "0,0,10,10") (some "DIAGONAL") (some 1) none) "Meter"⟩ ∧
    (beforeFlip (new none none false)
      (exampleParser (some "0,0,10,10") (some "DIAGONAL") (some 1) none) "Meter").m_Crop
      = ⟨0, 0, 10, 10⟩ ∧
    (beforeFlip (new none none false)
      (exampleParser (some "0,0,10,10") (some "DIAGONAL") (some 1) none) "Meter").m_GreyScale
      = true ∧
    (beforeFlip (new none none false)
      (exampleParser (some "0,0,10,10") (some "DIAGONAL") (some 1) none) "Meter").m_NeedsTransform
      = false :=
  have h : (new none none false).ReadConfig
        (exampleParser (some "0,0,10,10") (some "DIAGONAL") (some 1) none) "Meter"
      = .error ⟨⟨"ImageFlip=DIAGONAL is not valid in meter [Meter].", 631⟩,
          beforeFlip (new none none false)
            (exampleParser (some "0,0,10,10") (some "DIAGONAL") (some 1) none) "Meter"⟩ := by
    rw [ReadConfig_eq, if_neg (by decide)]
    rfl
  ⟨h,
    ((ReadConfig_thrown_state _ _ _ _ h).resolve_left
      (fun hl => absurd hl.1 (by decide))).2.2.2.2.2.1.trans (by decide),
    ((ReadConfig_thrown_state _ _ _ _ h).resolve_left
      (fun hl => absurd hl.1 (by decide))).2.2.2.2.2.2.2.1.trans (by decide),
    ((ReadConfig_thrown_state _ _ _ _ h).resolve_left
      (fun hl => absurd hl.1 (by decide))).2.2.2.2.1.trans (by decide)⟩

end CTintedImage
